import Mathlib

/-!
# GLFW Win32 window backend (`src/win32_window.c`)

A shallow embedding of `win32_window.c`: the icon selector `bestFit`, the key
translator `translateKey`, the window procedure `windowProc`, the key fixup
of `_glfwPlatformPollEvents`, window creation (`registerWindowClass`,
`createWindow`, `_glfwPlatformCreateWindow`) and the pixel conversion of
`createIcon`, together with the properties the specification states about
them.

Conventions of the embedding.

* C `int` values are `Int`; the arithmetic that can leave the `int` range
  (the area product of `bestFit`, the cursor differences of `windowProc`,
  the sizes of `getFullWindowSize`, the pixel and byte counts of
  `createIcon`) is wrapped to 32 bits two's complement (`wrapInt32`).
* C `double` values are modelled by `Double`: IEEE 754 binary64 with
  round-to-nearest-even, every operation rounding its exact result.
* `WPARAM`, `UINT` and `DWORD` values are `Nat`. An `LPARAM` is given by its
  bit pattern, a `Nat`: the source only masks and shifts it. The `LONG` of
  `GetMessageTime` is an `Int`, converted to `DWORD` where the source does.
* The `GLFW_KEY_*` constants are kept as names (`Key`); their values are
  declared in the public header, outside this file. The result `-1` of
  `translateKey` is `none`.
* Calls into the operating system (`MapVirtualKey`, `GetMessageTime`,
  `PeekMessage`) read an explicit `Win32` state.
* Functions with effects return, next to their result, the window afterwards
  and the list of the calls they make into the library and the operating
  system, in order (`Call`); what these calls return is an argument.
-/

namespace Glfw

/-! ## IEEE 754 binary64 -/

/-- A C `double`: not-a-number, an infinity with its sign, or a finite value
given by the rational it denotes (the two zeros are identified, which no
comparison distinguishes). -/
inductive Double where
  | nan : Double
  | inf (negative : Bool) : Double
  | fin (q : ℚ) : Double
  deriving DecidableEq

/-- The rational `2 ^ e` for an integer exponent. -/
def pow2 (e : Int) : ℚ :=
  if 0 ≤ e then ((2 ^ e.toNat : Nat) : ℚ) else 1 / ((2 ^ (-e).toNat : Nat) : ℚ)

/-- Binary logarithm of a natural number by repeated halving, at most `fuel`
halvings. -/
def log2Fuel : Nat → Nat → Nat
  | 0, _ => 0
  | fuel + 1, n => if 2 ≤ n then log2Fuel fuel (n / 2) + 1 else 0

/-- The binary logarithm `⌊log₂ n⌋` (and `0` for `n = 0`): `n` halvings are
always enough. -/
def ilog2 (n : Nat) : Nat := log2Fuel n n

/-- For `q > 0`, the exponent `e` with `2 ^ e ≤ q < 2 ^ (e + 1)`. -/
def floorLog2 (q : ℚ) : Int :=
  let e0 : Int := (ilog2 q.num.natAbs : Int) - (ilog2 q.den : Int)
  if pow2 e0 ≤ q then e0 else e0 - 1

/-- Nearest integer, a tie going to the even neighbour. -/
def roundHalfEven (q : ℚ) : Int :=
  let f : Int := Rat.floor q
  let r : ℚ := q - (f : ℚ)
  if r < 1 / 2 then f
  else if 1 / 2 < r then f + 1
  else if f % 2 = 0 then f else f + 1

/-- Rounding of an exact result to binary64: 53 significant bits, least
exponent `-1022` (below it the spacing stays `2 ^ (-1074)`), and overflow to
an infinity once the rounded magnitude reaches `2 ^ 1024`. -/
def roundDouble (q : ℚ) : Double :=
  if q = 0 then Double.fin 0
  else
    let e : Int := max (floorLog2 |q|) (-1022)
    let ulp : ℚ := pow2 (e - 52)
    let r : ℚ := (roundHalfEven (q / ulp) : ℚ) * ulp
    if pow2 1024 ≤ |r| then Double.inf (decide (q < 0)) else Double.fin r

namespace Double

/-- Conversion `(double) n` of an integer. -/
def ofInt (n : Int) : Double := roundDouble (n : ℚ)

/-- Negation `-x`. -/
def neg : Double → Double
  | nan => nan
  | inf s => inf (!s)
  | fin q => fin (-q)

/-- Subtraction `x - y`. -/
def sub : Double → Double → Double
  | nan, _ => nan
  | _, nan => nan
  | inf s, inf t => if s = t then nan else inf s
  | inf s, fin _ => inf s
  | fin _, inf t => inf (!t)
  | fin a, fin b => roundDouble (a - b)

/-- Division `x / y`; a zero divisor is the positive zero, the only zero an
integer conversion produces. -/
def div : Double → Double → Double
  | nan, _ => nan
  | _, nan => nan
  | inf _, inf _ => nan
  | inf s, fin b => inf (s != decide (b < 0))
  | fin _, inf _ => fin 0
  | fin a, fin b =>
    if b = 0 then (if a = 0 then nan else inf (decide (a < 0)))
    else roundDouble (a / b)

/-- Comparison `x < y`, false as soon as an operand is not a number. -/
def lt : Double → Double → Bool
  | nan, _ => false
  | _, nan => false
  | inf s, inf t => s && !t
  | inf s, fin _ => s
  | fin _, inf t => !t
  | fin a, fin b => decide (a < b)

end Double

/-! ## Icon best-fit selection -/

/-- A candidate image: `GLFWimage` as `bestFit` and `createIcon` read it. -/
structure GLFWimage where
  width : Int
  height : Int
  data : List Nat
  deriving DecidableEq, Inhabited

/-- Reduction of an exact integer to the value a 32-bit two's complement
`int` holds. -/
def wrapInt32 (x : Int) : Int := (x + 2147483648) % 4294967296 - 2147483648

/-- The value `|targetRatio - ratio|` that `bestFit` computes for an icon of
the given size: `curDelta` and `bestDelta` of the source. -/
def ratioDelta (targetWidth targetHeight width height : Int) : Double :=
  let targetRatio := Double.div (Double.ofInt targetWidth) (Double.ofInt targetHeight)
  let ratio := Double.div (Double.ofInt width) (Double.ofInt height)
  let delta := Double.sub targetRatio ratio
  if Double.lt delta (Double.ofInt 0) then Double.neg delta else delta

/-- The body of the `while` loop of `bestFit` below the exact-match test:
whether `bestIcon = curIcon` is executed. -/
def becomesBest (targetWidth targetHeight : Int) (curIcon bestIcon : GLFWimage) : Bool :=
  if curIcon.width ≥ targetWidth ∨ curIcon.height ≥ targetHeight then
    let curDelta := ratioDelta targetWidth targetHeight curIcon.width curIcon.height
    let bestDelta := ratioDelta targetWidth targetHeight bestIcon.width bestIcon.height
    if Double.lt curDelta bestDelta
        ∨ (bestIcon.width < targetWidth ∧ bestIcon.height < targetHeight) then
      true
    else
      false
  else if bestIcon.width < targetWidth ∧ bestIcon.height < targetHeight then
    if wrapInt32 (curIcon.width * curIcon.height)
        > wrapInt32 (bestIcon.width * bestIcon.height) then
      true
    else
      false
  else
    false

/-- The `while (curIcon < icons + numicons)` loop of `bestFit`. Pointers
into the array are indices; the first argument counts the iterations that
remain, `numicons - curIcon`. -/
def bestFitLoop (icons : List GLFWimage) (targetWidth targetHeight : Int) :
    Nat → Nat → Nat → Nat
  | 0, _, bestIcon => bestIcon
  | n + 1, curIcon, bestIcon =>
    let cur := icons.getD curIcon default
    if cur.width = targetWidth ∧ cur.height = targetHeight then
      curIcon
    else if becomesBest targetWidth targetHeight cur (icons.getD bestIcon default) then
      bestFitLoop icons targetWidth targetHeight n (curIcon + 1) curIcon
    else
      bestFitLoop icons targetWidth targetHeight n (curIcon + 1) bestIcon

/-- The function `bestFit`: the index in `icons` of the image it returns a
pointer to. -/
def bestFit (icons : List GLFWimage) (numicons : Int) (targetWidth targetHeight : Int) : Nat :=
  bestFitLoop icons targetWidth targetHeight numicons.toNat 0 0

/-- An icon of the given size (pixel data left out). -/
def icon (w h : Int) : GLFWimage := ⟨w, h, []⟩

/-! ## Key translation -/

/-- The portable key identifiers `translateKey` returns, under the names the
source gives them. Their integer values are declared in the public header,
which this file does not contain. -/
inductive Key where
  | GLFW_KEY_KP_0 : Key
  | GLFW_KEY_KP_1 : Key
  | GLFW_KEY_KP_2 : Key
  | GLFW_KEY_KP_3 : Key
  | GLFW_KEY_KP_4 : Key
  | GLFW_KEY_KP_5 : Key
  | GLFW_KEY_KP_6 : Key
  | GLFW_KEY_KP_7 : Key
  | GLFW_KEY_KP_8 : Key
  | GLFW_KEY_KP_9 : Key
  | GLFW_KEY_KP_DIVIDE : Key
  | GLFW_KEY_KP_MULTIPLY : Key
  | GLFW_KEY_KP_SUBTRACT : Key
  | GLFW_KEY_KP_ADD : Key
  | GLFW_KEY_KP_DECIMAL : Key
  | GLFW_KEY_RIGHT_SHIFT : Key
  | GLFW_KEY_LEFT_SHIFT : Key
  | GLFW_KEY_RIGHT_CONTROL : Key
  | GLFW_KEY_LEFT_CONTROL : Key
  | GLFW_KEY_RIGHT_ALT : Key
  | GLFW_KEY_LEFT_ALT : Key
  | GLFW_KEY_KP_ENTER : Key
  | GLFW_KEY_ENTER : Key
  | GLFW_KEY_ESCAPE : Key
  | GLFW_KEY_TAB : Key
  | GLFW_KEY_BACKSPACE : Key
  | GLFW_KEY_HOME : Key
  | GLFW_KEY_END : Key
  | GLFW_KEY_PAGE_UP : Key
  | GLFW_KEY_PAGE_DOWN : Key
  | GLFW_KEY_INSERT : Key
  | GLFW_KEY_DELETE : Key
  | GLFW_KEY_LEFT : Key
  | GLFW_KEY_UP : Key
  | GLFW_KEY_RIGHT : Key
  | GLFW_KEY_DOWN : Key
  | GLFW_KEY_F1 : Key
  | GLFW_KEY_F2 : Key
  | GLFW_KEY_F3 : Key
  | GLFW_KEY_F4 : Key
  | GLFW_KEY_F5 : Key
  | GLFW_KEY_F6 : Key
  | GLFW_KEY_F7 : Key
  | GLFW_KEY_F8 : Key
  | GLFW_KEY_F9 : Key
  | GLFW_KEY_F10 : Key
  | GLFW_KEY_F11 : Key
  | GLFW_KEY_F12 : Key
  | GLFW_KEY_F13 : Key
  | GLFW_KEY_F14 : Key
  | GLFW_KEY_F15 : Key
  | GLFW_KEY_F16 : Key
  | GLFW_KEY_F17 : Key
  | GLFW_KEY_F18 : Key
  | GLFW_KEY_F19 : Key
  | GLFW_KEY_F20 : Key
  | GLFW_KEY_F21 : Key
  | GLFW_KEY_F22 : Key
  | GLFW_KEY_F23 : Key
  | GLFW_KEY_F24 : Key
  | GLFW_KEY_NUM_LOCK : Key
  | GLFW_KEY_CAPS_LOCK : Key
  | GLFW_KEY_SCROLL_LOCK : Key
  | GLFW_KEY_PAUSE : Key
  | GLFW_KEY_LEFT_SUPER : Key
  | GLFW_KEY_RIGHT_SUPER : Key
  | GLFW_KEY_MENU : Key
  | GLFW_KEY_SPACE : Key
  | GLFW_KEY_0 : Key
  | GLFW_KEY_1 : Key
  | GLFW_KEY_2 : Key
  | GLFW_KEY_3 : Key
  | GLFW_KEY_4 : Key
  | GLFW_KEY_5 : Key
  | GLFW_KEY_6 : Key
  | GLFW_KEY_7 : Key
  | GLFW_KEY_8 : Key
  | GLFW_KEY_9 : Key
  | GLFW_KEY_A : Key
  | GLFW_KEY_B : Key
  | GLFW_KEY_C : Key
  | GLFW_KEY_D : Key
  | GLFW_KEY_E : Key
  | GLFW_KEY_F : Key
  | GLFW_KEY_G : Key
  | GLFW_KEY_H : Key
  | GLFW_KEY_I : Key
  | GLFW_KEY_J : Key
  | GLFW_KEY_K : Key
  | GLFW_KEY_L : Key
  | GLFW_KEY_M : Key
  | GLFW_KEY_N : Key
  | GLFW_KEY_O : Key
  | GLFW_KEY_P : Key
  | GLFW_KEY_Q : Key
  | GLFW_KEY_R : Key
  | GLFW_KEY_S : Key
  | GLFW_KEY_T : Key
  | GLFW_KEY_U : Key
  | GLFW_KEY_V : Key
  | GLFW_KEY_W : Key
  | GLFW_KEY_X : Key
  | GLFW_KEY_Y : Key
  | GLFW_KEY_Z : Key
  | GLFW_KEY_MINUS : Key
  | GLFW_KEY_EQUAL : Key
  | GLFW_KEY_LEFT_BRACKET : Key
  | GLFW_KEY_RIGHT_BRACKET : Key
  | GLFW_KEY_BACKSLASH : Key
  | GLFW_KEY_SEMICOLON : Key
  | GLFW_KEY_APOSTROPHE : Key
  | GLFW_KEY_GRAVE_ACCENT : Key
  | GLFW_KEY_COMMA : Key
  | GLFW_KEY_PERIOD : Key
  | GLFW_KEY_SLASH : Key
  | GLFW_KEY_WORLD_1 : Key
  | GLFW_KEY_WORLD_2 : Key
  deriving DecidableEq

open Key

/-! Virtual-key codes and message identifiers of the Win32 API (`winuser.h`). -/

/-- Virtual-key code `VK_BACK`. -/
@[reducible]
def VK_BACK : Nat := 0x08

/-- Virtual-key code `VK_TAB`. -/
@[reducible]
def VK_TAB : Nat := 0x09

/-- Virtual-key code `VK_CLEAR`. -/
@[reducible]
def VK_CLEAR : Nat := 0x0C

/-- Virtual-key code `VK_RETURN`. -/
@[reducible]
def VK_RETURN : Nat := 0x0D

/-- Virtual-key code `VK_SHIFT`. -/
@[reducible]
def VK_SHIFT : Nat := 0x10

/-- Virtual-key code `VK_CONTROL`. -/
@[reducible]
def VK_CONTROL : Nat := 0x11

/-- Virtual-key code `VK_MENU`. -/
@[reducible]
def VK_MENU : Nat := 0x12

/-- Virtual-key code `VK_PAUSE`. -/
@[reducible]
def VK_PAUSE : Nat := 0x13

/-- Virtual-key code `VK_CAPITAL`. -/
@[reducible]
def VK_CAPITAL : Nat := 0x14

/-- Virtual-key code `VK_ESCAPE`. -/
@[reducible]
def VK_ESCAPE : Nat := 0x1B

/-- Virtual-key code `VK_SPACE`. -/
@[reducible]
def VK_SPACE : Nat := 0x20

/-- Virtual-key code `VK_PRIOR`. -/
@[reducible]
def VK_PRIOR : Nat := 0x21

/-- Virtual-key code `VK_NEXT`. -/
@[reducible]
def VK_NEXT : Nat := 0x22

/-- Virtual-key code `VK_END`. -/
@[reducible]
def VK_END : Nat := 0x23

/-- Virtual-key code `VK_HOME`. -/
@[reducible]
def VK_HOME : Nat := 0x24

/-- Virtual-key code `VK_LEFT`. -/
@[reducible]
def VK_LEFT : Nat := 0x25

/-- Virtual-key code `VK_UP`. -/
@[reducible]
def VK_UP : Nat := 0x26

/-- Virtual-key code `VK_RIGHT`. -/
@[reducible]
def VK_RIGHT : Nat := 0x27

/-- Virtual-key code `VK_DOWN`. -/
@[reducible]
def VK_DOWN : Nat := 0x28

/-- Virtual-key code `VK_INSERT`. -/
@[reducible]
def VK_INSERT : Nat := 0x2D

/-- Virtual-key code `VK_DELETE`. -/
@[reducible]
def VK_DELETE : Nat := 0x2E

/-- Virtual-key code `VK_LWIN`. -/
@[reducible]
def VK_LWIN : Nat := 0x5B

/-- Virtual-key code `VK_RWIN`. -/
@[reducible]
def VK_RWIN : Nat := 0x5C

/-- Virtual-key code `VK_APPS`. -/
@[reducible]
def VK_APPS : Nat := 0x5D

/-- Virtual-key code `VK_NUMPAD0`. -/
@[reducible]
def VK_NUMPAD0 : Nat := 0x60

/-- Virtual-key code `VK_NUMPAD1`. -/
@[reducible]
def VK_NUMPAD1 : Nat := 0x61

/-- Virtual-key code `VK_NUMPAD2`. -/
@[reducible]
def VK_NUMPAD2 : Nat := 0x62

/-- Virtual-key code `VK_NUMPAD3`. -/
@[reducible]
def VK_NUMPAD3 : Nat := 0x63

/-- Virtual-key code `VK_NUMPAD4`. -/
@[reducible]
def VK_NUMPAD4 : Nat := 0x64

/-- Virtual-key code `VK_NUMPAD5`. -/
@[reducible]
def VK_NUMPAD5 : Nat := 0x65

/-- Virtual-key code `VK_NUMPAD6`. -/
@[reducible]
def VK_NUMPAD6 : Nat := 0x66

/-- Virtual-key code `VK_NUMPAD7`. -/
@[reducible]
def VK_NUMPAD7 : Nat := 0x67

/-- Virtual-key code `VK_NUMPAD8`. -/
@[reducible]
def VK_NUMPAD8 : Nat := 0x68

/-- Virtual-key code `VK_NUMPAD9`. -/
@[reducible]
def VK_NUMPAD9 : Nat := 0x69

/-- Virtual-key code `VK_MULTIPLY`. -/
@[reducible]
def VK_MULTIPLY : Nat := 0x6A

/-- Virtual-key code `VK_ADD`. -/
@[reducible]
def VK_ADD : Nat := 0x6B

/-- Virtual-key code `VK_SUBTRACT`. -/
@[reducible]
def VK_SUBTRACT : Nat := 0x6D

/-- Virtual-key code `VK_DECIMAL`. -/
@[reducible]
def VK_DECIMAL : Nat := 0x6E

/-- Virtual-key code `VK_DIVIDE`. -/
@[reducible]
def VK_DIVIDE : Nat := 0x6F

/-- Virtual-key code `VK_F1`. -/
@[reducible]
def VK_F1 : Nat := 0x70

/-- Virtual-key code `VK_F2`. -/
@[reducible]
def VK_F2 : Nat := 0x71

/-- Virtual-key code `VK_F3`. -/
@[reducible]
def VK_F3 : Nat := 0x72

/-- Virtual-key code `VK_F4`. -/
@[reducible]
def VK_F4 : Nat := 0x73

/-- Virtual-key code `VK_F5`. -/
@[reducible]
def VK_F5 : Nat := 0x74

/-- Virtual-key code `VK_F6`. -/
@[reducible]
def VK_F6 : Nat := 0x75

/-- Virtual-key code `VK_F7`. -/
@[reducible]
def VK_F7 : Nat := 0x76

/-- Virtual-key code `VK_F8`. -/
@[reducible]
def VK_F8 : Nat := 0x77

/-- Virtual-key code `VK_F9`. -/
@[reducible]
def VK_F9 : Nat := 0x78

/-- Virtual-key code `VK_F10`. -/
@[reducible]
def VK_F10 : Nat := 0x79

/-- Virtual-key code `VK_F11`. -/
@[reducible]
def VK_F11 : Nat := 0x7A

/-- Virtual-key code `VK_F12`. -/
@[reducible]
def VK_F12 : Nat := 0x7B

/-- Virtual-key code `VK_F13`. -/
@[reducible]
def VK_F13 : Nat := 0x7C

/-- Virtual-key code `VK_F14`. -/
@[reducible]
def VK_F14 : Nat := 0x7D

/-- Virtual-key code `VK_F15`. -/
@[reducible]
def VK_F15 : Nat := 0x7E

/-- Virtual-key code `VK_F16`. -/
@[reducible]
def VK_F16 : Nat := 0x7F

/-- Virtual-key code `VK_F17`. -/
@[reducible]
def VK_F17 : Nat := 0x80

/-- Virtual-key code `VK_F18`. -/
@[reducible]
def VK_F18 : Nat := 0x81

/-- Virtual-key code `VK_F19`. -/
@[reducible]
def VK_F19 : Nat := 0x82

/-- Virtual-key code `VK_F20`. -/
@[reducible]
def VK_F20 : Nat := 0x83

/-- Virtual-key code `VK_F21`. -/
@[reducible]
def VK_F21 : Nat := 0x84

/-- Virtual-key code `VK_F22`. -/
@[reducible]
def VK_F22 : Nat := 0x85

/-- Virtual-key code `VK_F23`. -/
@[reducible]
def VK_F23 : Nat := 0x86

/-- Virtual-key code `VK_F24`. -/
@[reducible]
def VK_F24 : Nat := 0x87

/-- Virtual-key code `VK_NUMLOCK`. -/
@[reducible]
def VK_NUMLOCK : Nat := 0x90

/-- Virtual-key code `VK_SCROLL`. -/
@[reducible]
def VK_SCROLL : Nat := 0x91

/-- Virtual-key code `VK_RSHIFT`. -/
@[reducible]
def VK_RSHIFT : Nat := 0xA1

/-- Message identifier `WM_KEYDOWN`. -/
@[reducible]
def WM_KEYDOWN : Nat := 0x0100

/-- Message identifier `WM_SYSKEYDOWN`. -/
@[reducible]
def WM_SYSKEYDOWN : Nat := 0x0104

/-- The cases of the first `switch` of `translateKey`, on the virtual key the
scan code maps to: the numeric keypad. -/
def keypadTable : List (Nat × Key) :=
  [(VK_INSERT, GLFW_KEY_KP_0),
   (VK_END, GLFW_KEY_KP_1),
   (VK_DOWN, GLFW_KEY_KP_2),
   (VK_NEXT, GLFW_KEY_KP_3),
   (VK_LEFT, GLFW_KEY_KP_4),
   (VK_CLEAR, GLFW_KEY_KP_5),
   (VK_RIGHT, GLFW_KEY_KP_6),
   (VK_HOME, GLFW_KEY_KP_7),
   (VK_UP, GLFW_KEY_KP_8),
   (VK_PRIOR, GLFW_KEY_KP_9),
   (VK_DIVIDE, GLFW_KEY_KP_DIVIDE),
   (VK_MULTIPLY, GLFW_KEY_KP_MULTIPLY),
   (VK_SUBTRACT, GLFW_KEY_KP_SUBTRACT),
   (VK_ADD, GLFW_KEY_KP_ADD),
   (VK_DELETE, GLFW_KEY_KP_DECIMAL)]

/-- The cases of the second `switch` of `translateKey`, on `wParam`, below the
four special keys: the static table, in the order of the source. -/
def staticTable : List (Nat × Key) :=
  [(VK_ESCAPE, GLFW_KEY_ESCAPE),
   (VK_TAB, GLFW_KEY_TAB),
   (VK_BACK, GLFW_KEY_BACKSPACE),
   (VK_HOME, GLFW_KEY_HOME),
   (VK_END, GLFW_KEY_END),
   (VK_PRIOR, GLFW_KEY_PAGE_UP),
   (VK_NEXT, GLFW_KEY_PAGE_DOWN),
   (VK_INSERT, GLFW_KEY_INSERT),
   (VK_DELETE, GLFW_KEY_DELETE),
   (VK_LEFT, GLFW_KEY_LEFT),
   (VK_UP, GLFW_KEY_UP),
   (VK_RIGHT, GLFW_KEY_RIGHT),
   (VK_DOWN, GLFW_KEY_DOWN),
   (VK_F1, GLFW_KEY_F1),
   (VK_F2, GLFW_KEY_F2),
   (VK_F3, GLFW_KEY_F3),
   (VK_F4, GLFW_KEY_F4),
   (VK_F5, GLFW_KEY_F5),
   (VK_F6, GLFW_KEY_F6),
   (VK_F7, GLFW_KEY_F7),
   (VK_F8, GLFW_KEY_F8),
   (VK_F9, GLFW_KEY_F9),
   (VK_F10, GLFW_KEY_F10),
   (VK_F11, GLFW_KEY_F11),
   (VK_F12, GLFW_KEY_F12),
   (VK_F13, GLFW_KEY_F13),
   (VK_F14, GLFW_KEY_F14),
   (VK_F15, GLFW_KEY_F15),
   (VK_F16, GLFW_KEY_F16),
   (VK_F17, GLFW_KEY_F17),
   (VK_F18, GLFW_KEY_F18),
   (VK_F19, GLFW_KEY_F19),
   (VK_F20, GLFW_KEY_F20),
   (VK_F21, GLFW_KEY_F21),
   (VK_F22, GLFW_KEY_F22),
   (VK_F23, GLFW_KEY_F23),
   (VK_F24, GLFW_KEY_F24),
   (VK_NUMLOCK, GLFW_KEY_NUM_LOCK),
   (VK_CAPITAL, GLFW_KEY_CAPS_LOCK),
   (VK_SCROLL, GLFW_KEY_SCROLL_LOCK),
   (VK_PAUSE, GLFW_KEY_PAUSE),
   (VK_LWIN, GLFW_KEY_LEFT_SUPER),
   (VK_RWIN, GLFW_KEY_RIGHT_SUPER),
   (VK_APPS, GLFW_KEY_MENU),
   (VK_NUMPAD0, GLFW_KEY_KP_0),
   (VK_NUMPAD1, GLFW_KEY_KP_1),
   (VK_NUMPAD2, GLFW_KEY_KP_2),
   (VK_NUMPAD3, GLFW_KEY_KP_3),
   (VK_NUMPAD4, GLFW_KEY_KP_4),
   (VK_NUMPAD5, GLFW_KEY_KP_5),
   (VK_NUMPAD6, GLFW_KEY_KP_6),
   (VK_NUMPAD7, GLFW_KEY_KP_7),
   (VK_NUMPAD8, GLFW_KEY_KP_8),
   (VK_NUMPAD9, GLFW_KEY_KP_9),
   (VK_DIVIDE, GLFW_KEY_KP_DIVIDE),
   (VK_MULTIPLY, GLFW_KEY_KP_MULTIPLY),
   (VK_SUBTRACT, GLFW_KEY_KP_SUBTRACT),
   (VK_ADD, GLFW_KEY_KP_ADD),
   (VK_DECIMAL, GLFW_KEY_KP_DECIMAL),
   (VK_SPACE, GLFW_KEY_SPACE),
   (0x30, GLFW_KEY_0),
   (0x31, GLFW_KEY_1),
   (0x32, GLFW_KEY_2),
   (0x33, GLFW_KEY_3),
   (0x34, GLFW_KEY_4),
   (0x35, GLFW_KEY_5),
   (0x36, GLFW_KEY_6),
   (0x37, GLFW_KEY_7),
   (0x38, GLFW_KEY_8),
   (0x39, GLFW_KEY_9),
   (0x41, GLFW_KEY_A),
   (0x42, GLFW_KEY_B),
   (0x43, GLFW_KEY_C),
   (0x44, GLFW_KEY_D),
   (0x45, GLFW_KEY_E),
   (0x46, GLFW_KEY_F),
   (0x47, GLFW_KEY_G),
   (0x48, GLFW_KEY_H),
   (0x49, GLFW_KEY_I),
   (0x4A, GLFW_KEY_J),
   (0x4B, GLFW_KEY_K),
   (0x4C, GLFW_KEY_L),
   (0x4D, GLFW_KEY_M),
   (0x4E, GLFW_KEY_N),
   (0x4F, GLFW_KEY_O),
   (0x50, GLFW_KEY_P),
   (0x51, GLFW_KEY_Q),
   (0x52, GLFW_KEY_R),
   (0x53, GLFW_KEY_S),
   (0x54, GLFW_KEY_T),
   (0x55, GLFW_KEY_U),
   (0x56, GLFW_KEY_V),
   (0x57, GLFW_KEY_W),
   (0x58, GLFW_KEY_X),
   (0x59, GLFW_KEY_Y),
   (0x5A, GLFW_KEY_Z),
   (0xBD, GLFW_KEY_MINUS),
   (0xBB, GLFW_KEY_EQUAL),
   (0xDB, GLFW_KEY_LEFT_BRACKET),
   (0xDD, GLFW_KEY_RIGHT_BRACKET),
   (0xDC, GLFW_KEY_BACKSLASH),
   (0xBA, GLFW_KEY_SEMICOLON),
   (0xDE, GLFW_KEY_APOSTROPHE),
   (0xC0, GLFW_KEY_GRAVE_ACCENT),
   (0xBC, GLFW_KEY_COMMA),
   (0xBE, GLFW_KEY_PERIOD),
   (0xBF, GLFW_KEY_SLASH),
   (0xDF, GLFW_KEY_WORLD_1),
   (0xE2, GLFW_KEY_WORLD_2)]

/-- A message of the queue, `MSG`, with the fields `translateKey` reads.
`lParam` is the bit pattern of the `LPARAM`. -/
structure MSG where
  message : Nat
  wParam : Nat
  lParam : Nat
  time : Nat

/-- The operating-system state `translateKey` consults: the keyboard layout
map `MapVirtualKey(uCode, uMapType)`, the result of `GetMessageTime()` (a
`LONG`), and the pending messages, of which
`PeekMessage(&next_msg, NULL, 0, 0, PM_NOREMOVE)` reads the first without
removing it. -/
structure Win32 where
  MapVirtualKey : Nat → Nat → Nat
  GetMessageTime : Int
  queue : List MSG

/-- The macro `HIWORD`: bits 16 to 31. -/
def HIWORD (l : Nat) : Nat := (l >>> 16) &&& 0xffff

/-- Conversion of a `LONG` to a `DWORD`: the same 32 bits, read unsigned. -/
def toDWORD (x : Int) : Nat := (x % 4294967296).toNat

/-- The function `translateKey`. `lParam` is the bit pattern of the `LPARAM`.
The result is `some` of the `GLFW_KEY_*` constant the source returns, or
`none` where the source returns `-1`. -/
def translateKey (os : Win32) (wParam lParam : Nat) : Option Key :=
  let hiFlags := HIWORD lParam
  match (if hiFlags &&& 0x100 = 0 then
          keypadTable.lookup (os.MapVirtualKey (hiFlags &&& 0xFF) 1)
        else none) with
  | some key => some key
  | none =>
    if wParam = VK_SHIFT then
      let scan_code := os.MapVirtualKey VK_RSHIFT 0
      if (lParam &&& 0x01ff0000) >>> 16 = scan_code then
        some GLFW_KEY_RIGHT_SHIFT
      else
        some GLFW_KEY_LEFT_SHIFT
    else if wParam = VK_CONTROL then
      if lParam &&& 0x01000000 ≠ 0 then
        some GLFW_KEY_RIGHT_CONTROL
      else
        let msg_time := toDWORD os.GetMessageTime
        match os.queue.head? with
        | some next_msg =>
          if (next_msg.message = WM_KEYDOWN ∨ next_msg.message = WM_SYSKEYDOWN)
              ∧ next_msg.wParam = VK_MENU
              ∧ next_msg.lParam &&& 0x01000000 ≠ 0
              ∧ next_msg.time = msg_time then
            none
          else
            some GLFW_KEY_LEFT_CONTROL
        | none => some GLFW_KEY_LEFT_CONTROL
    else if wParam = VK_MENU then
      if lParam &&& 0x01000000 ≠ 0 then some GLFW_KEY_RIGHT_ALT else some GLFW_KEY_LEFT_ALT
    else if wParam = VK_RETURN then
      if lParam &&& 0x01000000 ≠ 0 then some GLFW_KEY_KP_ENTER else some GLFW_KEY_ENTER
    else
      match staticTable.lookup wParam with
      | some key => some key
      | none => none

/-- The extended-key flag of a key message: bit 24 of `lParam`. -/
def extendedKey (lParam : Nat) : Bool := lParam.testBit 24

/-- The scan code of a key message: bits 16 to 23 of `lParam`. -/
def scanCode (lParam : Nat) : Nat := lParam / 2 ^ 16 % 2 ^ 8

/-- The scan code maps to one of the keys of the numeric keypad, so that the
first `switch` of `translateKey` returns. -/
def keypadScanCode (os : Win32) (lParam : Nat) : Bool :=
  (keypadTable.lookup (os.MapVirtualKey (scanCode lParam) 1)).isSome

/-- A keyboard layout for the examples, with the scan codes of the US layout:
`MapVirtualKey(code, 0)` gives scan code `0x36` for `VK_RSHIFT`, and
`MapVirtualKey(code, 1)` maps scan code `0x47` to `VK_HOME`, `0x52` to
`VK_INSERT`, `0x2A` and `0x36` to `VK_SHIFT`, `0x1D` to `VK_CONTROL`, `0x38`
to `VK_MENU`, `0x1C` to `VK_RETURN` and `0x1E` to the letter A. -/
def sampleMapVirtualKey (uCode uMapType : Nat) : Nat :=
  if uMapType = 0 then
    (if uCode = VK_RSHIFT then 0x36 else 0)
  else if uCode = 0x47 then VK_HOME
  else if uCode = 0x52 then VK_INSERT
  else if uCode = 0x2A then VK_SHIFT
  else if uCode = 0x36 then VK_SHIFT
  else if uCode = 0x1D then VK_CONTROL
  else if uCode = 0x38 then VK_MENU
  else if uCode = 0x1C then VK_RETURN
  else if uCode = 0x1E then 0x41
  else 0

/-- The sample keyboard with a given message time and message queue. -/
def sampleOS (time : Int) (queue : List MSG) : Win32 :=
  ⟨sampleMapVirtualKey, time, queue⟩

/-- The numeric-keypad keys named by the specification, with the virtual key
their scan code maps to while NumLock is off. -/
def numpadRows : List (Nat × Key) :=
  [(VK_INSERT, GLFW_KEY_KP_0), (VK_END, GLFW_KEY_KP_1), (VK_DOWN, GLFW_KEY_KP_2),
   (VK_NEXT, GLFW_KEY_KP_3), (VK_LEFT, GLFW_KEY_KP_4), (VK_CLEAR, GLFW_KEY_KP_5),
   (VK_RIGHT, GLFW_KEY_KP_6), (VK_HOME, GLFW_KEY_KP_7), (VK_UP, GLFW_KEY_KP_8),
   (VK_PRIOR, GLFW_KEY_KP_9), (VK_DELETE, GLFW_KEY_KP_DECIMAL)]

/-! ## The window procedure -/

/-- Key and button actions, under the names of the public header. -/
inductive Action where
  | GLFW_RELEASE : Action
  | GLFW_PRESS : Action
  deriving DecidableEq

/-- Mouse buttons, under the names of the public header. -/
inductive MouseButton where
  | GLFW_MOUSE_BUTTON_LEFT : MouseButton
  | GLFW_MOUSE_BUTTON_RIGHT : MouseButton
  | GLFW_MOUSE_BUTTON_MIDDLE : MouseButton
  | GLFW_MOUSE_BUTTON_4 : MouseButton
  | GLFW_MOUSE_BUTTON_5 : MouseButton
  deriving DecidableEq

/-- Cursor modes, under the names of the public header. -/
inductive CursorMode where
  | GLFW_CURSOR_NORMAL : CursorMode
  | GLFW_CURSOR_HIDDEN : CursorMode
  | GLFW_CURSOR_CAPTURED : CursorMode
  deriving DecidableEq

/-- Error categories passed to `_glfwInputError`. -/
inductive ErrorCode where
  | GLFW_PLATFORM_ERROR : ErrorCode
  | GLFW_OUT_OF_MEMORY : ErrorCode
  deriving DecidableEq

open Action MouseButton CursorMode ErrorCode

/-- The fields of `_GLFWwindow` this file reads or writes. `id` stands for
the address of the object, `monitor` for `window->monitor` being non-null,
`key` for the array `window->key`; the last six are the fields of
`window->win32`. -/
structure Window where
  id : Nat
  monitor : Bool
  cursorMode : CursorMode
  key : Key → Int
  cursorPosX : Int
  cursorPosY : Int
  handle : Nat
  dwStyle : Nat
  dwExStyle : Nat
  oldCursorX : Int
  oldCursorY : Int
  cursorCentered : Bool
  cursorInside : Bool

/-- A call this file makes into the rest of the library (the `_glfw*`
functions of `internal.h`, all on the window being handled) or into the
operating system, with the arguments and results the properties speak of.
Calls that only query the system are left out. -/
inductive Call where
  | _glfwInputKey (key : Option Key) (action : Action) : Call
  | _glfwInputChar (character : Nat) : Call
  | _glfwInputMouseClick (button : MouseButton) (action : Action) : Call
  | _glfwInputCursorMotion (x y : Int) : Call
  | _glfwInputCursorEnter (entered : Bool) : Call
  | _glfwInputScroll (x y : Double) : Call
  | _glfwInputWindowSize (width height : Nat) : Call
  | _glfwInputWindowPos (x y : Nat) : Call
  | _glfwInputWindowFocus (focused : Bool) : Call
  | _glfwInputWindowIconify (iconified : Bool) : Call
  | _glfwInputWindowVisibility (visible : Bool) : Call
  | _glfwInputWindowCloseRequest : Call
  | _glfwInputWindowDamage : Call
  | _glfwInputMonitorChange : Call
  | _glfwInputError (code : ErrorCode) : Call
  | _glfwSetVideoMode : Call
  | _glfwRestoreVideoMode : Call
  | _glfwCreateWideStringFromUTF8 (converted : Bool) : Call
  | _glfwCreateContext (created : Bool) : Call
  | _glfwAnalyzeContext : Call
  | _glfwPlatformMakeContextCurrent : Call
  | _glfwDestroyContext : Call
  | RegisterClass (classAtom : Nat) : Call
  | CreateWindowEx (dwExStyle dwStyle : Nat) (x y nWidth nHeight : Int) (handle : Nat) : Call
  | free : Call
  | DestroyWindow : Call
  | SetWindowLongPtr : Call
  | ReleaseCapture : Call
  | SetCapture : Call
  | ClipCursor (toClientArea : Bool) : Call
  | ShowCursor (bShow : Bool) : Call
  | ShowWindow (nCmdShow : Nat) : Call
  | BringWindowToTop : Call
  | SetForegroundWindow : Call
  | SetFocus : Call
  | SetWindowPos : Call
  | SetCursorPos (x y : Int) : Call
  | TrackMouseEvent : Call
  | DefWindowProc : Call
  deriving DecidableEq

/-! Message identifiers and parameters of the Win32 API (`winuser.h`,
`dbt.h`). -/

/-- Message identifier `WM_CREATE`. -/
@[reducible]
def WM_CREATE : Nat := 0x0001

/-- Message identifier `WM_MOVE`. -/
@[reducible]
def WM_MOVE : Nat := 0x0003

/-- Message identifier `WM_SIZE`. -/
@[reducible]
def WM_SIZE : Nat := 0x0005

/-- Message identifier `WM_ACTIVATE`. -/
@[reducible]
def WM_ACTIVATE : Nat := 0x0006

/-- Message identifier `WM_PAINT`. -/
@[reducible]
def WM_PAINT : Nat := 0x000F

/-- Message identifier `WM_CLOSE`. -/
@[reducible]
def WM_CLOSE : Nat := 0x0010

/-- Message identifier `WM_SHOWWINDOW`. -/
@[reducible]
def WM_SHOWWINDOW : Nat := 0x0018

/-- Message identifier `WM_KEYUP`. -/
@[reducible]
def WM_KEYUP : Nat := 0x0101

/-- Message identifier `WM_CHAR`. -/
@[reducible]
def WM_CHAR : Nat := 0x0102

/-- Message identifier `WM_SYSKEYUP`. -/
@[reducible]
def WM_SYSKEYUP : Nat := 0x0105

/-- Message identifier `WM_SYSCOMMAND`. -/
@[reducible]
def WM_SYSCOMMAND : Nat := 0x0112

/-- Message identifier `WM_MOUSEMOVE`. -/
@[reducible]
def WM_MOUSEMOVE : Nat := 0x0200

/-- Message identifier `WM_LBUTTONDOWN`. -/
@[reducible]
def WM_LBUTTONDOWN : Nat := 0x0201

/-- Message identifier `WM_LBUTTONUP`. -/
@[reducible]
def WM_LBUTTONUP : Nat := 0x0202

/-- Message identifier `WM_RBUTTONDOWN`. -/
@[reducible]
def WM_RBUTTONDOWN : Nat := 0x0204

/-- Message identifier `WM_RBUTTONUP`. -/
@[reducible]
def WM_RBUTTONUP : Nat := 0x0205

/-- Message identifier `WM_MBUTTONDOWN`. -/
@[reducible]
def WM_MBUTTONDOWN : Nat := 0x0207

/-- Message identifier `WM_MBUTTONUP`. -/
@[reducible]
def WM_MBUTTONUP : Nat := 0x0208

/-- Message identifier `WM_MOUSEWHEEL`. -/
@[reducible]
def WM_MOUSEWHEEL : Nat := 0x020A

/-- Message identifier `WM_XBUTTONDOWN`. -/
@[reducible]
def WM_XBUTTONDOWN : Nat := 0x020B

/-- Message identifier `WM_XBUTTONUP`. -/
@[reducible]
def WM_XBUTTONUP : Nat := 0x020C

/-- Message identifier `WM_MOUSEHWHEEL`. -/
@[reducible]
def WM_MOUSEHWHEEL : Nat := 0x020E

/-- Message identifier `WM_DEVICECHANGE`. -/
@[reducible]
def WM_DEVICECHANGE : Nat := 0x0219

/-- Message identifier `WM_MOUSELEAVE`. -/
@[reducible]
def WM_MOUSELEAVE : Nat := 0x02A3

/-- Activation state `WA_INACTIVE`. -/
@[reducible]
def WA_INACTIVE : Nat := 0

/-- System command `SC_KEYMENU`. -/
@[reducible]
def SC_KEYMENU : Nat := 0xF100

/-- System command `SC_SCREENSAVE`. -/
@[reducible]
def SC_SCREENSAVE : Nat := 0xF140

/-- System command `SC_MONITORPOWER`. -/
@[reducible]
def SC_MONITORPOWER : Nat := 0xF170

/-- Extended mouse button `XBUTTON1`. -/
@[reducible]
def XBUTTON1 : Nat := 0x0001

/-- Extended mouse button `XBUTTON2`. -/
@[reducible]
def XBUTTON2 : Nat := 0x0002

/-- Device event `DBT_DEVNODES_CHANGED`. -/
@[reducible]
def DBT_DEVNODES_CHANGED : Nat := 0x0007

/-- Wheel rotation unit `WHEEL_DELTA`. -/
@[reducible]
def WHEEL_DELTA : Int := 120

/-- Show command `SW_HIDE`. -/
@[reducible]
def SW_HIDE : Nat := 0

/-- Show command `SW_SHOWNORMAL`. -/
@[reducible]
def SW_SHOWNORMAL : Nat := 1

/-- Show command `SW_MINIMIZE`. -/
@[reducible]
def SW_MINIMIZE : Nat := 6

/-- Show command `SW_RESTORE`. -/
@[reducible]
def SW_RESTORE : Nat := 9

/-- Virtual-key code `VK_LSHIFT`. -/
@[reducible]
def VK_LSHIFT : Nat := 0xA0

/-- The macro `LOWORD`: bits 0 to 15. -/
def LOWORD (l : Nat) : Nat := l &&& 0xffff

/-- The conversion `(short)` of a 16-bit word: the same bits, read signed. -/
def toShort (w : Nat) : Int :=
  if w % 65536 < 32768 then ((w % 65536 : Nat) : Int) else ((w % 65536 : Nat) : Int) - 65536

/-- The macro `GET_X_LPARAM`: `(int)(short) LOWORD(lp)`. -/
def GET_X_LPARAM (lp : Nat) : Int := toShort (LOWORD lp)

/-- The macro `GET_Y_LPARAM`: `(int)(short) HIWORD(lp)`. -/
def GET_Y_LPARAM (lp : Nat) : Int := toShort (HIWORD lp)

/-- The function `updateClipRect`: the cursor is clipped to the client area. -/
def updateClipRect : List Call := [Call.ClipCursor true]

/-- The function `captureCursor`. -/
def captureCursor : List Call :=
  [Call.ShowCursor false] ++ updateClipRect ++ [Call.SetCapture]

/-- The function `showCursor`. -/
def showCursor : List Call :=
  [Call.ReleaseCapture, Call.ClipCursor false, Call.ShowCursor true]

/-- The function `_glfwPlatformIconifyWindow`. -/
def _glfwPlatformIconifyWindow : List Call := [Call.ShowWindow SW_MINIMIZE]

/-- The function `_glfwPlatformShowWindow`. -/
def _glfwPlatformShowWindow : List Call :=
  [Call.ShowWindow SW_SHOWNORMAL, Call.BringWindowToTop, Call.SetForegroundWindow,
   Call.SetFocus]

/-- The end of the case `WM_MOUSEMOVE`: the first message after the cursor
was outside asks for a `WM_MOUSELEAVE` and reports the cursor as entered. -/
def trackCursorEnter (window : Window) (calls : List Call) : Window × List Call × Int :=
  if !window.cursorInside then
    ({ window with cursorInside := true },
      calls ++ [Call.TrackMouseEvent, Call._glfwInputCursorEnter true], 0)
  else
    (window, calls, 0)

/-- The case `WM_MOUSEMOVE` of `windowProc`. The subtraction is the `int`
subtraction of the source, wrapped to 32 bits. -/
def windowProc_WM_MOUSEMOVE (focusedWindow : Option Nat) (window : Window) (lParam : Nat) :
    Window × List Call × Int :=
  let newCursorX := GET_X_LPARAM lParam
  let newCursorY := GET_Y_LPARAM lParam
  if newCursorX ≠ window.oldCursorX ∨ newCursorY ≠ window.oldCursorY then
    if window.cursorMode = GLFW_CURSOR_CAPTURED then
      if focusedWindow ≠ some window.id then
        (window, [], 0)
      else
        let x := wrapInt32 (newCursorX - window.oldCursorX)
        let y := wrapInt32 (newCursorY - window.oldCursorY)
        trackCursorEnter
          { window with
            oldCursorX := newCursorX, oldCursorY := newCursorY, cursorCentered := false }
          [Call._glfwInputCursorMotion x y]
    else
      let x := newCursorX
      let y := newCursorY
      trackCursorEnter
        { window with
          oldCursorX := newCursorX, oldCursorY := newCursorY, cursorCentered := false }
        [Call._glfwInputCursorMotion x y]
  else
    trackCursorEnter window []

/-- The case `WM_ACTIVATE` of `windowProc`. `focusedWindow` is
`_glfw.focusedWindow`, the address of the focused window if there is one. -/
def windowProc_WM_ACTIVATE (focusedWindow : Option Nat) (window : Window) (wParam : Nat) :
    Window × List Call × Int :=
  let focused0 : Bool := decide (LOWORD wParam ≠ WA_INACTIVE)
  let iconified : Bool := decide (HIWORD wParam ≠ 0)
  let focused : Bool := if focused0 && iconified then false else focused0
  let calls : List Call :=
    if !focused && decide (focusedWindow = some window.id) then
      (if window.cursorMode = GLFW_CURSOR_CAPTURED then showCursor else [])
        ++ (if window.monitor then
              (if !iconified then _glfwPlatformIconifyWindow else [])
                ++ [Call._glfwRestoreVideoMode]
            else [])
    else if focused && decide (focusedWindow ≠ some window.id) then
      (if window.cursorMode = GLFW_CURSOR_CAPTURED then captureCursor else [])
        ++ (if window.monitor then [Call._glfwSetVideoMode] else [])
    else []
  (window,
    calls ++ [Call._glfwInputWindowFocus focused, Call._glfwInputWindowIconify iconified], 0)

/-- The function `windowProc`: the window after the message, the calls made in
order, and the result. `focusedWindow` is `_glfw.focusedWindow`, `defResult`
the value `DefWindowProc` returns; the messages the `switch` does not list go
to `DefWindowProc`. -/
def windowProc (os : Win32) (focusedWindow : Option Nat) (defResult : Int)
    (window : Window) (uMsg wParam lParam : Nat) : Window × List Call × Int :=
  if uMsg = WM_CREATE then
    (window, [Call.SetWindowLongPtr, Call.DefWindowProc], defResult)
  else if uMsg = WM_ACTIVATE then
    windowProc_WM_ACTIVATE focusedWindow window wParam
  else if uMsg = WM_SHOWWINDOW then
    (window, [Call._glfwInputWindowVisibility (decide (wParam ≠ 0)), Call.DefWindowProc],
      defResult)
  else if uMsg = WM_SYSCOMMAND then
    if wParam &&& 0xfff0 = SC_SCREENSAVE ∨ wParam &&& 0xfff0 = SC_MONITORPOWER then
      if window.monitor then (window, [], 0)
      else (window, [Call.DefWindowProc], defResult)
    else if wParam &&& 0xfff0 = SC_KEYMENU then
      (window, [], 0)
    else
      (window, [Call.DefWindowProc], defResult)
  else if uMsg = WM_CLOSE then
    (window, [Call._glfwInputWindowCloseRequest], 0)
  else if uMsg = WM_KEYDOWN ∨ uMsg = WM_SYSKEYDOWN then
    (window, [Call._glfwInputKey (translateKey os wParam lParam) GLFW_PRESS,
      Call.DefWindowProc], defResult)
  else if uMsg = WM_CHAR then
    (window, [Call._glfwInputChar wParam], 0)
  else if uMsg = WM_KEYUP ∨ uMsg = WM_SYSKEYUP then
    if wParam = VK_SHIFT then
      (window, [Call._glfwInputKey (some GLFW_KEY_LEFT_SHIFT) GLFW_RELEASE,
        Call._glfwInputKey (some GLFW_KEY_RIGHT_SHIFT) GLFW_RELEASE,
        Call.DefWindowProc], defResult)
    else
      (window, [Call._glfwInputKey (translateKey os wParam lParam) GLFW_RELEASE,
        Call.DefWindowProc], defResult)
  else if uMsg = WM_LBUTTONDOWN then
    (window, [Call.SetCapture, Call._glfwInputMouseClick GLFW_MOUSE_BUTTON_LEFT GLFW_PRESS], 0)
  else if uMsg = WM_RBUTTONDOWN then
    (window, [Call.SetCapture, Call._glfwInputMouseClick GLFW_MOUSE_BUTTON_RIGHT GLFW_PRESS], 0)
  else if uMsg = WM_MBUTTONDOWN then
    (window, [Call.SetCapture, Call._glfwInputMouseClick GLFW_MOUSE_BUTTON_MIDDLE GLFW_PRESS],
      0)
  else if uMsg = WM_XBUTTONDOWN then
    if HIWORD wParam = XBUTTON1 then
      (window, [Call.SetCapture, Call._glfwInputMouseClick GLFW_MOUSE_BUTTON_4 GLFW_PRESS], 1)
    else if HIWORD wParam = XBUTTON2 then
      (window, [Call.SetCapture, Call._glfwInputMouseClick GLFW_MOUSE_BUTTON_5 GLFW_PRESS], 1)
    else
      (window, [], 1)
  else if uMsg = WM_LBUTTONUP then
    (window, [Call.ReleaseCapture,
      Call._glfwInputMouseClick GLFW_MOUSE_BUTTON_LEFT GLFW_RELEASE], 0)
  else if uMsg = WM_RBUTTONUP then
    (window, [Call.ReleaseCapture,
      Call._glfwInputMouseClick GLFW_MOUSE_BUTTON_RIGHT GLFW_RELEASE], 0)
  else if uMsg = WM_MBUTTONUP then
    (window, [Call.ReleaseCapture,
      Call._glfwInputMouseClick GLFW_MOUSE_BUTTON_MIDDLE GLFW_RELEASE], 0)
  else if uMsg = WM_XBUTTONUP then
    if HIWORD wParam = XBUTTON1 then
      (window, [Call.ReleaseCapture,
        Call._glfwInputMouseClick GLFW_MOUSE_BUTTON_4 GLFW_RELEASE], 1)
    else if HIWORD wParam = XBUTTON2 then
      (window, [Call.ReleaseCapture,
        Call._glfwInputMouseClick GLFW_MOUSE_BUTTON_5 GLFW_RELEASE], 1)
    else
      (window, [], 1)
  else if uMsg = WM_MOUSEMOVE then
    windowProc_WM_MOUSEMOVE focusedWindow window lParam
  else if uMsg = WM_MOUSELEAVE then
    ({ window with cursorInside := false }, [Call._glfwInputCursorEnter false], 0)
  else if uMsg = WM_MOUSEWHEEL then
    (window, [Call._glfwInputScroll (Double.fin 0)
      (Double.div (Double.ofInt (toShort (HIWORD wParam))) (Double.ofInt WHEEL_DELTA))], 0)
  else if uMsg = WM_MOUSEHWHEEL then
    (window, [Call._glfwInputScroll
      (Double.div (Double.ofInt (toShort (HIWORD wParam))) (Double.ofInt WHEEL_DELTA))
      (Double.fin 0)], 0)
  else if uMsg = WM_SIZE then
    (window, (if window.cursorMode = GLFW_CURSOR_CAPTURED then updateClipRect else [])
      ++ [Call._glfwInputWindowSize (LOWORD lParam) (HIWORD lParam)], 0)
  else if uMsg = WM_MOVE then
    (window, (if window.cursorMode = GLFW_CURSOR_CAPTURED then updateClipRect else [])
      ++ [Call._glfwInputWindowPos (LOWORD lParam) (HIWORD lParam)], 0)
  else if uMsg = WM_PAINT then
    (window, [Call._glfwInputWindowDamage, Call.DefWindowProc], defResult)
  else if uMsg = WM_DEVICECHANGE then
    if DBT_DEVNODES_CHANGED = wParam then
      (window, [Call._glfwInputMonitorChange], 1)
    else
      (window, [Call.DefWindowProc], defResult)
  else
    (window, [Call.DefWindowProc], defResult)

/-! ## Polling -/

/-- The part of `_glfwPlatformPollEvents` that follows the message loop: the
shift-key fixup and the re-centring of a captured cursor, for the focused
window `_glfw.focusedWindow` if there is one. `GetAsyncKeyState` gives the bit
pattern of the `SHORT` the system returns, whose bit 15 the expression
`(GetAsyncKeyState(vk) >> 15) & 1` keeps; `clientSize` is the client area
`_glfwPlatformGetWindowSize` reads and `ClientToScreen` the conversion
`_glfwPlatformSetCursorPos` applies. The two tests read the key array as it is
on entry. -/
def pollEventsAfterLoop (GetAsyncKeyState : Nat → Nat) (clientSize : Int × Int)
    (ClientToScreen : Int × Int → Int × Int) (focusedWindow : Option Window) :
    Option Window × List Call :=
  match focusedWindow with
  | none => (none, [])
  | some window =>
    let lshift_down := (GetAsyncKeyState VK_LSHIFT >>> 15) &&& 1
    let rshift_down := (GetAsyncKeyState VK_RSHIFT >>> 15) &&& 1
    let left : List Call :=
      if lshift_down = 0 ∧ window.key GLFW_KEY_LEFT_SHIFT = 1 then
        [Call._glfwInputKey (some GLFW_KEY_LEFT_SHIFT) GLFW_RELEASE]
      else []
    let right : List Call :=
      if rshift_down = 0 ∧ window.key GLFW_KEY_RIGHT_SHIFT = 1 then
        [Call._glfwInputKey (some GLFW_KEY_RIGHT_SHIFT) GLFW_RELEASE]
      else []
    if window.cursorMode = GLFW_CURSOR_CAPTURED ∧ window.cursorCentered = false then
      let pos := ClientToScreen (Int.tdiv clientSize.1 2, Int.tdiv clientSize.2 2)
      (some { window with cursorCentered := true },
        left ++ right ++ [Call.SetCursorPos pos.1 pos.2])
    else
      (some window, left ++ right)

/-! ## Window creation -/

/-- Window style `WS_POPUP`. -/
@[reducible]
def WS_POPUP : Nat := 0x80000000

/-- Window style `WS_CLIPSIBLINGS`. -/
@[reducible]
def WS_CLIPSIBLINGS : Nat := 0x04000000

/-- Window style `WS_CLIPCHILDREN`. -/
@[reducible]
def WS_CLIPCHILDREN : Nat := 0x02000000

/-- Window style `WS_CAPTION`. -/
@[reducible]
def WS_CAPTION : Nat := 0x00C00000

/-- Window style `WS_SYSMENU`. -/
@[reducible]
def WS_SYSMENU : Nat := 0x00080000

/-- Window style `WS_SIZEBOX`. -/
@[reducible]
def WS_SIZEBOX : Nat := 0x00040000

/-- Window style `WS_MINIMIZEBOX`. -/
@[reducible]
def WS_MINIMIZEBOX : Nat := 0x00020000

/-- Window style `WS_MAXIMIZEBOX`. -/
@[reducible]
def WS_MAXIMIZEBOX : Nat := 0x00010000

/-- Extended window style `WS_EX_APPWINDOW`. -/
@[reducible]
def WS_EX_APPWINDOW : Nat := 0x00040000

/-- Extended window style `WS_EX_WINDOWEDGE`. -/
@[reducible]
def WS_EX_WINDOWEDGE : Nat := 0x00000100

/-- Default position `CW_USEDEFAULT`, `(int) 0x80000000`. -/
@[reducible]
def CW_USEDEFAULT : Int := -2147483648

/-- The Win32 structure `RECT`. -/
structure RECT where
  left : Int
  top : Int
  right : Int
  bottom : Int

/-- The fields of `_GLFWwndconfig` that `createWindow` reads, the title
apart. -/
structure WndConfig where
  width : Int
  height : Int
  resizable : Bool

/-- The results `_glfwAnalyzeContext` can return, under the names of
`internal.h`. -/
inductive RecreationStatus where
  | _GLFW_RECREATION_NOT_NEEDED : RecreationStatus
  | _GLFW_RECREATION_REQUIRED : RecreationStatus
  | _GLFW_RECREATION_IMPOSSIBLE : RecreationStatus
  deriving DecidableEq

open RecreationStatus

/-- What the calls made during window creation return. The calls that
`createWindow` makes are indexed by the call of `createWindow` they belong to,
`0` for the first and `1` for the re-creation: `_glfwCreateWideStringFromUTF8`
(a string or `NULL`), `CreateWindowEx` (a handle, `0` for `NULL`), the cursor
position after `ScreenToClient`, and `_glfwCreateContext`. -/
structure CreationResults where
  RegisterClass : Nat
  _glfwSetVideoMode : Bool
  _glfwPlatformGetMonitorPos : Int × Int
  AdjustWindowRectEx : RECT → Nat → Nat → RECT
  _glfwCreateWideStringFromUTF8 : Nat → Bool
  CreateWindowEx : Nat → Nat
  ScreenToClient : Nat → Int × Int
  _glfwCreateContext : Nat → Bool
  _glfwAnalyzeContext : RecreationStatus

/-- The function `registerWindowClass`: the atom it returns and the calls it
makes. -/
def registerWindowClass (results : CreationResults) : Nat × List Call :=
  let classAtom := results.RegisterClass
  if classAtom = 0 then
    (0, [Call.RegisterClass classAtom, Call._glfwInputError GLFW_PLATFORM_ERROR])
  else
    (classAtom, [Call.RegisterClass classAtom])

/-- The function `getFullWindowSize`. -/
def getFullWindowSize (results : CreationResults) (window : Window)
    (clientWidth clientHeight : Int) : Int × Int :=
  let rect := results.AdjustWindowRectEx ⟨0, 0, clientWidth, clientHeight⟩ window.dwStyle
    window.dwExStyle
  (wrapInt32 (rect.right - rect.left), wrapInt32 (rect.bottom - rect.top))

/-- The function `createWindow`, in its call number `attempt`: the window
afterwards, the calls made in order, and whether it returns `GL_TRUE`. -/
def createWindow (results : CreationResults) (attempt : Nat) (window : Window)
    (wndconfig : WndConfig) : Window × List Call × Bool :=
  let styled : Window :=
    if window.monitor then
      { window with
        dwStyle := WS_CLIPSIBLINGS ||| WS_CLIPCHILDREN ||| WS_POPUP,
        dwExStyle := WS_EX_APPWINDOW }
    else if wndconfig.resizable then
      { window with
        dwStyle := WS_CLIPSIBLINGS ||| WS_CLIPCHILDREN
          ||| (WS_CAPTION ||| WS_SYSMENU ||| WS_MINIMIZEBOX)
          ||| (WS_MAXIMIZEBOX ||| WS_SIZEBOX),
        dwExStyle := WS_EX_APPWINDOW ||| WS_EX_WINDOWEDGE }
    else
      { window with
        dwStyle := WS_CLIPSIBLINGS ||| WS_CLIPCHILDREN
          ||| (WS_CAPTION ||| WS_SYSMENU ||| WS_MINIMIZEBOX),
        dwExStyle := WS_EX_APPWINDOW }
  let pos : Int × Int :=
    if window.monitor then results._glfwPlatformGetMonitorPos else (CW_USEDEFAULT, CW_USEDEFAULT)
  let full : Int × Int :=
    if window.monitor then (wndconfig.width, wndconfig.height)
    else getFullWindowSize results styled wndconfig.width wndconfig.height
  if results._glfwCreateWideStringFromUTF8 attempt = false then
    (styled,
      [Call._glfwCreateWideStringFromUTF8 false, Call._glfwInputError GLFW_PLATFORM_ERROR],
      false)
  else
    let handle := results.CreateWindowEx attempt
    let created : Window := { styled with handle := handle }
    let calls : List Call :=
      [Call._glfwCreateWideStringFromUTF8 true,
       Call.CreateWindowEx styled.dwExStyle styled.dwStyle pos.1 pos.2 full.1 full.2 handle,
       Call.free]
    if handle = 0 then
      (created, calls ++ [Call._glfwInputError GLFW_PLATFORM_ERROR], false)
    else
      let cursorPos := results.ScreenToClient attempt
      let placed : Window :=
        { created with
          cursorPosX := cursorPos.1, oldCursorX := cursorPos.1,
          cursorPosY := cursorPos.2, oldCursorY := cursorPos.2 }
      if results._glfwCreateContext attempt = false then
        (placed, calls ++ [Call._glfwCreateContext false], false)
      else
        (placed, calls ++ [Call._glfwCreateContext true], true)

/-- The function `destroyWindow`. -/
def destroyWindow (window : Window) : Window × List Call :=
  if window.handle ≠ 0 then
    ({ window with handle := 0 }, [Call._glfwDestroyContext, Call.DestroyWindow])
  else
    (window, [Call._glfwDestroyContext])

/-- The function `_glfwPlatformCreateWindow`: the value of
`_glfw.win32.classAtom` and the window afterwards, the calls made in order,
and whether it returns `GL_TRUE`. -/
def _glfwPlatformCreateWindow (results : CreationResults) (classAtom : Nat) (window : Window)
    (wndconfig : WndConfig) : Nat × Window × List Call × Bool :=
  let registered : Nat × List Call :=
    if classAtom = 0 then registerWindowClass results else (classAtom, [])
  if registered.1 = 0 then
    (registered.1, window, registered.2, false)
  else
    let calls1 : List Call :=
      registered.2 ++ (if window.monitor then [Call._glfwSetVideoMode] else [])
    if window.monitor = true ∧ results._glfwSetVideoMode = false then
      (registered.1, window, calls1, false)
    else
      let first := createWindow results 0 window wndconfig
      if first.2.2 = false then
        (registered.1, first.1, calls1 ++ first.2.1, false)
      else
        let calls2 : List Call := calls1 ++ first.2.1 ++ [Call._glfwAnalyzeContext]
        if results._glfwAnalyzeContext = _GLFW_RECREATION_IMPOSSIBLE then
          (registered.1, first.1, calls2, false)
        else
          let shown : List Call :=
            if window.monitor then _glfwPlatformShowWindow ++ [Call.SetWindowPos] else []
          if results._glfwAnalyzeContext = _GLFW_RECREATION_REQUIRED then
            let destroyed := destroyWindow first.1
            let second := createWindow results 1 destroyed.1 wndconfig
            let calls3 : List Call :=
              calls2 ++ [Call._glfwPlatformMakeContextCurrent] ++ destroyed.2 ++ second.2.1
            if second.2.2 = false then
              (registered.1, second.1, calls3, false)
            else
              (registered.1, second.1, calls3 ++ shown, true)
          else
            (registered.1, first.1, calls2 ++ shown, true)

/-! ## Icon creation -/

/-- The bytes the loop of `createIcon` writes into the block `BGRAData`, in the
order of their offsets `4 * i`: for each `i` below
`image->width * image->height` (an `int` product), the four bytes of pixel `i`
of `image->data` with the first and the third exchanged. A byte past the end of
`data` reads as `0`. -/
def BGRAData (image : GLFWimage) : List Nat :=
  (List.range (wrapInt32 (image.width * image.height)).toNat).flatMap fun i =>
    [image.data.getD (4 * i + 2) 0, image.data.getD (4 * i + 1) 0,
     image.data.getD (4 * i) 0, image.data.getD (4 * i + 3) 0]

/-- The conversion of an `int` to `size_t`, the type of the size argument of
`malloc` and `memcpy`. `SIZE_MAX` is the largest value of `size_t`, which the
platform headers declare. -/
def toSizeT (SIZE_MAX : Nat) (x : Int) : Nat := (x % ((SIZE_MAX : Int) + 1)).toNat

/-- The function `createIcon`, as far as the pixel data goes. The size of the
block and of the copy is the `int` product `image->width * image->height * 4`,
converted to `size_t`; `malloc size` is the content of the block of `size`
bytes that `malloc` returns, or `none` for `NULL`.

The result is `none` where the behaviour of the source is undefined: the loop
reaches a pixel index `i` of `2^29`, whose offset `4 * i` leaves the `int`
range, or it writes past the end of the block. Otherwise the result is what
`createIcon` gives and the calls it makes into the library: `NULL` after an
out-of-memory error when `malloc` fails, or the `size` bytes that `memcpy`
copies from the block into the bitmap the icon is made of, which are the bytes
the loop wrote followed by the rest of the block. -/
def createIcon (SIZE_MAX : Nat) (malloc : Nat → Option (List Nat)) (image : GLFWimage) :
    Option (Option (List Nat) × List Call) :=
  let count := wrapInt32 (image.width * image.height)
  let size := toSizeT SIZE_MAX (wrapInt32 (count * 4))
  match malloc size with
  | none => some (none, [Call._glfwInputError GLFW_OUT_OF_MEMORY])
  | some block =>
    if 536870912 < count ∨ size < 4 * count.toNat then
      none
    else
      some (some ((BGRAData image ++ block.drop (4 * count.toNat)).take size), [])

/-! ## Notions used in the statements -/

/-- The image `bestFit` returns a pointer to. -/
def bestFitIcon (icons : List GLFWimage) (targetWidth targetHeight : Int) : GLFWimage :=
  icons.getD (bestFit icons icons.length targetWidth targetHeight) default

/-- The exact area `width * height` of an image. -/
def area (c : GLFWimage) : Int := c.width * c.height

/-- The image is at least as wide or at least as high as the target: the test
`curIcon->width >= targetWidth || curIcon->height >= targetHeight`. -/
def wideOrHigh (targetWidth targetHeight : Int) (c : GLFWimage) : Prop :=
  targetWidth ≤ c.width ∨ targetHeight ≤ c.height

/-- The image has exactly the target size. -/
def exactSize (targetWidth targetHeight : Int) (c : GLFWimage) : Prop :=
  c.width = targetWidth ∧ c.height = targetHeight

/-- The distance `|targetWidth / targetHeight - width / height|` between the
aspect ratios, taken in exact rational arithmetic. -/
def exactRatioDelta (targetWidth targetHeight width height : Int) : ℚ :=
  |(targetWidth : ℚ) / (targetHeight : ℚ) - (width : ℚ) / (height : ℚ)|

/-- The call is one of the input events `_glfwInputKey` ...
`_glfwInputMonitorChange` that the library consumes (error reports apart). -/
def Call.isInputEvent : Call → Bool
  | Call._glfwInputKey _ _ => true
  | Call._glfwInputChar _ => true
  | Call._glfwInputMouseClick _ _ => true
  | Call._glfwInputCursorMotion _ _ => true
  | Call._glfwInputCursorEnter _ => true
  | Call._glfwInputScroll _ _ => true
  | Call._glfwInputWindowSize _ _ => true
  | Call._glfwInputWindowPos _ _ => true
  | Call._glfwInputWindowFocus _ => true
  | Call._glfwInputWindowIconify _ => true
  | Call._glfwInputWindowVisibility _ => true
  | Call._glfwInputWindowCloseRequest => true
  | Call._glfwInputWindowDamage => true
  | Call._glfwInputMonitorChange => true
  | _ => false

/-- The call is a cursor-motion event `_glfwInputCursorMotion`. -/
def Call.isCursorMotion : Call → Bool
  | Call._glfwInputCursorMotion _ _ => true
  | _ => false

/-- A window for the examples: windowed, cursor mode normal, no key down,
cursor cached at (10, 20) and inside. -/
def sampleWindow : Window :=
  { id := 1, monitor := false, cursorMode := GLFW_CURSOR_NORMAL, key := fun _ => 0,
    cursorPosX := 10, cursorPosY := 20, handle := 1, dwStyle := 0, dwExStyle := 0,
    oldCursorX := 10, oldCursorY := 20, cursorCentered := false, cursorInside := true }

/-- The call is a window-class registration, a title conversion or a native
window creation that failed: `RegisterClass` returned no atom,
`_glfwCreateWideStringFromUTF8` no string, `CreateWindowEx` no handle. -/
def Call.failed : Call → Bool
  | Call.RegisterClass classAtom => classAtom == 0
  | Call._glfwCreateWideStringFromUTF8 converted => !converted
  | Call.CreateWindowEx _ _ _ _ _ _ handle => handle == 0
  | _ => false

/-- The call is a window-class registration, a title conversion or a native
window creation, whatever its result. -/
def Call.isAttempt : Call → Bool
  | Call.RegisterClass _ => true
  | Call._glfwCreateWideStringFromUTF8 _ => true
  | Call.CreateWindowEx _ _ _ _ _ _ _ => true
  | _ => false

/-- The call is a native window creation `CreateWindowEx`. -/
def Call.isCreateWindowEx : Call → Bool
  | Call.CreateWindowEx _ _ _ _ _ _ _ => true
  | _ => false

/-- The call is an error report `_glfwInputError`. -/
def Call.isError : Call → Bool
  | Call._glfwInputError _ => true
  | _ => false

/-- No call of the trace is a failed one or an error report. -/
def cleanTrace (calls : List Call) : Prop :=
  ∀ c ∈ calls, c.failed = false ∧ c.isError = false

/-- The trace ends with a failed call that is not a window-class registration,
followed by the release of the title, if any, and one platform error; no call
before is a failed one or an error report. -/
def failedTrace (calls : List Call) : Prop :=
  ∃ pre c tail, calls = pre ++ c :: tail ∧ cleanTrace pre ∧ c.failed = true
    ∧ c ≠ Call.RegisterClass 0
    ∧ (tail = [Call._glfwInputError GLFW_PLATFORM_ERROR]
      ∨ tail = [Call.free, Call._glfwInputError GLFW_PLATFORM_ERROR])

/-- Creation results for the examples: every call succeeds, except the title
conversion when `titleConverts` is false. -/
def sampleResults (titleConverts : Bool) : CreationResults :=
  { RegisterClass := 49152, _glfwSetVideoMode := true, _glfwPlatformGetMonitorPos := (0, 0),
    AdjustWindowRectEx := fun rect _ _ => rect,
    _glfwCreateWideStringFromUTF8 := fun _ => titleConverts,
    CreateWindowEx := fun _ => 1, ScreenToClient := fun _ => (0, 0),
    _glfwCreateContext := fun _ => true,
    _glfwAnalyzeContext := _GLFW_RECREATION_NOT_NEEDED }

/-- Row `r` of a pixel buffer of four bytes a pixel and `width` pixels a row,
rows stored one after the other: the bytes `4 * width * r` to
`4 * width * (r + 1) - 1`. -/
def pixelRow (width : Nat) (buffer : List Nat) (r : Nat) : List Nat :=
  (buffer.drop (4 * width * r)).take (4 * width)

/-- The pixels of a row with the red and the blue byte of each exchanged. -/
def swapRedBlue : List Nat → List Nat
  | r :: g :: b :: a :: rest => b :: g :: r :: a :: swapRedBlue rest
  | rest => rest

/-- An image for the examples: two rows of two pixels, the bytes numbered
from 1 to 16. -/
def sampleImage : GLFWimage :=
  { width := 2, height := 2, data := [1, 2, 3, 4, 5, 6, 7, 8, 9, 10, 11, 12, 13, 14, 15, 16] }

/-- An image whose pixel count fits an `int` while its byte count does not:
32768 rows of 32768 pixels, every one of its `4 * 32768 * 32768` data bytes
being 7. -/
def hugeImage : GLFWimage :=
  { width := 32768, height := 32768, data := List.replicate 4294967296 7 }

/-- A `malloc` for the examples: it always succeeds, and the block it returns
holds zeros. -/
def sampleMalloc (size : Nat) : Option (List Nat) := some (List.replicate size 0)

/-! ## Properties of `bestFit` -/

theorem bestFitLoop_first_exact (icons : List GLFWimage) (tw th : Int) (k : Nat)
    (hex : exactSize tw th (icons.getD k default))
    (hmin : ∀ j, j < k → ¬ exactSize tw th (icons.getD j default)) :
    ∀ n cur best, k < cur + n → cur ≤ k →
      bestFitLoop icons tw th n cur best = k := by
  intro n
  induction n with
  | zero => intro cur best h1 h2; omega
  | succ n ih =>
    intro cur best h1 h2
    unfold bestFitLoop
    by_cases hc : cur = k
    · subst hc
      have h := hex
      unfold exactSize at h
      dsimp only
      rw [if_pos h]
    · have hlt : cur < k := by omega
      have h := hmin cur hlt
      unfold exactSize at h
      simp only [h, if_false]
      split <;> apply ih <;> omega

theorem bestFitLoop_invariant (icons : List GLFWimage) (tw th : Int) (Inv : Nat → Nat → Prop)
    (hne : ∀ j, j < icons.length → ¬ exactSize tw th (icons.getD j default))
    (hstep : ∀ cur best, cur < icons.length → Inv cur best →
      Inv (cur + 1)
        (if becomesBest tw th (icons.getD cur default) (icons.getD best default) then cur
         else best)) :
    ∀ n cur best, cur + n = icons.length → Inv cur best →
      Inv icons.length (bestFitLoop icons tw th n cur best) := by
  intro n
  induction n with
  | zero =>
    intro cur best h1 h2
    have : cur = icons.length := by omega
    subst this
    simpa [bestFitLoop] using h2
  | succ n ih =>
    intro cur best h1 h2
    have hlt : cur < icons.length := by omega
    have h := hne cur hlt
    unfold exactSize at h
    have hs := hstep cur best hlt h2
    unfold bestFitLoop
    simp only [h, if_false]
    split
    · rename_i hb
      rw [if_pos hb] at hs
      exact ih (cur + 1) cur (by omega) hs
    · rename_i hb
      rw [if_neg hb] at hs
      exact ih (cur + 1) best (by omega) hs

theorem bestFit_invariant (icons : List GLFWimage) (tw th : Int) (Inv : Nat → Nat → Prop)
    (hne : ∀ j, j < icons.length → ¬ exactSize tw th (icons.getD j default))
    (h0 : Inv 0 0)
    (hstep : ∀ cur best, cur < icons.length → Inv cur best →
      Inv (cur + 1)
        (if becomesBest tw th (icons.getD cur default) (icons.getD best default) then cur
         else best)) :
    Inv icons.length (bestFit icons icons.length tw th) := by
  unfold bestFit
  rw [Int.toNat_ofNat]
  exact bestFitLoop_invariant icons tw th Inv hne hstep icons.length 0 0 (by omega) h0

theorem mem_iff_getD (icons : List GLFWimage) (c : GLFWimage) :
    c ∈ icons ↔ ∃ j, j < icons.length ∧ icons.getD j default = c := by
  constructor
  · intro h
    obtain ⟨j, hj, rfl⟩ := List.getElem_of_mem h
    exact ⟨j, hj, by simp [List.getD_eq_getElem, hj]⟩
  · rintro ⟨j, hj, rfl⟩
    rw [List.getD_eq_getElem icons default hj]
    exact List.getElem_mem hj

theorem wrapInt32_eq_self (x : Int) (h1 : -2147483648 ≤ x) (h2 : x < 2147483648) :
    wrapInt32 x = x := by
  unfold wrapInt32
  omega

theorem Double.lt_irrefl (a : Double) : Double.lt a a = false := by
  cases a <;> simp [Double.lt]

theorem Double.not_lt_of_not_lt_of_lt (a b c : Double)
    (hab : Double.lt a b = false) (hcb : Double.lt c b = true) : Double.lt a c = false := by
  cases a <;> cases b <;> cases c <;> simp_all [Double.lt]
  exact le_of_lt (lt_of_lt_of_le hcb hab)

/-- C1. When some candidate has exactly the target width and height, `bestFit`
returns the first such candidate in array order: the index it returns is
within the array, the image there has the target size, and no image before it
has. -/
theorem bestFit_exact_match (icons : List GLFWimage) (targetWidth targetHeight : Int)
    (h : ∃ c ∈ icons, c.width = targetWidth ∧ c.height = targetHeight) :
    bestFit icons icons.length targetWidth targetHeight < icons.length
      ∧ bestFitIcon icons targetWidth targetHeight ∈ icons
      ∧ (bestFitIcon icons targetWidth targetHeight).width = targetWidth
      ∧ (bestFitIcon icons targetWidth targetHeight).height = targetHeight
      ∧ ∀ j, j < bestFit icons icons.length targetWidth targetHeight →
          ¬ ((icons.getD j default).width = targetWidth
              ∧ (icons.getD j default).height = targetHeight) := by
  classical
  obtain ⟨c, hc, hcex⟩ := h
  have hex : ∃ k, k < icons.length ∧ exactSize targetWidth targetHeight (icons.getD k default) := by
    obtain ⟨j, hj, rfl⟩ := (mem_iff_getD icons c).1 hc
    exact ⟨j, hj, hcex⟩
  have hk := Nat.find_spec hex
  have hmin : ∀ j, j < Nat.find hex →
      ¬ exactSize targetWidth targetHeight (icons.getD j default) := by
    intro j hj hje
    exact Nat.find_min hex hj ⟨by omega, hje⟩
  have hr : bestFit icons icons.length targetWidth targetHeight = Nat.find hex := by
    unfold bestFit
    rw [Int.toNat_ofNat]
    exact bestFitLoop_first_exact icons targetWidth targetHeight (Nat.find hex) hk.2 hmin
      icons.length 0 0 (by omega) (by omega)
  unfold bestFitIcon
  rw [hr]
  exact ⟨hk.1, (mem_iff_getD icons _).2 ⟨_, hk.1, rfl⟩, hk.2.1, hk.2.2, hmin⟩

/-- Witness of C1: among a small non-exact, the exact 32x32 and a larger
non-exact candidate, the exact one is returned. -/
theorem bestFit_exact_match_witness :
    bestFit [icon 16 16, icon 32 32, icon 64 64] 3 32 32 < 3
      ∧ bestFitIcon [icon 16 16, icon 32 32, icon 64 64] 32 32
          ∈ [icon 16 16, icon 32 32, icon 64 64]
      ∧ (bestFitIcon [icon 16 16, icon 32 32, icon 64 64] 32 32).width = 32
      ∧ (bestFitIcon [icon 16 16, icon 32 32, icon 64 64] 32 32).height = 32
      ∧ ∀ j, j < bestFit [icon 16 16, icon 32 32, icon 64 64] 3 32 32 →
          ¬ (([icon 16 16, icon 32 32, icon 64 64].getD j default).width = 32
              ∧ ([icon 16 16, icon 32 32, icon 64 64].getD j default).height = 32) :=
  bestFit_exact_match [icon 16 16, icon 32 32, icon 64 64] 32 32
    ⟨icon 32 32, by decide, by decide⟩

/-- C2, as stated, fails. With target 32x32 and the candidates 31x31 and 32x1,
no candidate is at least as large as the target in both dimensions, yet
`bestFit` returns the 32x1 image (area 32) and not the 31x31 one (area 961):
an image that is wide enough alone replaces a best image that is too small. -/
theorem bestFit_largest_area_counterexample :
    (∀ c ∈ [icon 31 31, icon 32 1], 0 < c.width ∧ 0 < c.height)
      ∧ (∀ c ∈ [icon 31 31, icon 32 1], ¬ (32 ≤ c.width ∧ 32 ≤ c.height))
      ∧ bestFitIcon [icon 31 31, icon 32 1] 32 32 = icon 32 1
      ∧ ¬ (∀ c ∈ [icon 31 31, icon 32 1],
            c.width * c.height
              ≤ (bestFitIcon [icon 31 31, icon 32 1] 32 32).width
                * (bestFitIcon [icon 31 31, icon 32 1] 32 32).height) := by
  decide!

/-- The bound on the areas in the amended C2 is needed: with target
70000x70000 and the candidates 1x1 and 65536x65536, the product
`65536 * 65536` wraps to `0` in a 32-bit `int` and the 1x1 image is kept. -/
theorem bestFit_area_wraps :
    bestFitIcon [icon 1 1, icon 65536 65536] 70000 70000 = icon 1 1 := by
  decide!

/-- C2, amended. When every candidate is strictly smaller than the target in
both width and height (none is wide enough or high enough) and every area
fits a 32-bit `int`, the image `bestFit` returns has maximal area
`width * height` among all candidates. -/
theorem bestFit_largest_area (icons : List GLFWimage) (targetWidth targetHeight : Int)
    (hne : icons ≠ [])
    (hsmall : ∀ c ∈ icons,
      0 < c.width ∧ c.width < targetWidth ∧ 0 < c.height ∧ c.height < targetHeight)
    (hfit : ∀ c ∈ icons, c.width * c.height < 2147483648) :
    bestFitIcon icons targetWidth targetHeight ∈ icons
      ∧ ∀ c ∈ icons,
          c.width * c.height
            ≤ (bestFitIcon icons targetWidth targetHeight).width
              * (bestFitIcon icons targetWidth targetHeight).height := by
  have hlen : 0 < icons.length := List.length_pos.2 hne
  have hmem : ∀ j, j < icons.length → icons.getD j default ∈ icons :=
    fun j hj => (mem_iff_getD icons _).2 ⟨j, hj, rfl⟩
  have hinv := bestFit_invariant icons targetWidth targetHeight
    (fun cur best => best < icons.length
      ∧ ∀ j, j < cur → area (icons.getD j default) ≤ area (icons.getD best default))
    (by
      intro j hj hex
      have := hsmall _ (hmem j hj)
      unfold exactSize at hex
      omega)
    ⟨hlen, by intro j hj; omega⟩
    (by
      intro cur best hcur hI
      obtain ⟨hb, hI⟩ := hI
      have hc := hsmall _ (hmem cur hcur)
      have hbs := hsmall _ (hmem best hb)
      have hcf := hfit _ (hmem cur hcur)
      have hbf := hfit _ (hmem best hb)
      have hcpos : 0 < (icons.getD cur default).width * (icons.getD cur default).height :=
        Int.mul_pos hc.1 hc.2.2.1
      have hbpos : 0 < (icons.getD best default).width * (icons.getD best default).height :=
        Int.mul_pos hbs.1 hbs.2.2.1
      have h1 : ¬ ((icons.getD cur default).width ≥ targetWidth
          ∨ (icons.getD cur default).height ≥ targetHeight) := by omega
      have h2 : (icons.getD best default).width < targetWidth
          ∧ (icons.getD best default).height < targetHeight := ⟨hbs.2.1, hbs.2.2.2⟩
      have hb' : becomesBest targetWidth targetHeight (icons.getD cur default)
            (icons.getD best default)
          = decide (area (icons.getD cur default) > area (icons.getD best default)) := by
        unfold becomesBest area
        rw [if_neg h1, if_pos h2, wrapInt32_eq_self _ (by omega) hcf,
          wrapInt32_eq_self _ (by omega) hbf]
        by_cases hgt : (icons.getD cur default).width * (icons.getD cur default).height
            > (icons.getD best default).width * (icons.getD best default).height
        · simp [hgt]
        · simp [hgt]
      rw [hb']
      by_cases hgt : area (icons.getD cur default) > area (icons.getD best default)
      · simp only [hgt, decide_True, if_true]
        refine ⟨hcur, fun j hj => ?_⟩
        rcases Nat.lt_succ_iff_lt_or_eq.1 hj with hj | rfl
        · exact le_trans (hI j hj) (le_of_lt hgt)
        · exact le_refl _
      · simp only [hgt, decide_False, if_false]
        refine ⟨hb, fun j hj => ?_⟩
        rcases Nat.lt_succ_iff_lt_or_eq.1 hj with hj | rfl
        · exact hI j hj
        · exact not_lt.1 hgt)
  obtain ⟨hb, hI⟩ := hinv
  refine ⟨hmem _ hb, fun c hc => ?_⟩
  obtain ⟨j, hj, rfl⟩ := (mem_iff_getD icons c).1 hc
  exact hI j hj

/-- Witness of C2, amended: target 32x32 and the candidates 8x8, 16x24 and
24x8. -/
theorem bestFit_largest_area_witness :
    bestFitIcon [icon 8 8, icon 16 24, icon 24 8] 32 32 ∈ [icon 8 8, icon 16 24, icon 24 8]
      ∧ ∀ c ∈ [icon 8 8, icon 16 24, icon 24 8],
          c.width * c.height
            ≤ (bestFitIcon [icon 8 8, icon 16 24, icon 24 8] 32 32).width
              * (bestFitIcon [icon 8 8, icon 16 24, icon 24 8] 32 32).height :=
  bestFit_largest_area [icon 8 8, icon 16 24, icon 24 8] 32 32 (by decide) (by decide)
    (by decide)

/-- C3, as stated, fails. With target 32x32 and the candidates 64x48 and 32x31
there is no exact candidate and 64x48 is large enough in both dimensions, yet
`bestFit` returns 32x31, which is not high enough: it is wide enough, which
is all the loop asks, and its aspect ratio is closer to the target's. -/
theorem bestFit_min_size_counterexample :
    (∀ c ∈ [icon 64 48, icon 32 31], 0 < c.width ∧ 0 < c.height)
      ∧ (∀ c ∈ [icon 64 48, icon 32 31], ¬ (c.width = 32 ∧ c.height = 32))
      ∧ (∃ c ∈ [icon 64 48, icon 32 31], 32 ≤ c.width ∧ 32 ≤ c.height)
      ∧ bestFitIcon [icon 64 48, icon 32 31] 32 32 = icon 32 31
      ∧ ¬ (32 ≤ (bestFitIcon [icon 64 48, icon 32 31] 32 32).width
            ∧ 32 ≤ (bestFitIcon [icon 64 48, icon 32 31] 32 32).height) := by
  decide!

/-- C3, amended. When no candidate has exactly the target size and some
candidate is at least as wide or at least as high as the target (in
particular when one is both), the image `bestFit` returns is at least as wide
or at least as high as the target: such a candidate is always preferred over
one that is smaller in both dimensions. Positive dimensions are not needed. -/
theorem bestFit_min_size (icons : List GLFWimage) (targetWidth targetHeight : Int)
    (hne : ∀ c ∈ icons, ¬ (c.width = targetWidth ∧ c.height = targetHeight))
    (h : ∃ c ∈ icons, targetWidth ≤ c.width ∨ targetHeight ≤ c.height) :
    bestFitIcon icons targetWidth targetHeight ∈ icons
      ∧ (targetWidth ≤ (bestFitIcon icons targetWidth targetHeight).width
          ∨ targetHeight ≤ (bestFitIcon icons targetWidth targetHeight).height) := by
  have hmem : ∀ j, j < icons.length → icons.getD j default ∈ icons :=
    fun j hj => (mem_iff_getD icons _).2 ⟨j, hj, rfl⟩
  have hlen : 0 < icons.length := by
    obtain ⟨c, hc, _⟩ := h
    exact List.length_pos_of_mem hc
  have hinv := bestFit_invariant icons targetWidth targetHeight
    (fun cur best => best < icons.length
      ∧ ((∃ j, j < cur ∧ wideOrHigh targetWidth targetHeight (icons.getD j default)) →
          wideOrHigh targetWidth targetHeight (icons.getD best default)))
    (fun j hj => hne _ (hmem j hj))
    ⟨hlen, by rintro ⟨j, hj, _⟩; omega⟩
    (by
      intro cur best hcur hI
      obtain ⟨hb, hI⟩ := hI
      by_cases hc : wideOrHigh targetWidth targetHeight (icons.getD cur default)
      · split
        · exact ⟨hcur, fun _ => hc⟩
        · rename_i hnb
          refine ⟨hb, fun _ => ?_⟩
          unfold wideOrHigh at hc ⊢
          unfold becomesBest at hnb
          rw [if_pos (by omega)] at hnb
          by_contra hsm
          apply hnb
          rw [if_pos (Or.inr (by omega))]
      · have hnb : becomesBest targetWidth targetHeight (icons.getD cur default)
            (icons.getD best default) = true →
            ¬ wideOrHigh targetWidth targetHeight (icons.getD best default) := by
          intro hbb hw
          unfold wideOrHigh at hc hw
          unfold becomesBest at hbb
          rw [if_neg (by omega), if_neg (by omega)] at hbb
          exact Bool.false_ne_true hbb
        have hprev : (∃ j, j < cur + 1
            ∧ wideOrHigh targetWidth targetHeight (icons.getD j default)) →
            wideOrHigh targetWidth targetHeight (icons.getD best default) := by
          rintro ⟨j, hj, hw⟩
          rcases Nat.lt_succ_iff_lt_or_eq.1 hj with hj | rfl
          · exact hI ⟨j, hj, hw⟩
          · exact absurd hw hc
        split
        · rename_i hbb
          exact ⟨hcur, fun hex => absurd (hprev hex) (hnb hbb)⟩
        · exact ⟨hb, hprev⟩)
  obtain ⟨hb, hI⟩ := hinv
  refine ⟨hmem _ hb, ?_⟩
  obtain ⟨c, hc, hw⟩ := h
  obtain ⟨j, hj, rfl⟩ := (mem_iff_getD icons c).1 hc
  exact hI ⟨j, hj, hw⟩

/-- Witness of C3, amended: target 32x32 and the candidates 16x16, 64x48 and
32x31. -/
theorem bestFit_min_size_witness :
    bestFitIcon [icon 16 16, icon 64 48, icon 32 31] 32 32
        ∈ [icon 16 16, icon 64 48, icon 32 31]
      ∧ (32 ≤ (bestFitIcon [icon 16 16, icon 64 48, icon 32 31] 32 32).width
          ∨ 32 ≤ (bestFitIcon [icon 16 16, icon 64 48, icon 32 31] 32 32).height) :=
  bestFit_min_size [icon 16 16, icon 64 48, icon 32 31] 32 32 (by decide)
    ⟨icon 64 48, by decide, by decide⟩

/-! ### Rounding error of the `double` operations -/

theorem log2Fuel_spec : ∀ fuel n, 0 < n → n ≤ fuel →
    2 ^ log2Fuel fuel n ≤ n ∧ n < 2 ^ (log2Fuel fuel n + 1) := by
  intro fuel
  induction fuel with
  | zero => intro n h1 h2; omega
  | succ fuel ih =>
    intro n h1 h2
    unfold log2Fuel
    by_cases h : 2 ≤ n
    · rw [if_pos h]
      obtain ⟨ha, hb⟩ := ih (n / 2) (by omega) (by omega)
      constructor
      · rw [pow_succ]; omega
      · rw [pow_succ]; omega
    · rw [if_neg h]
      have : n = 1 := by omega
      subst this
      simp

theorem ilog2_spec (n : Nat) (h : 0 < n) : 2 ^ ilog2 n ≤ n ∧ n < 2 ^ (ilog2 n + 1) :=
  log2Fuel_spec n n h (le_refl n)

theorem pow2_eq_zpow (e : Int) : pow2 e = (2 : ℚ) ^ e := by
  unfold pow2
  by_cases h : 0 ≤ e
  · rw [if_pos h]
    obtain ⟨n, rfl⟩ := Int.eq_ofNat_of_zero_le h
    simp
  · rw [if_neg h]
    obtain ⟨n, hn⟩ := Int.exists_eq_neg_ofNat (le_of_lt (not_le.1 h))
    subst hn
    simp

theorem pow2_pos (e : Int) : 0 < pow2 e := by
  rw [pow2_eq_zpow]; positivity

theorem floorLog2_le (q : ℚ) (hq : 0 < q) : pow2 (floorLog2 q) ≤ q := by
  unfold floorLog2
  dsimp only
  split
  · assumption
  · have hnum : 0 < q.num := Rat.num_pos.2 hq
    have hden : 0 < q.den := q.den_pos
    have ha := (ilog2_spec q.num.natAbs (by omega)).1
    have hb := (ilog2_spec q.den hden).2
    rw [pow2_eq_zpow]
    have hqe : q = (q.num.natAbs : ℚ) / (q.den : ℚ) := by
      rw [← Int.cast_natCast, Int.natAbs_of_nonneg (le_of_lt hnum)]
      exact (Rat.num_div_den q).symm
    have ha' : ((2:ℚ) ^ (ilog2 q.num.natAbs)) ≤ (q.num.natAbs : ℚ) := by exact_mod_cast ha
    have hb' : (q.den : ℚ) < (2:ℚ) ^ (ilog2 q.den + 1) := by exact_mod_cast hb
    have hdq : (0:ℚ) < q.den := by exact_mod_cast hden
    rw [show ((ilog2 q.num.natAbs : ℤ) - (ilog2 q.den : ℤ) - 1)
        = (ilog2 q.num.natAbs : ℤ) - ((ilog2 q.den + 1 : ℕ) : ℤ) by push_cast; ring]
    rw [zpow_sub₀ (by norm_num), zpow_natCast, zpow_natCast]
    conv_rhs => rw [hqe]
    rw [div_le_div_iff₀ (by positivity) hdq]
    calc (2:ℚ) ^ ilog2 q.num.natAbs * (q.den : ℚ)
        ≤ (q.num.natAbs : ℚ) * (q.den : ℚ) := by
          exact mul_le_mul_of_nonneg_right ha' (le_of_lt hdq)
      _ ≤ (q.num.natAbs : ℚ) * (2:ℚ) ^ (ilog2 q.den + 1) := by
          exact mul_le_mul_of_nonneg_left (le_of_lt hb') (by positivity)

theorem roundHalfEven_error (x : ℚ) : |((roundHalfEven x : ℤ) : ℚ) - x| ≤ 1 / 2 := by
  have hf : Rat.floor x = ⌊x⌋ := rfl
  have h1 : ((⌊x⌋ : ℤ) : ℚ) ≤ x := Int.floor_le x
  have h2 : x < ((⌊x⌋ : ℤ) : ℚ) + 1 := Int.lt_floor_add_one x
  unfold roundHalfEven
  dsimp only
  rw [hf]
  split
  · rw [abs_le]; constructor <;> linarith
  · split
    · push_cast; rw [abs_le]; constructor <;> linarith
    · have : x - ((⌊x⌋ : ℤ) : ℚ) = 1 / 2 := by
        rename_i h3 h4
        linarith [not_lt.1 h3, not_lt.1 h4]
      split
      · rw [abs_le]; constructor <;> linarith
      · push_cast; rw [abs_le]; constructor <;> linarith

theorem roundHalfEven_int (m : ℤ) : roundHalfEven (m : ℚ) = m := by
  have hf : Rat.floor (m : ℚ) = ⌊(m : ℚ)⌋ := rfl
  unfold roundHalfEven
  dsimp only
  rw [hf, Int.floor_intCast]
  simp

theorem pow2_max_le (q : ℚ) (hq : q ≠ 0) :
    pow2 (max (floorLog2 |q|) (-1022)) ≤ |q| + pow2 (-1022) := by
  have hq' : 0 < |q| := abs_pos.2 hq
  rcases max_cases (floorLog2 |q|) (-1022) with ⟨h, _⟩ | ⟨h, _⟩
  · rw [h]
    have := floorLog2_le |q| hq'
    have := pow2_pos (-1022)
    linarith
  · rw [h]
    linarith

theorem pow2_sub_52 (e : Int) : pow2 (e - 52) = pow2 e / 2 ^ 52 := by
  rw [pow2_eq_zpow, pow2_eq_zpow, zpow_sub₀ (by norm_num)]
  norm_num

theorem pow2_lt_pow2 (a b : Int) (h : a < b) : pow2 a < pow2 b := by
  rw [pow2_eq_zpow, pow2_eq_zpow]
  exact zpow_lt_zpow_right₀ (by norm_num) h

theorem roundDouble_zero : roundDouble 0 = Double.fin 0 := by
  unfold roundDouble
  rw [if_pos rfl]

theorem roundDouble_spec (q : ℚ) (hq : |q| ≤ 2 ^ 100) :
    ∃ r, roundDouble q = Double.fin r ∧ |r - q| ≤ (|q| + pow2 (-1022)) / 2 ^ 53 := by
  by_cases h0 : q = 0
  · subst h0
    refine ⟨0, roundDouble_zero, ?_⟩
    have := pow2_pos (-1022)
    simp only [sub_zero, abs_zero, zero_add]
    exact div_nonneg (le_of_lt this) (by norm_num)
  · have hulp : 0 < pow2 (max (floorLog2 |q|) (-1022) - 52) := pow2_pos _
    have herr := roundHalfEven_error (q / pow2 (max (floorLog2 |q|) (-1022) - 52))
    have hbound : |((roundHalfEven (q / pow2 (max (floorLog2 |q|) (-1022) - 52)) : ℤ) : ℚ)
        * pow2 (max (floorLog2 |q|) (-1022) - 52) - q|
        ≤ (|q| + pow2 (-1022)) / 2 ^ 53 := by
      have e1 : ((roundHalfEven (q / pow2 (max (floorLog2 |q|) (-1022) - 52)) : ℤ) : ℚ)
          * pow2 (max (floorLog2 |q|) (-1022) - 52) - q
          = (((roundHalfEven (q / pow2 (max (floorLog2 |q|) (-1022) - 52)) : ℤ) : ℚ)
              - q / pow2 (max (floorLog2 |q|) (-1022) - 52))
            * pow2 (max (floorLog2 |q|) (-1022) - 52) := by
        field_simp
      rw [e1, abs_mul, abs_of_pos hulp]
      have hm := pow2_max_le q h0
      rw [pow2_sub_52] at hulp herr ⊢
      calc |((roundHalfEven (q / (pow2 (max (floorLog2 |q|) (-1022)) / 2 ^ 52)) : ℤ) : ℚ)
              - q / (pow2 (max (floorLog2 |q|) (-1022)) / 2 ^ 52)|
            * (pow2 (max (floorLog2 |q|) (-1022)) / 2 ^ 52)
          ≤ 1 / 2 * (pow2 (max (floorLog2 |q|) (-1022)) / 2 ^ 52) :=
            mul_le_mul_of_nonneg_right herr (le_of_lt hulp)
        _ = pow2 (max (floorLog2 |q|) (-1022)) / 2 ^ 53 := by ring
        _ ≤ (|q| + pow2 (-1022)) / 2 ^ 53 :=
            div_le_div_of_nonneg_right hm (by positivity)
    refine ⟨((roundHalfEven (q / pow2 (max (floorLog2 |q|) (-1022) - 52)) : ℤ) : ℚ)
        * pow2 (max (floorLog2 |q|) (-1022) - 52), ?_, hbound⟩
    unfold roundDouble
    rw [if_neg h0]
    dsimp only
    rw [if_neg]
    rw [not_le]
    have h1022 : pow2 (-1022) ≤ 1 := by
      rw [pow2_eq_zpow]
      exact zpow_le_one_of_nonpos₀ (by norm_num) (by norm_num)
    have h102 : pow2 102 = 2 ^ 102 := by
      rw [pow2_eq_zpow]; norm_cast
    have h1024 : pow2 102 < pow2 1024 := pow2_lt_pow2 _ _ (by norm_num)
    have habs := abs_sub_abs_le_abs_sub
      (((roundHalfEven (q / pow2 (max (floorLog2 |q|) (-1022) - 52)) : ℤ) : ℚ)
        * pow2 (max (floorLog2 |q|) (-1022) - 52)) q
    have h3 : (|q| + pow2 (-1022)) / 2 ^ 53 ≤ |q| + 1 := by
      have hqn : 0 ≤ |q| := abs_nonneg q
      rw [div_le_iff₀ (by positivity)]
      nlinarith
    have h4 : (2:ℚ) ^ 100 + (2 ^ 100 + 1) < 2 ^ 102 := by norm_num
    linarith

theorem pow2_le_pow2 (a b : Int) (h : a ≤ b) : pow2 a ≤ pow2 b := by
  rw [pow2_eq_zpow, pow2_eq_zpow]
  exact zpow_le_zpow_right₀ (by norm_num) h

theorem pow2_53 : pow2 53 = 2 ^ 53 := by
  rw [pow2_eq_zpow]; norm_cast

theorem ofInt_exact (n : ℤ) (h : |n| < 2 ^ 53) : Double.ofInt n = Double.fin (n : ℚ) := by
  unfold Double.ofInt
  by_cases h0 : n = 0
  · subst h0
    simpa using roundDouble_zero
  · have hq0 : (n : ℚ) ≠ 0 := by exact_mod_cast h0
    have hqa : |(n : ℚ)| < 2 ^ 53 := by
      have : ((|n| : ℤ) : ℚ) < ((2 ^ 53 : ℤ) : ℚ) := by exact_mod_cast h
      simpa using this
    have hf : floorLog2 |(n : ℚ)| < 53 := by
      by_contra hge
      have h1 := pow2_le_pow2 53 (floorLog2 |(n : ℚ)|) (by omega)
      have h2 := floorLog2_le |(n : ℚ)| (abs_pos.2 hq0)
      rw [pow2_53] at h1
      linarith
    have he : max (floorLog2 |(n : ℚ)|) (-1022) ≤ 52 := max_le (by omega) (by norm_num)
    obtain ⟨k, hk⟩ : ∃ k : ℕ, max (floorLog2 |(n : ℚ)|) (-1022) - 52 = -(k : ℤ) :=
      ⟨(52 - max (floorLog2 |(n : ℚ)|) (-1022)).toNat, by omega⟩
    have hulp : pow2 (max (floorLog2 |(n : ℚ)|) (-1022) - 52) = ((2 : ℚ) ^ k)⁻¹ := by
      rw [hk, pow2_eq_zpow, zpow_neg, zpow_natCast]
    have hdiv : (n : ℚ) / ((2 : ℚ) ^ k)⁻¹ = ((n * 2 ^ k : ℤ) : ℚ) := by
      push_cast
      field_simp
    unfold roundDouble
    rw [if_neg hq0]
    dsimp only
    rw [hulp, hdiv, roundHalfEven_int]
    have hr : ((n * 2 ^ k : ℤ) : ℚ) * ((2 : ℚ) ^ k)⁻¹ = (n : ℚ) := by
      push_cast
      field_simp
    rw [hr, if_neg]
    rw [not_le]
    have := pow2_lt_pow2 53 1024 (by norm_num)
    rw [pow2_53] at this
    linarith

theorem pow2_neg_1022_le_one : pow2 (-1022) ≤ 1 := by
  rw [pow2_eq_zpow]
  exact zpow_le_one_of_nonpos₀ (by norm_num) (by norm_num)

/-- For sizes between 1 and 4096 the ratio is a finite double within
`4097 / 2 ^ 53` of the exact quotient. -/
theorem ratio_approx (a b : ℤ) (ha : 0 < a) (ha' : a ≤ 4096) (hb : 0 < b) (hb' : b ≤ 4096) :
    ∃ r, Double.div (Double.ofInt a) (Double.ofInt b) = Double.fin r
      ∧ |r - (a : ℚ) / (b : ℚ)| ≤ 4097 / 2 ^ 53 := by
  rw [ofInt_exact a (by rw [abs_of_pos ha]; omega), ofInt_exact b (by rw [abs_of_pos hb]; omega)]
  have hbq : (0 : ℚ) < b := by exact_mod_cast hb
  have haq : (0 : ℚ) < a := by exact_mod_cast ha
  have haq' : (a : ℚ) ≤ 4096 := by exact_mod_cast ha'
  have hbq' : (1 : ℚ) ≤ b := by exact_mod_cast hb
  have hq : (a : ℚ) / b ≤ 4096 := by
    rw [div_le_iff₀ hbq]
    nlinarith
  have hq0 : 0 < (a : ℚ) / b := div_pos haq hbq
  obtain ⟨r, hr, herr⟩ := roundDouble_spec ((a : ℚ) / b) (by
    rw [abs_of_pos hq0]
    have : (4096 : ℚ) ≤ 2 ^ 100 := by norm_num
    linarith)
  refine ⟨r, ?_, ?_⟩
  · show (if (b : ℚ) = 0 then _ else roundDouble ((a : ℚ) / b)) = Double.fin r
    rw [if_neg (ne_of_gt hbq)]
    exact hr
  · rw [abs_of_pos hq0] at herr
    have := pow2_neg_1022_le_one
    have h2 : ((a : ℚ) / b + pow2 (-1022)) / 2 ^ 53 ≤ 4097 / 2 ^ 53 :=
      div_le_div_of_nonneg_right (by linarith) (by norm_num)
    linarith

theorem ratio_bounds (a b : ℤ) (ha : 0 < a) (ha' : a ≤ 4096) (hb : 0 < b) :
    0 < (a : ℚ) / (b : ℚ) ∧ (a : ℚ) / (b : ℚ) ≤ 4096 := by
  have hbq : (0 : ℚ) < b := by exact_mod_cast hb
  have haq : (0 : ℚ) < a := by exact_mod_cast ha
  have haq' : (a : ℚ) ≤ 4096 := by exact_mod_cast ha'
  have hbq' : (1 : ℚ) ≤ b := by exact_mod_cast hb
  refine ⟨div_pos haq hbq, ?_⟩
  rw [div_le_iff₀ hbq]
  nlinarith

/-- For sizes between 1 and 4096 the distance `bestFit` computes is a finite
double within `12292 / 2 ^ 53` of the exact distance of the ratios. -/
theorem ratioDelta_approx (tw th w h : ℤ)
    (htw : 0 < tw) (htw' : tw ≤ 4096) (hth : 0 < th) (hth' : th ≤ 4096)
    (hw : 0 < w) (hw' : w ≤ 4096) (hh : 0 < h) (hh' : h ≤ 4096) :
    ∃ D, ratioDelta tw th w h = Double.fin D
      ∧ |D - exactRatioDelta tw th w h| ≤ 12292 / 2 ^ 53 := by
  obtain ⟨t, ht, hte⟩ := ratio_approx tw th htw htw' hth hth'
  obtain ⟨r, hr, hre⟩ := ratio_approx w h hw hw' hh hh'
  obtain ⟨hT0, hT⟩ := ratio_bounds tw th htw htw' hth
  obtain ⟨hR0, hR⟩ := ratio_bounds w h hw hw' hh
  have hTR : |(tw : ℚ) / th - (w : ℚ) / h| ≤ 4096 := by
    rw [abs_le]; constructor <;> linarith
  have hsplit : t - r = ((tw : ℚ) / th - (w : ℚ) / h) + ((t - (tw : ℚ) / th) - (r - (w : ℚ) / h)) := by
    ring
  have htr : |t - r| ≤ 4097 := by
    rw [hsplit]
    have h1 := abs_add ((tw : ℚ) / th - (w : ℚ) / h) ((t - (tw : ℚ) / th) - (r - (w : ℚ) / h))
    have h2 := abs_sub (t - (tw : ℚ) / th) (r - (w : ℚ) / h)
    have h3 : (4097 : ℚ) / 2 ^ 53 ≤ 1 / 2 := by norm_num
    linarith
  obtain ⟨d, hd, hde⟩ := roundDouble_spec (t - r) (by
    have : (4097 : ℚ) ≤ 2 ^ 100 := by norm_num
    linarith)
  have hde' : |d - (t - r)| ≤ 4098 / 2 ^ 53 := by
    have := pow2_neg_1022_le_one
    have h2 : (|t - r| + pow2 (-1022)) / 2 ^ 53 ≤ 4098 / 2 ^ 53 :=
      div_le_div_of_nonneg_right (by linarith) (by norm_num)
    linarith
  refine ⟨|d|, ?_, ?_⟩
  · unfold ratioDelta
    dsimp only
    rw [ht, hr, ofInt_exact 0 (by norm_num)]
    show (if Double.lt (roundDouble (t - r)) (Double.fin ((0 : ℤ) : ℚ)) = true then
        Double.neg (roundDouble (t - r)) else roundDouble (t - r)) = Double.fin |d|
    rw [hd]
    by_cases hneg : d < 0
    · have : Double.lt (Double.fin d) (Double.fin ((0 : ℤ) : ℚ)) = true := by
        simp [Double.lt, hneg]
      rw [if_pos this, abs_of_neg hneg]
      rfl
    · have : ¬ Double.lt (Double.fin d) (Double.fin ((0 : ℤ) : ℚ)) = true := by
        simp [Double.lt, hneg]
      rw [if_neg this, abs_of_nonneg (not_lt.1 hneg)]
  · unfold exactRatioDelta
    have h1 := abs_abs_sub_abs_le_abs_sub d ((tw : ℚ) / th - (w : ℚ) / h)
    have h2 : d - ((tw : ℚ) / th - (w : ℚ) / h)
        = (d - (t - r)) + ((t - (tw : ℚ) / th) - (r - (w : ℚ) / h)) := by ring
    have h3 := abs_add (d - (t - r)) ((t - (tw : ℚ) / th) - (r - (w : ℚ) / h))
    have h4 := abs_sub (t - (tw : ℚ) / th) (r - (w : ℚ) / h)
    rw [← h2] at h3
    have h5 : (4098 : ℚ) / 2 ^ 53 + (4097 / 2 ^ 53 + 4097 / 2 ^ 53) = 12292 / 2 ^ 53 := by
      norm_num
    linarith

/-- Two distinct exact distances of ratios of sizes up to 4096 differ by at
least `1 / 4096 ^ 3`. -/
theorem exactRatioDelta_gap (tw th w1 h1 w2 h2 : ℤ)
    (hth : 0 < th) (hth' : th ≤ 4096)
    (hh1 : 0 < h1) (hh1' : h1 ≤ 4096) (hh2 : 0 < h2) (hh2' : h2 ≤ 4096)
    (hlt : exactRatioDelta tw th w1 h1 < exactRatioDelta tw th w2 h2) :
    exactRatioDelta tw th w1 h1 + 1 / 4096 ^ 3 ≤ exactRatioDelta tw th w2 h2 := by
  have hthq : (0 : ℚ) < th := by exact_mod_cast hth
  have hh1q : (0 : ℚ) < h1 := by exact_mod_cast hh1
  have hh2q : (0 : ℚ) < h2 := by exact_mod_cast hh2
  have e : ∀ (w h : ℤ), 0 < h → exactRatioDelta tw th w h
      = ((|tw * h - th * w| : ℤ) : ℚ) / ((th : ℚ) * (h : ℚ)) := by
    intro w h hh
    have hhq : (0 : ℚ) < h := by exact_mod_cast hh
    unfold exactRatioDelta
    rw [div_sub_div _ _ (ne_of_gt hthq) (ne_of_gt hhq), abs_div,
      abs_of_pos (mul_pos hthq hhq)]
    push_cast
    rfl
  rw [e w1 h1 hh1, e w2 h2 hh2] at hlt ⊢
  rw [div_lt_div_iff₀ (mul_pos hthq hh1q) (mul_pos hthq hh2q)] at hlt
  have hint : |tw * h1 - th * w1| * (th * h2) < |tw * h2 - th * w2| * (th * h1) := by
    exact_mod_cast hlt
  have hint' : |tw * h1 - th * w1| * h2 + 1 ≤ |tw * h2 - th * w2| * h1 := by
    have h3 : |tw * h1 - th * w1| * h2 * th < |tw * h2 - th * w2| * h1 * th := by
      nlinarith
    have := lt_of_mul_lt_mul_right h3 (le_of_lt hth)
    omega
  have hq : ((|tw * h1 - th * w1| : ℤ) : ℚ) * h2 + 1 ≤ ((|tw * h2 - th * w2| : ℤ) : ℚ) * h1 := by
    exact_mod_cast hint'
  have hprod : (th : ℚ) * h1 * h2 ≤ 4096 ^ 3 := by
    have a1 : (th : ℚ) ≤ 4096 := by exact_mod_cast hth'
    have a2 : (h1 : ℚ) ≤ 4096 := by exact_mod_cast hh1'
    have a3 : (h2 : ℚ) ≤ 4096 := by exact_mod_cast hh2'
    calc (th : ℚ) * h1 * h2 ≤ 4096 * 4096 * 4096 := by
          apply mul_le_mul _ a3 (le_of_lt hh2q) (by norm_num)
          exact mul_le_mul a1 a2 (le_of_lt hh1q) (by norm_num)
      _ = 4096 ^ 3 := by norm_num
  have hpos : (0 : ℚ) < th * h1 * h2 := by positivity
  have hgap : (1 : ℚ) / 4096 ^ 3 ≤ 1 / (th * h1 * h2) :=
    one_div_le_one_div_of_le hpos hprod
  have hdiff : ((|tw * h2 - th * w2| : ℤ) : ℚ) / ((th : ℚ) * h2)
      - ((|tw * h1 - th * w1| : ℤ) : ℚ) / ((th : ℚ) * h1)
      = (((|tw * h2 - th * w2| : ℤ) : ℚ) * h1 - ((|tw * h1 - th * w1| : ℤ) : ℚ) * h2)
          / (th * h1 * h2) := by
    field_simp
    ring
  have hge : (1 : ℚ) / (th * h1 * h2)
      ≤ (((|tw * h2 - th * w2| : ℤ) : ℚ) * h1 - ((|tw * h1 - th * w1| : ℤ) : ℚ) * h2)
          / (th * h1 * h2) :=
    div_le_div_of_nonneg_right (by linarith) (le_of_lt hpos)
  linarith

theorem becomesBest_of_wideOrHigh (tw th : Int) (cur best : GLFWimage)
    (h : wideOrHigh tw th cur) :
    becomesBest tw th cur best = true ↔
      (Double.lt (ratioDelta tw th cur.width cur.height)
          (ratioDelta tw th best.width best.height) = true
        ∨ (best.width < tw ∧ best.height < th)) := by
  unfold wideOrHigh at h
  unfold becomesBest
  rw [if_pos (by omega)]
  constructor
  · intro hb
    by_contra hn
    rw [if_neg hn] at hb
    exact Bool.false_ne_true hb
  · intro hb
    rw [if_pos hb]

theorem small_of_becomesBest (tw th : Int) (cur best : GLFWimage)
    (h : ¬ wideOrHigh tw th cur) (hb : becomesBest tw th cur best = true) :
    best.width < tw ∧ best.height < th := by
  unfold wideOrHigh at h
  unfold becomesBest at hb
  rw [if_neg (by omega)] at hb
  by_contra hn
  rw [if_neg hn] at hb
  exact Bool.false_ne_true hb

/-- C4, as stated, fails. With target 1x1 and the candidates
1073741825x1073741824 and 1073741826x1073741825, both large enough, the two
aspect ratios round to the same `double`, `1 + 2^-30`, so the second
candidate does not replace the first, although in exact arithmetic its ratio is
strictly closer to the target's. -/
theorem bestFit_closest_ratio_counterexample :
    (∀ c ∈ [icon 1073741825 1073741824, icon 1073741826 1073741825],
        0 < c.width ∧ 0 < c.height ∧ ¬ (c.width = 1 ∧ c.height = 1))
      ∧ bestFitIcon [icon 1073741825 1073741824, icon 1073741826 1073741825] 1 1
          = icon 1073741825 1073741824
      ∧ (∃ c ∈ [icon 1073741825 1073741824, icon 1073741826 1073741825],
          1 ≤ c.width ∧ 1 ≤ c.height
            ∧ exactRatioDelta 1 1 c.width c.height
                < exactRatioDelta 1 1
                    (bestFitIcon [icon 1073741825 1073741824,
                      icon 1073741826 1073741825] 1 1).width
                    (bestFitIcon [icon 1073741825 1073741824,
                      icon 1073741826 1073741825] 1 1).height) := by
  decide!

/-- In the rounded arithmetic of the source the returned candidate is at least
as close in aspect ratio as every candidate that is large enough. -/
theorem bestFit_closest_ratio_double (icons : List GLFWimage) (targetWidth targetHeight : Int)
    (hne : ∀ c ∈ icons, ¬ (c.width = targetWidth ∧ c.height = targetHeight))
    (c : GLFWimage) (hc : c ∈ icons)
    (hlarge : targetWidth ≤ c.width ∧ targetHeight ≤ c.height) :
    bestFitIcon icons targetWidth targetHeight ∈ icons
      ∧ Double.lt (ratioDelta targetWidth targetHeight c.width c.height)
          (ratioDelta targetWidth targetHeight
            (bestFitIcon icons targetWidth targetHeight).width
            (bestFitIcon icons targetWidth targetHeight).height) = false := by
  have hmem : ∀ j, j < icons.length → icons.getD j default ∈ icons :=
    fun j hj => (mem_iff_getD icons _).2 ⟨j, hj, rfl⟩
  have hlen : 0 < icons.length := List.length_pos_of_mem hc
  have hinv := bestFit_invariant icons targetWidth targetHeight
    (fun cur best => best < icons.length
      ∧ ∀ j, j < cur → wideOrHigh targetWidth targetHeight (icons.getD j default) →
          wideOrHigh targetWidth targetHeight (icons.getD best default)
            ∧ Double.lt
                (ratioDelta targetWidth targetHeight (icons.getD j default).width
                  (icons.getD j default).height)
                (ratioDelta targetWidth targetHeight (icons.getD best default).width
                  (icons.getD best default).height) = false)
    (fun j hj => hne _ (hmem j hj))
    ⟨hlen, by intro j hj; omega⟩
    (by
      intro cur best hcur hI
      obtain ⟨hb, hI⟩ := hI
      by_cases hw : wideOrHigh targetWidth targetHeight (icons.getD cur default)
      · have hiff := becomesBest_of_wideOrHigh targetWidth targetHeight
          (icons.getD cur default) (icons.getD best default) hw
        split
        · rename_i hbb
          refine ⟨hcur, fun j hj hjw => ⟨hw, ?_⟩⟩
          rcases Nat.lt_succ_iff_lt_or_eq.1 hj with hj | rfl
          · obtain ⟨hbw, hjb⟩ := hI j hj hjw
            rcases hiff.1 hbb with hlt | hsm
            · exact Double.not_lt_of_not_lt_of_lt _ _ _ hjb hlt
            · unfold wideOrHigh at hbw
              omega
          · exact Double.lt_irrefl _
        · rename_i hbb
          have hnlt : Double.lt
              (ratioDelta targetWidth targetHeight (icons.getD cur default).width
                (icons.getD cur default).height)
              (ratioDelta targetWidth targetHeight (icons.getD best default).width
                (icons.getD best default).height) = false := by
            by_contra hlt
            exact hbb (hiff.2 (Or.inl (by simpa using hlt)))
          have hbw : wideOrHigh targetWidth targetHeight (icons.getD best default) := by
            unfold wideOrHigh
            by_contra hsm
            exact hbb (hiff.2 (Or.inr (by omega)))
          refine ⟨hb, fun j hj hjw => ?_⟩
          rcases Nat.lt_succ_iff_lt_or_eq.1 hj with hj | rfl
          · exact hI j hj hjw
          · exact ⟨hbw, hnlt⟩
      · split
        · rename_i hbb
          have hsm := small_of_becomesBest targetWidth targetHeight _ _ hw hbb
          refine ⟨hcur, fun j hj hjw => ?_⟩
          rcases Nat.lt_succ_iff_lt_or_eq.1 hj with hj | rfl
          · have hbw := (hI j hj hjw).1
            unfold wideOrHigh at hbw
            omega
          · exact absurd hjw hw
        · refine ⟨hb, fun j hj hjw => ?_⟩
          rcases Nat.lt_succ_iff_lt_or_eq.1 hj with hj | rfl
          · exact hI j hj hjw
          · exact absurd hjw hw)
  obtain ⟨hb, hI⟩ := hinv
  refine ⟨hmem _ hb, ?_⟩
  obtain ⟨j, hj, rfl⟩ := (mem_iff_getD icons c).1 hc
  exact (hI j hj (Or.inl hlarge.1)).2

/-- C4, amended. When no candidate has exactly the target size, no candidate
that is at least as large as the target in both dimensions has an aspect
ratio strictly closer to the target's than the returned candidate's, the
distances `|targetRatio - ratio|` being the `double` values the function
computes (each division and subtraction rounded). With ratios taken as exact
rationals the same holds when the widths and heights of the target and of
all candidates lie between 1 and 4096, where rounding cannot reverse a
comparison. -/
theorem bestFit_closest_ratio (icons : List GLFWimage) (targetWidth targetHeight : Int)
    (hne : ∀ c ∈ icons, ¬ (c.width = targetWidth ∧ c.height = targetHeight))
    (c : GLFWimage) (hc : c ∈ icons)
    (hlarge : targetWidth ≤ c.width ∧ targetHeight ≤ c.height) :
    bestFitIcon icons targetWidth targetHeight ∈ icons
      ∧ Double.lt (ratioDelta targetWidth targetHeight c.width c.height)
          (ratioDelta targetWidth targetHeight
            (bestFitIcon icons targetWidth targetHeight).width
            (bestFitIcon icons targetWidth targetHeight).height) = false
      ∧ ((0 < targetWidth ∧ targetWidth ≤ 4096 ∧ 0 < targetHeight ∧ targetHeight ≤ 4096
            ∧ ∀ x ∈ icons, 0 < x.width ∧ x.width ≤ 4096 ∧ 0 < x.height ∧ x.height ≤ 4096) →
          exactRatioDelta targetWidth targetHeight
              (bestFitIcon icons targetWidth targetHeight).width
              (bestFitIcon icons targetWidth targetHeight).height
            ≤ exactRatioDelta targetWidth targetHeight c.width c.height) := by
  have hfloat := bestFit_closest_ratio_double icons targetWidth targetHeight hne c hc hlarge
  refine ⟨hfloat.1, hfloat.2, ?_⟩
  rintro ⟨htw, htw', hth, hth', hall⟩
  obtain ⟨hcw, hcw', hch, hch'⟩ := hall c hc
  obtain ⟨hrw, hrw', hrh, hrh'⟩ := hall _ hfloat.1
  obtain ⟨Dc, hDc, hDce⟩ := ratioDelta_approx targetWidth targetHeight c.width c.height
    htw htw' hth hth' hcw hcw' hch hch'
  obtain ⟨Dr, hDr, hDre⟩ := ratioDelta_approx targetWidth targetHeight
    (bestFitIcon icons targetWidth targetHeight).width
    (bestFitIcon icons targetWidth targetHeight).height htw htw' hth hth' hrw hrw' hrh hrh'
  have hlt := hfloat.2
  rw [hDc, hDr] at hlt
  have hle : Dr ≤ Dc := by
    have h := of_decide_eq_false (show decide (Dc < Dr) = false from hlt)
    exact not_lt.1 h
  by_contra hcon
  have hgap := exactRatioDelta_gap targetWidth targetHeight c.width c.height
    (bestFitIcon icons targetWidth targetHeight).width
    (bestFitIcon icons targetWidth targetHeight).height
    hth hth' hch hch' hrh hrh' (not_le.1 hcon)
  rw [abs_le] at hDce hDre
  have hnum : (12292 : ℚ) / 2 ^ 53 + 12292 / 2 ^ 53 < 1 / 4096 ^ 3 := by norm_num
  linarith [hDce.1, hDce.2, hDre.1, hDre.2]

/-- Witness of C4, amended: target 32x32, candidates 64x48, 40x36 and 16x16,
compared with the large-enough candidate 64x48. -/
theorem bestFit_closest_ratio_witness :
    bestFitIcon [icon 64 48, icon 40 36, icon 16 16] 32 32
        ∈ [icon 64 48, icon 40 36, icon 16 16]
      ∧ Double.lt (ratioDelta 32 32 (icon 64 48).width (icon 64 48).height)
          (ratioDelta 32 32
            (bestFitIcon [icon 64 48, icon 40 36, icon 16 16] 32 32).width
            (bestFitIcon [icon 64 48, icon 40 36, icon 16 16] 32 32).height) = false
      ∧ exactRatioDelta 32 32
            (bestFitIcon [icon 64 48, icon 40 36, icon 16 16] 32 32).width
            (bestFitIcon [icon 64 48, icon 40 36, icon 16 16] 32 32).height
          ≤ exactRatioDelta 32 32 (icon 64 48).width (icon 64 48).height :=
  have h := bestFit_closest_ratio [icon 64 48, icon 40 36, icon 16 16] 32 32 (by decide)
    (icon 64 48) (by decide) (by decide)
  ⟨h.1, h.2.1, h.2.2 (by decide)⟩

/-! ## Properties of `translateKey` -/

theorem and_two_pow_eq_zero (x k : Nat) : x &&& 2 ^ k = 0 ↔ x.testBit k = false := by
  constructor
  · intro h
    have := congrArg (fun y => Nat.testBit y k) h
    simpa [Nat.testBit_two_pow_self] using this
  · intro h
    apply Nat.eq_of_testBit_eq
    intro i
    rw [Nat.testBit_and, Nat.testBit_two_pow, Nat.zero_testBit]
    by_cases hk : k = i
    · subst hk; simp [h]
    · simp [hk]

theorem lParam_and_extended (l : Nat) : l &&& 0x01000000 = 0 ↔ extendedKey l = false :=
  and_two_pow_eq_zero l 24

theorem HIWORD_and_extended (l : Nat) : HIWORD l &&& 0x100 = 0 ↔ extendedKey l = false := by
  unfold HIWORD extendedKey
  rw [show (0x100 : Nat) = 2 ^ 8 from rfl, and_two_pow_eq_zero, Nat.testBit_and,
    Nat.testBit_shiftRight, show (0xffff : Nat) = 2 ^ 16 - 1 from rfl,
    Nat.testBit_two_pow_sub_one]
  simp

theorem HIWORD_and_scanCode (l : Nat) : HIWORD l &&& 0xFF = scanCode l := by
  unfold HIWORD scanCode
  rw [show (0xffff : Nat) = 2 ^ 16 - 1 from rfl, show (0xFF : Nat) = 2 ^ 8 - 1 from rfl,
    Nat.and_pow_two_sub_one_eq_mod, Nat.and_pow_two_sub_one_eq_mod, Nat.shiftRight_eq_div_pow]
  omega

theorem lParam_shift_scan (l : Nat) : (l &&& 0x01ff0000) >>> 16 = l / 2 ^ 16 % 2 ^ 9 := by
  apply Nat.eq_of_testBit_eq
  intro i
  rw [Nat.testBit_shiftRight, Nat.testBit_and, Nat.testBit_mod_two_pow,
    ← Nat.shiftRight_eq_div_pow, Nat.testBit_shiftRight,
    show (0x01ff0000 : Nat) = (2 ^ 9 - 1) <<< 16 from rfl, Nat.testBit_shiftLeft,
    Nat.testBit_two_pow_sub_one]
  by_cases hi : i < 9 <;> simp [hi, Bool.and_comm]

theorem keypad_switch_none (os : Win32) (l : Nat)
    (h : extendedKey l = true ∨ keypadScanCode os l = false) :
    (if HIWORD l &&& 0x100 = 0 then
        keypadTable.lookup (os.MapVirtualKey (HIWORD l &&& 0xFF) 1)
      else none) = none := by
  by_cases hx : extendedKey l = false
  · rw [if_pos ((HIWORD_and_extended l).2 hx), HIWORD_and_scanCode]
    rcases h with h | h
    · rw [h] at hx
      exact absurd hx (by decide)
    · unfold keypadScanCode at h
      cases hl : keypadTable.lookup (os.MapVirtualKey (scanCode l) 1) with
      | none => rfl
      | some k => rw [hl] at h; simp at h
  · rw [if_neg (fun hz => hx ((HIWORD_and_extended l).1 hz))]

theorem translateKey_switch (os : Win32) (w l : Nat)
    (h : extendedKey l = true ∨ keypadScanCode os l = false) :
    translateKey os w l =
      if w = VK_SHIFT then
        (if (l &&& 0x01ff0000) >>> 16 = os.MapVirtualKey VK_RSHIFT 0 then
          some GLFW_KEY_RIGHT_SHIFT
        else some GLFW_KEY_LEFT_SHIFT)
      else if w = VK_CONTROL then
        (if l &&& 0x01000000 ≠ 0 then some GLFW_KEY_RIGHT_CONTROL
        else
          match os.queue.head? with
          | some next_msg =>
            if (next_msg.message = WM_KEYDOWN ∨ next_msg.message = WM_SYSKEYDOWN)
                ∧ next_msg.wParam = VK_MENU
                ∧ next_msg.lParam &&& 0x01000000 ≠ 0
                ∧ next_msg.time = toDWORD os.GetMessageTime then
              none
            else some GLFW_KEY_LEFT_CONTROL
          | none => some GLFW_KEY_LEFT_CONTROL)
      else if w = VK_MENU then
        (if l &&& 0x01000000 ≠ 0 then some GLFW_KEY_RIGHT_ALT else some GLFW_KEY_LEFT_ALT)
      else if w = VK_RETURN then
        (if l &&& 0x01000000 ≠ 0 then some GLFW_KEY_KP_ENTER else some GLFW_KEY_ENTER)
      else staticTable.lookup w := by
  unfold translateKey
  dsimp only
  rw [keypad_switch_none os l h]
  dsimp only
  cases staticTable.lookup w <;> rfl

theorem lParam_and_ne_zero (l : Nat) : l &&& 0x01000000 ≠ 0 ↔ extendedKey l = true := by
  rw [Ne, lParam_and_extended]
  cases extendedKey l <;> simp

theorem keypadTable_numpadRows :
    ∀ row ∈ numpadRows, keypadTable.lookup row.1 = some row.2 := by
  decide

/-- C5. When the extended-key bit is clear and the scan code maps to
`VK_INSERT`, `VK_END`, `VK_DOWN`, `VK_NEXT`, `VK_LEFT`, `VK_CLEAR`,
`VK_RIGHT`, `VK_HOME`, `VK_UP`, `VK_PRIOR` or `VK_DELETE`, `translateKey`
returns `GLFW_KEY_KP_0` ... `GLFW_KEY_KP_9` or `GLFW_KEY_KP_DECIMAL`
respectively, whatever `wParam` is: any two key codes give the same result. -/
theorem translateKey_numpad (os : Win32) (wParam lParam : Nat) (vk : Nat) (key : Key)
    (hrow : (vk, key) ∈ numpadRows)
    (hext : extendedKey lParam = false)
    (hmap : os.MapVirtualKey (scanCode lParam) 1 = vk) :
    translateKey os wParam lParam = some key
      ∧ ∀ wParam2, translateKey os wParam2 lParam = translateKey os wParam lParam := by
  have hl : keypadTable.lookup vk = some key := keypadTable_numpadRows (vk, key) hrow
  have hall : ∀ w, translateKey os w lParam = some key := by
    intro w
    unfold translateKey
    dsimp only
    rw [if_pos ((HIWORD_and_extended lParam).2 hext), HIWORD_and_scanCode, hmap, hl]
  exact ⟨hall wParam, fun w => by rw [hall w, hall wParam]⟩

/-- Witness of C5: the key with scan code `0x47`, NumLock on (`VK_NUMPAD7`)
or off (`VK_HOME`). -/
theorem translateKey_numpad_witness :
    translateKey (sampleOS 0 []) VK_NUMPAD7 0x00470001 = some GLFW_KEY_KP_7
      ∧ ∀ wParam2, translateKey (sampleOS 0 []) wParam2 0x00470001
          = translateKey (sampleOS 0 []) VK_NUMPAD7 0x00470001 :=
  translateKey_numpad (sampleOS 0 []) VK_NUMPAD7 0x00470001 VK_HOME GLFW_KEY_KP_7
    (by decide) (by decide) (by decide)

/-- C6. For key code `VK_CONTROL` with the extended-key bit clear and a scan
code that is not a keypad scan code, when the first pending message is a
`WM_KEYDOWN` or `WM_SYSKEYDOWN` for `VK_MENU` with the extended-key bit set
and the time of the current message, `translateKey` returns `-1`. -/
theorem translateKey_control_altgr (os : Win32) (lParam : Nat) (next : MSG) (rest : List MSG)
    (hext : extendedKey lParam = false)
    (hkp : keypadScanCode os lParam = false)
    (hq : os.queue = next :: rest)
    (hmsg : next.message = WM_KEYDOWN ∨ next.message = WM_SYSKEYDOWN)
    (hkey : next.wParam = VK_MENU)
    (hnext : extendedKey next.lParam = true)
    (htime : next.time = toDWORD os.GetMessageTime) :
    translateKey os VK_CONTROL lParam = none := by
  rw [translateKey_switch os VK_CONTROL lParam (Or.inr hkp)]
  rw [if_neg (by decide), if_pos rfl, if_neg (by rw [lParam_and_ne_zero, hext]; decide), hq]
  dsimp only [List.head?]
  rw [if_pos ⟨hmsg, hkey, (lParam_and_ne_zero _).2 hnext, htime⟩]

/-- Witness of C6: left Control (scan code `0x1D`) followed in the queue by a
right-Alt key-down of the same time. -/
theorem translateKey_control_altgr_witness :
    translateKey (sampleOS 1000 [⟨WM_KEYDOWN, VK_MENU, 0x21380001, 1000⟩]) VK_CONTROL
      0x001D0001 = none :=
  translateKey_control_altgr (sampleOS 1000 [⟨WM_KEYDOWN, VK_MENU, 0x21380001, 1000⟩])
    0x001D0001 ⟨WM_KEYDOWN, VK_MENU, 0x21380001, 1000⟩ [] (by decide) (by decide) rfl
    (by decide) (by decide) (by decide) (by decide)

/-- C7. For key code `VK_CONTROL` with the extended-key bit clear and a scan
code that is not a keypad scan code, when the queue is empty, or its first
message is no key-down or system-key-down, or is for another key than
`VK_MENU`, or has its extended-key bit clear, or carries another time than the
current message, `translateKey` returns `GLFW_KEY_LEFT_CONTROL`. -/
theorem translateKey_control_left (os : Win32) (lParam : Nat)
    (hext : extendedKey lParam = false)
    (hkp : keypadScanCode os lParam = false)
    (h : os.queue = []
      ∨ ∃ next rest, os.queue = next :: rest
          ∧ (¬ (next.message = WM_KEYDOWN ∨ next.message = WM_SYSKEYDOWN)
            ∨ next.wParam ≠ VK_MENU
            ∨ extendedKey next.lParam = false
            ∨ next.time ≠ toDWORD os.GetMessageTime)) :
    translateKey os VK_CONTROL lParam = some GLFW_KEY_LEFT_CONTROL := by
  rw [translateKey_switch os VK_CONTROL lParam (Or.inr hkp)]
  rw [if_neg (by decide), if_pos rfl, if_neg (by rw [lParam_and_ne_zero, hext]; decide)]
  rcases h with hq | ⟨next, rest, hq, hn⟩
  · rw [hq]
    rfl
  · rw [hq]
    dsimp only [List.head?]
    rw [if_neg]
    rintro ⟨h1, h2, h3, h4⟩
    rw [lParam_and_ne_zero] at h3
    rcases hn with hn | hn | hn | hn
    · exact hn h1
    · exact hn h2
    · rw [hn] at h3
      exact absurd h3 (by decide)
    · exact hn h4

/-- Witness of C7: left Control followed by a right-Alt key-down of a later
time. -/
theorem translateKey_control_left_witness :
    translateKey (sampleOS 1000 [⟨WM_KEYDOWN, VK_MENU, 0x21380001, 1016⟩]) VK_CONTROL
      0x001D0001 = some GLFW_KEY_LEFT_CONTROL :=
  translateKey_control_left (sampleOS 1000 [⟨WM_KEYDOWN, VK_MENU, 0x21380001, 1016⟩])
    0x001D0001 (by decide) (by decide)
    (Or.inr ⟨⟨WM_KEYDOWN, VK_MENU, 0x21380001, 1016⟩, [], rfl,
      Or.inr (Or.inr (Or.inr (by decide)))⟩)

theorem translateKey_queue_independent (os1 os2 : Win32) (wParam lParam : Nat)
    (hctrl : wParam ≠ VK_CONTROL)
    (hmap : os1.MapVirtualKey = os2.MapVirtualKey) :
    translateKey os1 wParam lParam = translateKey os2 wParam lParam := by
  unfold translateKey
  dsimp only
  rw [hmap, if_neg hctrl, if_neg hctrl]

/-- C8. For a key code of the static table, `translateKey` does not depend on
the pending messages or on the message time: two calls with the same key code
and `lParam`, under the same keyboard layout, return the same result whatever
the two queues and times are. -/
theorem translateKey_static_pure (os1 os2 : Win32) (wParam lParam : Nat)
    (hstatic : (staticTable.lookup wParam).isSome = true)
    (hmap : os1.MapVirtualKey = os2.MapVirtualKey) :
    translateKey os1 wParam lParam = translateKey os2 wParam lParam := by
  apply translateKey_queue_independent os1 os2 wParam lParam _ hmap
  intro hw
  rw [hw] at hstatic
  exact absurd hstatic (by decide)

/-- Witness of C8: the key A with an empty queue and with a pending right-Alt
key-down. -/
theorem translateKey_static_pure_witness :
    translateKey (sampleOS 1000 []) 0x41 0x001E0001
      = translateKey (sampleOS 2000 [⟨WM_KEYDOWN, VK_MENU, 0x21380001, 2000⟩]) 0x41
          0x001E0001 :=
  translateKey_static_pure (sampleOS 1000 [])
    (sampleOS 2000 [⟨WM_KEYDOWN, VK_MENU, 0x21380001, 2000⟩]) 0x41 0x001E0001
    (by decide) rfl

/-- C9, as stated, fails. A `VK_SHIFT` event whose scan code, bits 16 to 23,
is the scan code `0x36` of `VK_RSHIFT`, but whose extended-key bit is set,
is translated to `GLFW_KEY_LEFT_SHIFT`: the comparison takes bits 16 to 24. -/
theorem translateKey_shift_counterexample :
    scanCode 0x01360001 = (sampleOS 0 []).MapVirtualKey VK_RSHIFT 0
      ∧ keypadScanCode (sampleOS 0 []) 0x01360001 = false
      ∧ translateKey (sampleOS 0 []) VK_SHIFT 0x01360001 = some GLFW_KEY_LEFT_SHIFT
      ∧ translateKey (sampleOS 0 []) VK_SHIFT 0x01360001 ≠ some GLFW_KEY_RIGHT_SHIFT := by
  decide

/-- C9, amended. For key code `VK_SHIFT`, when the keypad test does not
apply (extended-key bit set, or scan code not a keypad scan code),
`translateKey` returns `GLFW_KEY_RIGHT_SHIFT` when bits 16 to 24 of `lParam`,
the scan code together with the extended-key bit, equal the scan code the
system reports for `VK_RSHIFT`, and `GLFW_KEY_LEFT_SHIFT` otherwise; with the
extended-key bit clear these bits are the scan code. -/
theorem translateKey_shift (os : Win32) (lParam : Nat)
    (hkp : extendedKey lParam = true ∨ keypadScanCode os lParam = false) :
    translateKey os VK_SHIFT lParam
        = (if lParam / 2 ^ 16 % 2 ^ 9 = os.MapVirtualKey VK_RSHIFT 0 then
            some GLFW_KEY_RIGHT_SHIFT
          else some GLFW_KEY_LEFT_SHIFT)
      ∧ (extendedKey lParam = false → lParam / 2 ^ 16 % 2 ^ 9 = scanCode lParam) := by
  constructor
  · rw [translateKey_switch os VK_SHIFT lParam hkp, if_pos rfl, lParam_shift_scan]
  · intro hext
    unfold extendedKey at hext
    rw [Nat.testBit_to_div_mod] at hext
    have h2 : lParam / 2 ^ 24 % 2 = 0 := by
      have := of_decide_eq_false hext
      omega
    unfold scanCode
    omega

/-- Witness of C9, amended: the right shift key, scan code `0x36`, extended-key
bit clear. -/
theorem translateKey_shift_witness :
    translateKey (sampleOS 0 []) VK_SHIFT 0x00360001
        = (if 0x00360001 / 2 ^ 16 % 2 ^ 9 = (sampleOS 0 []).MapVirtualKey VK_RSHIFT 0 then
            some GLFW_KEY_RIGHT_SHIFT
          else some GLFW_KEY_LEFT_SHIFT)
      ∧ 0x00360001 / 2 ^ 16 % 2 ^ 9 = scanCode 0x00360001 :=
  have h := translateKey_shift (sampleOS 0 []) 0x00360001 (Or.inr (by decide))
  ⟨h.1, h.2 (by decide)⟩

/-- C10. When the keypad test does not apply (extended-key bit set, or scan
code not a keypad scan code), the extended-key bit alone selects the variant:
`VK_MENU` gives `GLFW_KEY_RIGHT_ALT` with the bit set and `GLFW_KEY_LEFT_ALT`
with it clear, `VK_RETURN` gives `GLFW_KEY_KP_ENTER` and `GLFW_KEY_ENTER`, and
`VK_CONTROL` with the bit set gives `GLFW_KEY_RIGHT_CONTROL`, whatever the
message queue holds. -/
theorem translateKey_extended (os : Win32) (lParam : Nat)
    (hkp : extendedKey lParam = true ∨ keypadScanCode os lParam = false) :
    translateKey os VK_MENU lParam
        = some (if extendedKey lParam = true then GLFW_KEY_RIGHT_ALT else GLFW_KEY_LEFT_ALT)
      ∧ translateKey os VK_RETURN lParam
        = some (if extendedKey lParam = true then GLFW_KEY_KP_ENTER else GLFW_KEY_ENTER)
      ∧ (extendedKey lParam = true →
          ∀ time queue,
            translateKey ⟨os.MapVirtualKey, time, queue⟩ VK_CONTROL lParam
              = some GLFW_KEY_RIGHT_CONTROL) := by
  refine ⟨?_, ?_, ?_⟩
  · rw [translateKey_switch os VK_MENU lParam hkp, if_neg (by decide), if_neg (by decide),
      if_pos rfl]
    by_cases hx : extendedKey lParam = true
    · rw [if_pos ((lParam_and_ne_zero lParam).2 hx), if_pos hx]
    · rw [if_neg (fun h => hx ((lParam_and_ne_zero lParam).1 h)), if_neg hx]
  · rw [translateKey_switch os VK_RETURN lParam hkp, if_neg (by decide), if_neg (by decide),
      if_neg (by decide), if_pos rfl]
    by_cases hx : extendedKey lParam = true
    · rw [if_pos ((lParam_and_ne_zero lParam).2 hx), if_pos hx]
    · rw [if_neg (fun h => hx ((lParam_and_ne_zero lParam).1 h)), if_neg hx]
  · intro hx time queue
    rw [translateKey_switch _ VK_CONTROL lParam (Or.inl hx), if_neg (by decide), if_pos rfl,
      if_pos ((lParam_and_ne_zero lParam).2 hx)]

/-- Witness of C10: the right Alt key, scan code `0x38` with the extended-key
bit set. -/
theorem translateKey_extended_witness :
    translateKey (sampleOS 0 []) VK_MENU 0x21380001
        = some (if extendedKey 0x21380001 = true then GLFW_KEY_RIGHT_ALT
            else GLFW_KEY_LEFT_ALT)
      ∧ translateKey (sampleOS 0 []) VK_RETURN 0x21380001
        = some (if extendedKey 0x21380001 = true then GLFW_KEY_KP_ENTER else GLFW_KEY_ENTER)
      ∧ ∀ time queue,
          translateKey ⟨(sampleOS 0 []).MapVirtualKey, time, queue⟩ VK_CONTROL 0x21380001
            = some GLFW_KEY_RIGHT_CONTROL :=
  have h := translateKey_extended (sampleOS 0 []) 0x21380001 (Or.inl (by decide))
  ⟨h.1, h.2.1, h.2.2 (by decide)⟩

/-! ## Further properties of `bestFit` -/

theorem bestFitLoop_lt_length (icons : List GLFWimage) (tw th : Int) :
    ∀ n cur best, cur + n = icons.length → best < icons.length →
      bestFitLoop icons tw th n cur best < icons.length := by
  intro n
  induction n with
  | zero => intro cur best _ hb; simpa [bestFitLoop] using hb
  | succ n ih =>
    intro cur best h1 hb
    unfold bestFitLoop
    dsimp only
    split
    · omega
    · split
      · exact ih (cur + 1) cur (by omega) (by omega)
      · exact ih (cur + 1) best (by omega) hb

/-- C13. For a candidate array of `numicons ≥ 1` images and any target, the
index `bestFit` returns is within the array, so that the image returned is one
of the candidates `icons[0..numicons-1]`. The function only reads the array:
in the embedding it is a function of the array, which is the same after the
call. -/
theorem bestFit_in_bounds (icons : List GLFWimage) (targetWidth targetHeight : Int)
    (hne : 1 ≤ icons.length) :
    bestFit icons icons.length targetWidth targetHeight < icons.length
      ∧ bestFitIcon icons targetWidth targetHeight ∈ icons
      ∧ icons[bestFit icons icons.length targetWidth targetHeight]?
          = some (bestFitIcon icons targetWidth targetHeight) := by
  have h : bestFit icons icons.length targetWidth targetHeight < icons.length := by
    unfold bestFit
    rw [Int.toNat_ofNat]
    exact bestFitLoop_lt_length icons targetWidth targetHeight icons.length 0 0 (by omega)
      (by omega)
  refine ⟨h, (mem_iff_getD icons _).2 ⟨_, h, rfl⟩, ?_⟩
  unfold bestFitIcon
  rw [List.getD_eq_getElem _ _ h, List.getElem?_eq_getElem h]

/-- Witness of C13: three candidates, none of the target size 32x32. -/
theorem bestFit_in_bounds_witness :
    bestFit [icon 16 16, icon 64 48, icon 32 31] 3 32 32 < 3
      ∧ bestFitIcon [icon 16 16, icon 64 48, icon 32 31] 32 32
          ∈ [icon 16 16, icon 64 48, icon 32 31]
      ∧ [icon 16 16, icon 64 48, icon 32 31][bestFit [icon 16 16, icon 64 48, icon 32 31] 3
            32 32]?
          = some (bestFitIcon [icon 16 16, icon 64 48, icon 32 31] 32 32) :=
  bestFit_in_bounds [icon 16 16, icon 64 48, icon 32 31] 32 32 (by decide)

/-- C19, as stated, fails. With target 70000x70000 and the candidates 1x1 and
65536x65536, both strictly smaller than the target, the `int` product
`65536 * 65536` wraps to `0`, the comparison `0 > 1` fails and `bestFit`
returns the 1x1 image, whose exact area is not maximal. -/
theorem bestFit_first_largest_counterexample :
    (∀ c ∈ [icon 1 1, icon 65536 65536],
        0 < c.width ∧ c.width < 70000 ∧ 0 < c.height ∧ c.height < 70000)
      ∧ bestFitIcon [icon 1 1, icon 65536 65536] 70000 70000 = icon 1 1
      ∧ (icon 1 1).width * (icon 1 1).height
          < (icon 65536 65536).width * (icon 65536 65536).height := by
  decide!

/-- C19, amended. When every candidate has positive dimensions, is strictly
smaller than the target in both width and height, and has an area that fits a
32-bit `int`, `bestFit` returns the first candidate of maximal area: no
candidate has a larger area `width * height`, and every candidate before the
returned one has a strictly smaller area. -/
theorem bestFit_first_largest (icons : List GLFWimage) (targetWidth targetHeight : Int)
    (hne : icons ≠ [])
    (hsmall : ∀ c ∈ icons,
      0 < c.width ∧ c.width < targetWidth ∧ 0 < c.height ∧ c.height < targetHeight)
    (hfit : ∀ c ∈ icons, c.width * c.height < 2147483648) :
    bestFit icons icons.length targetWidth targetHeight < icons.length
      ∧ (∀ j, j < icons.length →
          (icons.getD j default).width * (icons.getD j default).height
            ≤ (bestFitIcon icons targetWidth targetHeight).width
              * (bestFitIcon icons targetWidth targetHeight).height)
      ∧ (∀ j, j < bestFit icons icons.length targetWidth targetHeight →
          (icons.getD j default).width * (icons.getD j default).height
            < (bestFitIcon icons targetWidth targetHeight).width
              * (bestFitIcon icons targetWidth targetHeight).height) := by
  have hlen : 0 < icons.length := List.length_pos.2 hne
  have hmem : ∀ j, j < icons.length → icons.getD j default ∈ icons :=
    fun j hj => (mem_iff_getD icons _).2 ⟨j, hj, rfl⟩
  have hinv := bestFit_invariant icons targetWidth targetHeight
    (fun cur best => best < icons.length
      ∧ (∀ j, j < cur → area (icons.getD j default) ≤ area (icons.getD best default))
      ∧ (∀ j, j < best → area (icons.getD j default) < area (icons.getD best default)))
    (by
      intro j hj hex
      have := hsmall _ (hmem j hj)
      unfold exactSize at hex
      omega)
    ⟨hlen, by intro j hj; omega, by intro j hj; omega⟩
    (by
      intro cur best hcur hI
      obtain ⟨hb, hI, hF⟩ := hI
      have hc := hsmall _ (hmem cur hcur)
      have hbs := hsmall _ (hmem best hb)
      have hcf := hfit _ (hmem cur hcur)
      have hbf := hfit _ (hmem best hb)
      have hcpos : 0 < (icons.getD cur default).width * (icons.getD cur default).height :=
        Int.mul_pos hc.1 hc.2.2.1
      have hbpos : 0 < (icons.getD best default).width * (icons.getD best default).height :=
        Int.mul_pos hbs.1 hbs.2.2.1
      have h1 : ¬ ((icons.getD cur default).width ≥ targetWidth
          ∨ (icons.getD cur default).height ≥ targetHeight) := by omega
      have h2 : (icons.getD best default).width < targetWidth
          ∧ (icons.getD best default).height < targetHeight := ⟨hbs.2.1, hbs.2.2.2⟩
      have hb' : becomesBest targetWidth targetHeight (icons.getD cur default)
            (icons.getD best default)
          = decide (area (icons.getD cur default) > area (icons.getD best default)) := by
        unfold becomesBest area
        rw [if_neg h1, if_pos h2, wrapInt32_eq_self _ (by omega) hcf,
          wrapInt32_eq_self _ (by omega) hbf]
        by_cases hgt : (icons.getD cur default).width * (icons.getD cur default).height
            > (icons.getD best default).width * (icons.getD best default).height
        · simp [hgt]
        · simp [hgt]
      rw [hb']
      by_cases hgt : area (icons.getD cur default) > area (icons.getD best default)
      · simp only [hgt, decide_True, if_true]
        refine ⟨hcur, fun j hj => ?_, fun j hj => lt_of_le_of_lt (hI j hj) hgt⟩
        rcases Nat.lt_succ_iff_lt_or_eq.1 hj with hj | rfl
        · exact le_trans (hI j hj) (le_of_lt hgt)
        · exact le_refl _
      · simp only [hgt, decide_False, if_false]
        refine ⟨hb, fun j hj => ?_, hF⟩
        rcases Nat.lt_succ_iff_lt_or_eq.1 hj with hj | rfl
        · exact hI j hj
        · exact not_lt.1 hgt)
  obtain ⟨hb, hI, hF⟩ := hinv
  exact ⟨hb, fun j hj => hI j hj, fun j hj => hF j hj⟩

/-- Witness of C19, amended: target 32x32 and the candidates 8x8, 16x24 and
24x16, the last two of the same area. -/
theorem bestFit_first_largest_witness :
    bestFit [icon 8 8, icon 16 24, icon 24 16] 3 32 32 < 3
      ∧ (∀ j, j < 3 →
          ([icon 8 8, icon 16 24, icon 24 16].getD j default).width
              * ([icon 8 8, icon 16 24, icon 24 16].getD j default).height
            ≤ (bestFitIcon [icon 8 8, icon 16 24, icon 24 16] 32 32).width
              * (bestFitIcon [icon 8 8, icon 16 24, icon 24 16] 32 32).height)
      ∧ (∀ j, j < bestFit [icon 8 8, icon 16 24, icon 24 16] 3 32 32 →
          ([icon 8 8, icon 16 24, icon 24 16].getD j default).width
              * ([icon 8 8, icon 16 24, icon 24 16].getD j default).height
            < (bestFitIcon [icon 8 8, icon 16 24, icon 24 16] 32 32).width
              * (bestFitIcon [icon 8 8, icon 16 24, icon 24 16] 32 32).height) :=
  bestFit_first_largest [icon 8 8, icon 16 24, icon 24 16] 32 32 (by decide) (by decide)
    (by decide)

/-! ## The static key table -/

theorem lookup_mem {α β : Type} [BEq α] [LawfulBEq α] (l : List (α × β)) (a : α) (b : β)
    (h : l.lookup a = some b) : (a, b) ∈ l := by
  induction l with
  | nil => simp [List.lookup] at h
  | cons p l ih =>
    obtain ⟨x, y⟩ := p
    by_cases hx : a == x
    · rw [List.lookup_cons, hx] at h
      simp only [Option.some.injEq] at h
      have : a = x := by simpa using hx
      subst this; subst h
      exact List.mem_cons_self _ _
    · rw [List.lookup_cons] at h
      simp only [hx] at h
      exact List.mem_cons_of_mem _ (ih h)

theorem staticTable_values_distinct :
    ∀ p ∈ staticTable, ∀ q ∈ staticTable, p.2 = q.2 → p.1 = q.1 := by
  decide!

theorem translateKey_static (os : Win32) (wParam lParam : Nat) (key : Key)
    (h : staticTable.lookup wParam = some key)
    (hkp : extendedKey lParam = true ∨ keypadScanCode os lParam = false) :
    translateKey os wParam lParam = some key := by
  have n1 : wParam ≠ VK_SHIFT := by
    intro hw
    rw [hw, show staticTable.lookup VK_SHIFT = none from by decide] at h
    exact Option.noConfusion h
  have n2 : wParam ≠ VK_CONTROL := by
    intro hw
    rw [hw, show staticTable.lookup VK_CONTROL = none from by decide] at h
    exact Option.noConfusion h
  have n3 : wParam ≠ VK_MENU := by
    intro hw
    rw [hw, show staticTable.lookup VK_MENU = none from by decide] at h
    exact Option.noConfusion h
  have n4 : wParam ≠ VK_RETURN := by
    intro hw
    rw [hw, show staticTable.lookup VK_RETURN = none from by decide] at h
    exact Option.noConfusion h
  rw [translateKey_switch os wParam lParam hkp, if_neg n1, if_neg n2, if_neg n3, if_neg n4, h]

/-- C11. The static table is one-to-one: two distinct key codes of the table
(the cases of the key-code `switch` other than `VK_SHIFT`, `VK_CONTROL`,
`VK_MENU` and `VK_RETURN`) are assigned distinct identifiers, and where the
keypad test does not apply `translateKey` returns these two identifiers,
neither result being `-1`. -/
theorem translateKey_static_one_to_one (os : Win32) (lParam wParam1 wParam2 : Nat)
    (key1 key2 : Key)
    (h1 : staticTable.lookup wParam1 = some key1)
    (h2 : staticTable.lookup wParam2 = some key2)
    (hne : wParam1 ≠ wParam2) :
    key1 ≠ key2
      ∧ ((extendedKey lParam = true ∨ keypadScanCode os lParam = false) →
          translateKey os wParam1 lParam = some key1
            ∧ translateKey os wParam2 lParam = some key2
            ∧ translateKey os wParam1 lParam ≠ translateKey os wParam2 lParam
            ∧ translateKey os wParam1 lParam ≠ none
            ∧ translateKey os wParam2 lParam ≠ none) := by
  have hk : key1 ≠ key2 := fun h =>
    hne (staticTable_values_distinct _ (lookup_mem _ _ _ h1) _ (lookup_mem _ _ _ h2) h)
  refine ⟨hk, fun hkp => ?_⟩
  have t1 := translateKey_static os wParam1 lParam key1 h1 hkp
  have t2 := translateKey_static os wParam2 lParam key2 h2 hkp
  rw [t1, t2]
  exact ⟨rfl, rfl, fun h => hk (Option.some.inj h), by simp, by simp⟩

/-- Witness of C11: the key codes `0x41` and `0x42`, the letters A and B. -/
theorem translateKey_static_one_to_one_witness :
    GLFW_KEY_A ≠ GLFW_KEY_B
      ∧ translateKey (sampleOS 0 []) 0x41 0x001E0001 = some GLFW_KEY_A
      ∧ translateKey (sampleOS 0 []) 0x42 0x001E0001 = some GLFW_KEY_B
      ∧ translateKey (sampleOS 0 []) 0x41 0x001E0001
          ≠ translateKey (sampleOS 0 []) 0x42 0x001E0001
      ∧ translateKey (sampleOS 0 []) 0x41 0x001E0001 ≠ none
      ∧ translateKey (sampleOS 0 []) 0x42 0x001E0001 ≠ none :=
  have h := translateKey_static_one_to_one (sampleOS 0 []) 0x001E0001 0x41 0x42 GLFW_KEY_A
    GLFW_KEY_B (by decide) (by decide) (by decide)
  ⟨h.1, h.2 (Or.inr (by decide))⟩

/-! ## Properties of `windowProc` -/

theorem translateKey_shift_ne_none (os : Win32) (lParam : Nat) :
    translateKey os VK_SHIFT lParam ≠ none := by
  unfold translateKey
  dsimp only
  split
  · simp
  · rw [if_pos rfl]
    split <;> simp

/-- C12, as stated, fails. For a key-down message with the unmapped key code
`0x07`, and for a left Control suppressed by the Alt-Gr lookahead,
`translateKey` returns `-1` and `windowProc` still makes the call
`_glfwInputKey(window, -1, GLFW_PRESS)`: it does not drop the event. -/
theorem windowProc_unrecognized_counterexample :
    translateKey (sampleOS 0 []) 0x07 0x00010001 = none
      ∧ (windowProc (sampleOS 0 []) none 0 sampleWindow WM_KEYDOWN 0x07 0x00010001).2.1
          = [Call._glfwInputKey none GLFW_PRESS, Call.DefWindowProc]
      ∧ translateKey (sampleOS 1000 [⟨WM_KEYDOWN, VK_MENU, 0x21380001, 1000⟩]) VK_CONTROL
          0x001D0001 = none
      ∧ (windowProc (sampleOS 1000 [⟨WM_KEYDOWN, VK_MENU, 0x21380001, 1000⟩]) none 0
            sampleWindow WM_KEYDOWN VK_CONTROL 0x001D0001).2.1
          = [Call._glfwInputKey none GLFW_PRESS, Call.DefWindowProc] := by
  decide

/-- C12, amended. For a `WM_KEYDOWN`, `WM_SYSKEYDOWN`, `WM_KEYUP` or
`WM_SYSKEYUP` message whose translation by `translateKey` is `-1`,
`windowProc` does not filter the event: it makes exactly one call of
`_glfwInputKey`, with key `-1` and the action of the message (press for the
key-down messages, release for the key-up ones), and then calls
`DefWindowProc`. Dropping the event is left to `_glfwInputKey`. -/
theorem windowProc_unrecognized_forwarded (os : Win32) (focusedWindow : Option Nat)
    (defResult : Int) (window : Window) (uMsg wParam lParam : Nat)
    (hmsg : uMsg = WM_KEYDOWN ∨ uMsg = WM_SYSKEYDOWN ∨ uMsg = WM_KEYUP ∨ uMsg = WM_SYSKEYUP)
    (hnone : translateKey os wParam lParam = none) :
    (windowProc os focusedWindow defResult window uMsg wParam lParam).2.1
      = [Call._glfwInputKey none
          (if uMsg = WM_KEYDOWN ∨ uMsg = WM_SYSKEYDOWN then GLFW_PRESS else GLFW_RELEASE),
         Call.DefWindowProc] := by
  have hw : wParam ≠ VK_SHIFT := by
    intro h
    rw [h] at hnone
    exact translateKey_shift_ne_none os lParam hnone
  rcases hmsg with h | h | h | h <;> subst h <;> simp [windowProc, hnone, hw]

/-- Witness of C12, amended: a key-up message with the unmapped key code
`0x07`. -/
theorem windowProc_unrecognized_forwarded_witness :
    (windowProc (sampleOS 0 []) none 0 sampleWindow WM_KEYUP 0x07 0x00010001).2.1
      = [Call._glfwInputKey none
          (if WM_KEYUP = WM_KEYDOWN ∨ WM_KEYUP = WM_SYSKEYDOWN then GLFW_PRESS
            else GLFW_RELEASE),
         Call.DefWindowProc] :=
  windowProc_unrecognized_forwarded (sampleOS 0 []) none 0 sampleWindow WM_KEYUP 0x07
    0x00010001 (Or.inr (Or.inr (Or.inl rfl))) (by decide)

/-- C16. For a `WM_ACTIVATE` message whose minimized flag, the high word of
`wParam`, is not zero, the input events `windowProc` emits are the focus event
with `focused` false followed by the iconify event with `iconified` true,
whatever the low word of `wParam`, the focused window and the state of the
window are; the result is `0`. -/
theorem windowProc_activate_minimized (os : Win32) (focusedWindow : Option Nat)
    (defResult : Int) (window : Window) (wParam lParam : Nat)
    (hmin : HIWORD wParam ≠ 0) :
    (windowProc os focusedWindow defResult window WM_ACTIVATE wParam lParam).2.1.filter
        Call.isInputEvent
      = [Call._glfwInputWindowFocus false, Call._glfwInputWindowIconify true]
      ∧ (windowProc os focusedWindow defResult window WM_ACTIVATE wParam lParam).2.2 = 0 := by
  have hw : windowProc os focusedWindow defResult window WM_ACTIVATE wParam lParam
      = windowProc_WM_ACTIVATE focusedWindow window wParam := by
    simp [windowProc]
  rw [hw]
  unfold windowProc_WM_ACTIVATE
  refine ⟨?_, rfl⟩
  by_cases h1 : LOWORD wParam = WA_INACTIVE <;>
    by_cases h2 : focusedWindow = some window.id <;>
    by_cases h3 : window.cursorMode = GLFW_CURSOR_CAPTURED <;>
    by_cases h4 : window.monitor = true <;>
    simp [h1, h2, h3, h4, hmin, Call.isInputEvent, showCursor, captureCursor, updateClipRect,
      _glfwPlatformIconifyWindow]

/-- Witness of C16: activation state `WA_ACTIVE` (low word 1) with the
minimized flag set, for the focused window. -/
theorem windowProc_activate_minimized_witness :
    (windowProc (sampleOS 0 []) (some 1) 0 sampleWindow WM_ACTIVATE 0x00200001 0).2.1.filter
        Call.isInputEvent
      = [Call._glfwInputWindowFocus false, Call._glfwInputWindowIconify true]
      ∧ (windowProc (sampleOS 0 []) (some 1) 0 sampleWindow WM_ACTIVATE 0x00200001 0).2.2
          = 0 :=
  windowProc_activate_minimized (sampleOS 0 []) (some 1) 0 sampleWindow 0x00200001 0
    (by decide)

/-- C17. For a `WM_KEYUP` or `WM_SYSKEYUP` message, the input events
`windowProc` emits are, for key code `VK_SHIFT`, a release of
`GLFW_KEY_LEFT_SHIFT` followed by a release of `GLFW_KEY_RIGHT_SHIFT`, whatever
`lParam` and the keyboard map are (`translateKey` is not called), and for any
other key code the single release event carrying the result of
`translateKey`. -/
theorem windowProc_key_up (os : Win32) (focusedWindow : Option Nat) (defResult : Int)
    (window : Window) (uMsg wParam lParam : Nat)
    (hmsg : uMsg = WM_KEYUP ∨ uMsg = WM_SYSKEYUP) :
    (windowProc os focusedWindow defResult window uMsg wParam lParam).2.1.filter
        Call.isInputEvent
      = (if wParam = VK_SHIFT then
          [Call._glfwInputKey (some GLFW_KEY_LEFT_SHIFT) GLFW_RELEASE,
           Call._glfwInputKey (some GLFW_KEY_RIGHT_SHIFT) GLFW_RELEASE]
        else
          [Call._glfwInputKey (translateKey os wParam lParam) GLFW_RELEASE]) := by
  by_cases hw : wParam = VK_SHIFT <;>
    rcases hmsg with h | h <;> subst h <;> simp [windowProc, hw, Call.isInputEvent]

/-- Witness of C17: the release of the right shift key, scan code `0x36`. -/
theorem windowProc_key_up_witness :
    (windowProc (sampleOS 0 []) none 0 sampleWindow WM_KEYUP VK_SHIFT 0xC0360001).2.1.filter
        Call.isInputEvent
      = (if VK_SHIFT = VK_SHIFT then
          [Call._glfwInputKey (some GLFW_KEY_LEFT_SHIFT) GLFW_RELEASE,
           Call._glfwInputKey (some GLFW_KEY_RIGHT_SHIFT) GLFW_RELEASE]
        else
          [Call._glfwInputKey (translateKey (sampleOS 0 []) VK_SHIFT 0xC0360001)
            GLFW_RELEASE]) :=
  windowProc_key_up (sampleOS 0 []) none 0 sampleWindow WM_KEYUP VK_SHIFT 0xC0360001
    (Or.inl rfl)

theorem toShort_range (w : Nat) : -32768 ≤ toShort w ∧ toShort w < 32768 := by
  unfold toShort
  split <;> omega

theorem windowProc_WM_MOUSEMOVE_eq (os : Win32) (focusedWindow : Option Nat) (defResult : Int)
    (window : Window) (wParam lParam : Nat) :
    windowProc os focusedWindow defResult window WM_MOUSEMOVE wParam lParam
      = windowProc_WM_MOUSEMOVE focusedWindow window lParam := by
  simp [windowProc]

/-- C20. For a `WM_MOUSEMOVE` message carrying the position
`(GET_X_LPARAM(lParam), GET_Y_LPARAM(lParam))`: when it equals the cached
position no cursor-motion event is emitted; otherwise, in captured cursor mode,
the focused window gets one motion event carrying the difference new minus
cached (an `int` subtraction, exact for cached coordinates of at most `2^30` in
absolute value) and an unfocused window gets no call at all and is left
unchanged, and in any other cursor mode the one motion event carries the new
position; whenever a motion event is emitted the cached position is the new
position afterwards. -/
theorem windowProc_mouse_move (os : Win32) (focusedWindow : Option Nat) (defResult : Int)
    (window : Window) (wParam lParam : Nat) :
    ((GET_X_LPARAM lParam = window.oldCursorX ∧ GET_Y_LPARAM lParam = window.oldCursorY) →
        (windowProc os focusedWindow defResult window WM_MOUSEMOVE wParam lParam).2.1.filter
          Call.isCursorMotion = [])
      ∧ ((GET_X_LPARAM lParam ≠ window.oldCursorX ∨ GET_Y_LPARAM lParam ≠ window.oldCursorY) →
          window.cursorMode = GLFW_CURSOR_CAPTURED → focusedWindow = some window.id →
          (windowProc os focusedWindow defResult window WM_MOUSEMOVE wParam lParam).2.1.filter
              Call.isCursorMotion
            = [Call._glfwInputCursorMotion
                (wrapInt32 (GET_X_LPARAM lParam - window.oldCursorX))
                (wrapInt32 (GET_Y_LPARAM lParam - window.oldCursorY))])
      ∧ ((GET_X_LPARAM lParam ≠ window.oldCursorX ∨ GET_Y_LPARAM lParam ≠ window.oldCursorY) →
          window.cursorMode = GLFW_CURSOR_CAPTURED → focusedWindow ≠ some window.id →
          (windowProc os focusedWindow defResult window WM_MOUSEMOVE wParam lParam).2.1 = []
            ∧ (windowProc os focusedWindow defResult window WM_MOUSEMOVE wParam lParam).1
                = window)
      ∧ ((GET_X_LPARAM lParam ≠ window.oldCursorX ∨ GET_Y_LPARAM lParam ≠ window.oldCursorY) →
          window.cursorMode ≠ GLFW_CURSOR_CAPTURED →
          (windowProc os focusedWindow defResult window WM_MOUSEMOVE wParam lParam).2.1.filter
              Call.isCursorMotion
            = [Call._glfwInputCursorMotion (GET_X_LPARAM lParam) (GET_Y_LPARAM lParam)])
      ∧ (∀ x y, Call._glfwInputCursorMotion x y
            ∈ (windowProc os focusedWindow defResult window WM_MOUSEMOVE wParam lParam).2.1 →
          (windowProc os focusedWindow defResult window WM_MOUSEMOVE wParam lParam).1.oldCursorX
              = GET_X_LPARAM lParam
            ∧ (windowProc os focusedWindow defResult window WM_MOUSEMOVE wParam
                lParam).1.oldCursorY = GET_Y_LPARAM lParam)
      ∧ ((-1073741824 ≤ window.oldCursorX ∧ window.oldCursorX ≤ 1073741824
            ∧ -1073741824 ≤ window.oldCursorY ∧ window.oldCursorY ≤ 1073741824) →
          wrapInt32 (GET_X_LPARAM lParam - window.oldCursorX)
              = GET_X_LPARAM lParam - window.oldCursorX
            ∧ wrapInt32 (GET_Y_LPARAM lParam - window.oldCursorY)
              = GET_Y_LPARAM lParam - window.oldCursorY) := by
  rw [windowProc_WM_MOUSEMOVE_eq]
  unfold windowProc_WM_MOUSEMOVE trackCursorEnter
  refine ⟨?_, ?_, ?_, ?_, ?_, ?_⟩
  · rintro ⟨hx, hy⟩
    by_cases hi : window.cursorInside = true <;> simp [hx, hy, hi, Call.isCursorMotion]
  · intro hm hc hf
    by_cases hi : window.cursorInside = true <;> simp [hm, hc, hf, hi, Call.isCursorMotion]
  · intro hm hc hf
    simp [hm, hc, hf]
  · intro hm hc
    by_cases hi : window.cursorInside = true <;> simp [hm, hc, hi, Call.isCursorMotion]
  · intro x y
    by_cases hm : GET_X_LPARAM lParam ≠ window.oldCursorX
        ∨ GET_Y_LPARAM lParam ≠ window.oldCursorY <;>
      by_cases hc : window.cursorMode = GLFW_CURSOR_CAPTURED <;>
      by_cases hf : focusedWindow = some window.id <;>
      by_cases hi : window.cursorInside = true <;>
      simp [hm, hc, hf, hi]
  · rintro ⟨h1, h2, h3, h4⟩
    have hx := toShort_range (LOWORD lParam)
    have hy := toShort_range (HIWORD lParam)
    unfold GET_X_LPARAM GET_Y_LPARAM
    exact ⟨wrapInt32_eq_self _ (by omega) (by omega), wrapInt32_eq_self _ (by omega) (by omega)⟩

/-- Witness of C20: the focused window in captured cursor mode, cursor cached
at (10, 20), receives the position (15, 25): one motion event (5, 5), and the
cached position becomes (15, 25). -/
theorem windowProc_mouse_move_witness :
    (windowProc (sampleOS 0 []) (some 1) 0
        { sampleWindow with cursorMode := GLFW_CURSOR_CAPTURED } WM_MOUSEMOVE 0
        0x0019000F).2.1.filter Call.isCursorMotion
      = [Call._glfwInputCursorMotion 5 5]
      ∧ (windowProc (sampleOS 0 []) (some 1) 0
          { sampleWindow with cursorMode := GLFW_CURSOR_CAPTURED } WM_MOUSEMOVE 0
          0x0019000F).1.oldCursorX = 15 :=
  ⟨((windowProc_mouse_move (sampleOS 0 []) (some 1) 0
      { sampleWindow with cursorMode := GLFW_CURSOR_CAPTURED } 0 0x0019000F).2.1
        (Or.inl (by decide)) rfl rfl).trans (by decide),
    (((windowProc_mouse_move (sampleOS 0 []) (some 1) 0
      { sampleWindow with cursorMode := GLFW_CURSOR_CAPTURED } 0 0x0019000F).2.2.2.2.1
        5 5 (by decide)).1).trans (by decide)⟩

/-! ## Properties of the polling -/

theorem shift_and_one (p : Nat) : (p >>> 15) &&& 1 = 0 ↔ p.testBit 15 = false := by
  rw [Nat.and_one_is_mod, Nat.shiftRight_eq_div_pow, Nat.testBit_to_div_mod]
  constructor
  · intro h; simp [h]
  · intro h
    have := of_decide_eq_false h
    omega

/-- C15. After the message loop `_glfwPlatformPollEvents` emits, for the
focused window, a release of the left shift key exactly when the system
reports the key as not down (bit 15 of `GetAsyncKeyState(VK_LSHIFT)` clear)
and the key array of the window holds `1` for it, then likewise a release of
the right shift key, and no other input event; it never emits a press, and
makes no call when no window is focused. -/
theorem pollEvents_shift_fixup (GetAsyncKeyState : Nat → Nat) (clientSize : Int × Int)
    (ClientToScreen : Int × Int → Int × Int) (window : Window) :
    ((pollEventsAfterLoop GetAsyncKeyState clientSize ClientToScreen (some window)).2.filter
        Call.isInputEvent
      = (if (GetAsyncKeyState VK_LSHIFT).testBit 15 = false
            ∧ window.key GLFW_KEY_LEFT_SHIFT = 1 then
          [Call._glfwInputKey (some GLFW_KEY_LEFT_SHIFT) GLFW_RELEASE] else [])
        ++ (if (GetAsyncKeyState VK_RSHIFT).testBit 15 = false
            ∧ window.key GLFW_KEY_RIGHT_SHIFT = 1 then
          [Call._glfwInputKey (some GLFW_KEY_RIGHT_SHIFT) GLFW_RELEASE] else []))
      ∧ (∀ key, Call._glfwInputKey key GLFW_PRESS
          ∉ (pollEventsAfterLoop GetAsyncKeyState clientSize ClientToScreen (some window)).2)
      ∧ (pollEventsAfterLoop GetAsyncKeyState clientSize ClientToScreen none).2 = [] := by
  refine ⟨?_, ?_, rfl⟩
  · unfold pollEventsAfterLoop
    simp only [shift_and_one]
    by_cases hl : (GetAsyncKeyState VK_LSHIFT).testBit 15 = false
        ∧ window.key GLFW_KEY_LEFT_SHIFT = 1 <;>
      by_cases hr : (GetAsyncKeyState VK_RSHIFT).testBit 15 = false
        ∧ window.key GLFW_KEY_RIGHT_SHIFT = 1 <;>
      by_cases hc : window.cursorMode = GLFW_CURSOR_CAPTURED ∧ window.cursorCentered = false <;>
      simp [hl, hr, hc, Call.isInputEvent]
  · intro key
    unfold pollEventsAfterLoop
    simp only [shift_and_one]
    by_cases hl : (GetAsyncKeyState VK_LSHIFT).testBit 15 = false
        ∧ window.key GLFW_KEY_LEFT_SHIFT = 1 <;>
      by_cases hr : (GetAsyncKeyState VK_RSHIFT).testBit 15 = false
        ∧ window.key GLFW_KEY_RIGHT_SHIFT = 1 <;>
      by_cases hc : window.cursorMode = GLFW_CURSOR_CAPTURED ∧ window.cursorCentered = false <;>
      simp [hl, hr, hc]

/-- Witness of C15: the system reports no shift key down and the window
records the left one as pressed: one release, of the left shift key. -/
theorem pollEvents_shift_fixup_witness :
    (pollEventsAfterLoop (fun _ => 0) (640, 480) id
        (some { sampleWindow with
          key := fun k => if k = GLFW_KEY_LEFT_SHIFT then 1 else 0 })).2.filter
        Call.isInputEvent
      = [Call._glfwInputKey (some GLFW_KEY_LEFT_SHIFT) GLFW_RELEASE] :=
  ((pollEvents_shift_fixup (fun _ => 0) (640, 480) id
    { sampleWindow with key := fun k => if k = GLFW_KEY_LEFT_SHIFT then 1 else 0 }).1).trans
    (by decide)

/-! ## Properties of the window creation -/

theorem cleanTrace_append {l₁ l₂ : List Call} (h₁ : cleanTrace l₁) (h₂ : cleanTrace l₂) :
    cleanTrace (l₁ ++ l₂) := by
  intro c hc
  rcases List.mem_append.1 hc with h | h
  · exact h₁ c h
  · exact h₂ c h

theorem failedTrace_append {l₁ l₂ : List Call} (h₁ : cleanTrace l₁) (h₂ : failedTrace l₂) :
    failedTrace (l₁ ++ l₂) := by
  obtain ⟨pre, c, tail, hl, hpre, hc, hne, htail⟩ := h₂
  exact ⟨l₁ ++ pre, c, tail, by rw [hl, List.append_assoc], cleanTrace_append h₁ hpre, hc, hne,
    htail⟩

theorem cleanTrace_filter_failed {l : List Call} (h : cleanTrace l) :
    l.filter Call.failed = [] := by
  rw [List.filter_eq_nil_iff]
  intro c hc
  rw [(h c hc).1]
  exact Bool.false_ne_true

theorem cleanTrace_filter_isError {l : List Call} (h : cleanTrace l) :
    l.filter Call.isError = [] := by
  rw [List.filter_eq_nil_iff]
  intro c hc
  rw [(h c hc).2]
  exact Bool.false_ne_true

theorem cleanTrace_registerClass {l : List Call} (h : cleanTrace l) :
    Call.RegisterClass 0 ∉ l := by
  intro hc
  have := (h _ hc).1
  exact absurd this (by decide)

theorem failed_isAttempt {c : Call} (h : c.failed = true) : c.isAttempt = true := by
  cases c <;> first | rfl | exact absurd h (by simp [Call.failed])

theorem failed_isError {c : Call} (h : c.failed = true) : c.isError = false := by
  cases c <;> first | rfl | exact absurd h (by simp [Call.failed])

/-- What a trace that ends in a failed call contains: one platform error, one
failed call, which is the last attempt, and no failed registration. -/
theorem failedTrace_spec {calls : List Call} (h : failedTrace calls) :
    calls.filter Call.isError = [Call._glfwInputError GLFW_PLATFORM_ERROR]
      ∧ (calls.filter Call.failed).length = 1
      ∧ ((calls.filter Call.isAttempt).getLast?).map Call.failed = some true
      ∧ Call.RegisterClass 0 ∉ calls := by
  obtain ⟨pre, c, tail, hl, hpre, hc, hne, htail⟩ := h
  have hA := failed_isAttempt hc
  have hE := failed_isError hc
  subst hl
  have hreg : Call.RegisterClass 0 ∉ pre := cleanTrace_registerClass hpre
  rcases htail with rfl | rfl
  · refine ⟨?_, ?_, ?_, ?_⟩
    · rw [List.filter_append, cleanTrace_filter_isError hpre, List.nil_append,
        List.filter_cons_of_neg (by rw [hE]; exact Bool.false_ne_true)]
      rfl
    · rw [List.filter_append, cleanTrace_filter_failed hpre, List.nil_append,
        List.filter_cons_of_pos hc]
      rfl
    · rw [List.filter_append, List.filter_cons_of_pos hA]
      show ((pre.filter Call.isAttempt ++ [c]).getLast?).map Call.failed = some true
      rw [List.getLast?_concat, Option.map_some', hc]
    · intro hm
      rcases List.mem_append.1 hm with h | h
      · exact hreg h
      · rcases List.mem_cons.1 h with h | h
        · exact hne h.symm
        · simp at h
  · refine ⟨?_, ?_, ?_, ?_⟩
    · rw [List.filter_append, cleanTrace_filter_isError hpre, List.nil_append,
        List.filter_cons_of_neg (by rw [hE]; exact Bool.false_ne_true)]
      rfl
    · rw [List.filter_append, cleanTrace_filter_failed hpre, List.nil_append,
        List.filter_cons_of_pos hc]
      rfl
    · rw [List.filter_append, List.filter_cons_of_pos hA]
      show ((pre.filter Call.isAttempt ++ [c]).getLast?).map Call.failed = some true
      rw [List.getLast?_concat, Option.map_some', hc]
    · intro hm
      rcases List.mem_append.1 hm with h | h
      · exact hreg h
      · rcases List.mem_cons.1 h with h | h
        · exact hne h.symm
        · simp at h

/-- The calls `createWindow` makes: either none fails, or the trace ends in the
failed call and its error and `createWindow` returns `GL_FALSE`. -/
theorem createWindow_trace (results : CreationResults) (attempt : Nat) (window : Window)
    (wndconfig : WndConfig) :
    cleanTrace (createWindow results attempt window wndconfig).2.1
      ∨ (failedTrace (createWindow results attempt window wndconfig).2.1
        ∧ (createWindow results attempt window wndconfig).2.2 = false) := by
  unfold createWindow
  dsimp only
  by_cases hT : results._glfwCreateWideStringFromUTF8 attempt = false
  · rw [if_pos hT]
    exact Or.inr ⟨⟨[], _, _, rfl, by intro c hc; simp at hc, rfl, by simp, Or.inl rfl⟩, rfl⟩
  · rw [if_neg hT]
    by_cases hH : results.CreateWindowEx attempt = 0
    · rw [if_pos hH, hH]
      refine Or.inr ⟨⟨[Call._glfwCreateWideStringFromUTF8 true], _, _, rfl, ?_, rfl, by simp,
        Or.inr rfl⟩, rfl⟩
      intro c hc
      rw [List.mem_singleton] at hc
      subst hc
      exact ⟨rfl, rfl⟩
    · rw [if_neg hH]
      have hclean : ∀ (b : Bool) (e s : Nat) (x y w h : Int), cleanTrace
          ([Call._glfwCreateWideStringFromUTF8 true,
            Call.CreateWindowEx e s x y w h (results.CreateWindowEx attempt), Call.free]
            ++ [Call._glfwCreateContext b]) := by
        intro b e s x y w h c hc
        simp only [List.cons_append, List.nil_append, List.mem_cons, List.mem_singleton,
          List.mem_nil_iff, or_false] at hc
        rcases hc with rfl | rfl | rfl | rfl
        · exact ⟨rfl, rfl⟩
        · exact ⟨by simpa [Call.failed] using hH, rfl⟩
        · exact ⟨rfl, rfl⟩
        · exact ⟨rfl, rfl⟩
      by_cases hC : results._glfwCreateContext attempt = false
      · rw [if_pos hC]
        exact Or.inl (hclean _ _ _ _ _ _ _)
      · rw [if_neg hC]
        exact Or.inl (hclean _ _ _ _ _ _ _)

theorem destroyWindow_trace (window : Window) : cleanTrace (destroyWindow window).2 := by
  unfold destroyWindow
  split
  · intro c hc
    simp only [List.mem_cons, List.mem_singleton, List.mem_nil_iff, or_false] at hc
    rcases hc with rfl | rfl <;> exact ⟨rfl, rfl⟩
  · intro c hc
    simp only [List.mem_cons, List.mem_singleton, List.mem_nil_iff, or_false] at hc
    subst hc
    exact ⟨rfl, rfl⟩

theorem showWindow_trace (b : Bool) :
    cleanTrace (if b then _glfwPlatformShowWindow ++ [Call.SetWindowPos] else []) := by
  cases b
  · intro c hc
    simp at hc
  · intro c hc
    revert c
    decide

/-- The calls `_glfwPlatformCreateWindow` makes: either none fails, or it
returns `GL_FALSE` and the trace is the failed registration and its error, or
ends in the failed call and its error. -/
theorem platformCreateWindow_trace (results : CreationResults) (classAtom : Nat)
    (window : Window) (wndconfig : WndConfig) :
    cleanTrace (_glfwPlatformCreateWindow results classAtom window wndconfig).2.2.1
      ∨ ((_glfwPlatformCreateWindow results classAtom window wndconfig).2.2.2 = false
        ∧ ((_glfwPlatformCreateWindow results classAtom window wndconfig).2.2.1
            = [Call.RegisterClass 0, Call._glfwInputError GLFW_PLATFORM_ERROR]
          ∨ failedTrace (_glfwPlatformCreateWindow results classAtom window wndconfig).2.2.1)) := by
  unfold _glfwPlatformCreateWindow
  have hreg : ((if classAtom = 0 then registerWindowClass results else (classAtom, [])).1 = 0
        ∧ (if classAtom = 0 then registerWindowClass results else (classAtom, [])).2
          = [Call.RegisterClass 0, Call._glfwInputError GLFW_PLATFORM_ERROR])
      ∨ ((if classAtom = 0 then registerWindowClass results else (classAtom, [])).1 ≠ 0
        ∧ cleanTrace (if classAtom = 0 then registerWindowClass results else (classAtom, [])).2) := by
    by_cases hA : classAtom = 0
    · rw [if_pos hA]
      unfold registerWindowClass
      dsimp only
      by_cases hR : results.RegisterClass = 0
      · rw [if_pos hR, hR]
        exact Or.inl ⟨rfl, rfl⟩
      · rw [if_neg hR]
        refine Or.inr ⟨hR, ?_⟩
        intro c hc
        rw [List.mem_singleton] at hc
        subst hc
        exact ⟨by simpa [Call.failed] using hR, rfl⟩
    · rw [if_neg hA]
      refine Or.inr ⟨hA, ?_⟩
      intro c hc
      simp at hc
  generalize (if classAtom = 0 then registerWindowClass results else (classAtom, []))
    = registered at hreg ⊢
  dsimp only
  by_cases h0 : registered.1 = 0
  · rw [if_pos h0]
    rcases hreg with ⟨_, h⟩ | ⟨h, _⟩
    · exact Or.inr ⟨rfl, Or.inl h⟩
    · exact absurd h0 h
  · rw [if_neg h0]
    have hR : cleanTrace registered.2 := by
      rcases hreg with ⟨h, _⟩ | ⟨_, h⟩
      · exact absurd h h0
      · exact h
    have hv : cleanTrace (registered.2 ++ if window.monitor = true then [Call._glfwSetVideoMode]
        else []) := by
      refine cleanTrace_append hR ?_
      intro c hc
      split at hc
      · rw [List.mem_singleton] at hc
        subst hc
        exact ⟨rfl, rfl⟩
      · simp at hc
    generalize (registered.2 ++ if window.monitor = true then [Call._glfwSetVideoMode] else [])
      = calls1 at hv ⊢
    by_cases hs : window.monitor = true ∧ results._glfwSetVideoMode = false
    · rw [if_pos hs]
      exact Or.inl hv
    · rw [if_neg hs]
      have hfirst := createWindow_trace results 0 window wndconfig
      generalize createWindow results 0 window wndconfig = first at hfirst ⊢
      by_cases hf : first.2.2 = false
      · rw [if_pos hf]
        rcases hfirst with h | ⟨h, _⟩
        · exact Or.inl (cleanTrace_append hv h)
        · exact Or.inr ⟨rfl, Or.inr (failedTrace_append hv h)⟩
      · rw [if_neg hf]
        have hfc : cleanTrace first.2.1 := by
          rcases hfirst with h | ⟨_, h⟩
          · exact h
          · exact absurd h hf
        have h2 : cleanTrace (calls1 ++ first.2.1 ++ [Call._glfwAnalyzeContext]) := by
          refine cleanTrace_append (cleanTrace_append hv hfc) ?_
          intro c hc
          rw [List.mem_singleton] at hc
          subst hc
          exact ⟨rfl, rfl⟩
        generalize (calls1 ++ first.2.1 ++ [Call._glfwAnalyzeContext]) = calls2 at h2 ⊢
        by_cases hi : results._glfwAnalyzeContext = _GLFW_RECREATION_IMPOSSIBLE
        · rw [if_pos hi]
          exact Or.inl h2
        · rw [if_neg hi]
          have hshown := showWindow_trace window.monitor
          by_cases hr : results._glfwAnalyzeContext = _GLFW_RECREATION_REQUIRED
          · rw [if_pos hr]
            have hd := destroyWindow_trace first.1
            have hsecond := createWindow_trace results 1 (destroyWindow first.1).1 wndconfig
            generalize createWindow results 1 (destroyWindow first.1).1 wndconfig
              = second at hsecond ⊢
            have h3 : cleanTrace (calls2 ++ [Call._glfwPlatformMakeContextCurrent]
                ++ (destroyWindow first.1).2) := by
              refine cleanTrace_append (cleanTrace_append h2 ?_) hd
              intro c hc
              rw [List.mem_singleton] at hc
              subst hc
              exact ⟨rfl, rfl⟩
            by_cases hg : second.2.2 = false
            · rw [if_pos hg]
              rcases hsecond with h | ⟨h, _⟩
              · exact Or.inl (cleanTrace_append h3 h)
              · exact Or.inr ⟨rfl, Or.inr (failedTrace_append h3 h)⟩
            · rw [if_neg hg]
              have hsc : cleanTrace second.2.1 := by
                rcases hsecond with h | ⟨_, h⟩
                · exact h
                · exact absurd h hg
              exact Or.inl (cleanTrace_append (cleanTrace_append h3 hsc) hshown)
          · rw [if_neg hr]
            exact Or.inl (cleanTrace_append h2 hshown)

/-- C14. Whenever one of the calls `_glfwPlatformCreateWindow` makes to
register the window class, to convert the title to a wide string or to create
the native window fails (`RegisterClass` returns no atom,
`_glfwCreateWideStringFromUTF8` no string, `CreateWindowEx` no handle),
`_glfwPlatformCreateWindow` returns `GL_FALSE`; the error reports it makes are
exactly one, of category `GLFW_PLATFORM_ERROR`; exactly one call of the trace
is a failed one and it is the last registration, conversion or creation of the
trace, so the failed call is not repeated and nothing is retried; and when the
registration fails the trace holds no `CreateWindowEx` at all. The error
reports counted are those of this file: what `_glfwSetVideoMode`,
`_glfwCreateContext` and `_glfwAnalyzeContext` report themselves is outside
it. -/
theorem createWindow_failure (results : CreationResults) (classAtom : Nat) (window : Window)
    (wndconfig : WndConfig)
    (hfail : ∃ c ∈ (_glfwPlatformCreateWindow results classAtom window wndconfig).2.2.1,
      c.failed = true) :
    (_glfwPlatformCreateWindow results classAtom window wndconfig).2.2.2 = false
      ∧ (_glfwPlatformCreateWindow results classAtom window wndconfig).2.2.1.filter Call.isError
          = [Call._glfwInputError GLFW_PLATFORM_ERROR]
      ∧ ((_glfwPlatformCreateWindow results classAtom window wndconfig).2.2.1.filter
          Call.failed).length = 1
      ∧ (((_glfwPlatformCreateWindow results classAtom window wndconfig).2.2.1.filter
          Call.isAttempt).getLast?).map Call.failed = some true
      ∧ (Call.RegisterClass 0
            ∈ (_glfwPlatformCreateWindow results classAtom window wndconfig).2.2.1 →
          (_glfwPlatformCreateWindow results classAtom window wndconfig).2.2.1.filter
            Call.isCreateWindowEx = []) := by
  obtain ⟨c, hc, hcf⟩ := hfail
  rcases platformCreateWindow_trace results classAtom window wndconfig with h | ⟨hr, h | h⟩
  · rw [(h c hc).1] at hcf
    exact absurd hcf Bool.false_ne_true
  · rw [h]
    exact ⟨hr, by decide, by decide, by decide, fun _ => by decide⟩
  · obtain ⟨h1, h2, h3, h4⟩ := failedTrace_spec h
    exact ⟨hr, h1, h2, h3, fun hm => absurd hm h4⟩

/-- C14 at a title that does not convert, the window class not yet
registered: the trace is the registration, the failed conversion and the
error. -/
theorem createWindow_failure_witness :
    (∃ c ∈ (_glfwPlatformCreateWindow (sampleResults false) 0 sampleWindow
        ⟨640, 480, true⟩).2.2.1, c.failed = true)
      ∧ (_glfwPlatformCreateWindow (sampleResults false) 0 sampleWindow ⟨640, 480, true⟩).2.2.1
          = [Call.RegisterClass 49152, Call._glfwCreateWideStringFromUTF8 false,
             Call._glfwInputError GLFW_PLATFORM_ERROR]
      ∧ (_glfwPlatformCreateWindow (sampleResults false) 0 sampleWindow
          ⟨640, 480, true⟩).2.2.2 = false
      ∧ (_glfwPlatformCreateWindow (sampleResults false) 0 sampleWindow
          ⟨640, 480, true⟩).2.2.1.filter Call.isError
            = [Call._glfwInputError GLFW_PLATFORM_ERROR] :=
  have hfail : ∃ c ∈ (_glfwPlatformCreateWindow (sampleResults false) 0 sampleWindow
      ⟨640, 480, true⟩).2.2.1, c.failed = true :=
    ⟨Call._glfwCreateWideStringFromUTF8 false, by decide, rfl⟩
  ⟨hfail, by decide,
    (createWindow_failure (sampleResults false) 0 sampleWindow ⟨640, 480, true⟩ hfail).1,
    (createWindow_failure (sampleResults false) 0 sampleWindow ⟨640, 480, true⟩ hfail).2.1⟩

/-! ## Properties of the icon creation -/

/-- C18. The buffer `createIcon` copies into the bitmap keeps the lines in the
order of the image, against the comment before the loop ("we also need to
convert lines, because Windows wants bottom-to-top RGBA"): for the image of
two rows of two pixels with bytes 1 to 16, on a platform of 32-bit and on one
of 64-bit `size_t`, row 0 of the buffer holds the pixels of row 0 of the image
and row 1 those of row 1, red and blue exchanged; row 0 of the buffer is not
row 1 of the image, with or without the exchange. -/
theorem createIcon_lines_not_converted :
    createIcon 4294967295 sampleMalloc sampleImage
        = some (some [3, 2, 1, 4, 7, 6, 5, 8, 11, 10, 9, 12, 15, 14, 13, 16], [])
      ∧ createIcon 18446744073709551615 sampleMalloc sampleImage
        = some (some [3, 2, 1, 4, 7, 6, 5, 8, 11, 10, 9, 12, 15, 14, 13, 16], [])
      ∧ pixelRow 2 (BGRAData sampleImage) 0 = swapRedBlue (pixelRow 2 sampleImage.data 0)
      ∧ pixelRow 2 (BGRAData sampleImage) 1 = swapRedBlue (pixelRow 2 sampleImage.data 1)
      ∧ pixelRow 2 (BGRAData sampleImage) 0 ≠ swapRedBlue (pixelRow 2 sampleImage.data 1)
      ∧ pixelRow 2 (BGRAData sampleImage) 0 ≠ pixelRow 2 sampleImage.data 1 := by
  decide

theorem flatMap_range_length (g : Nat → List Nat) (hg : ∀ i, (g i).length = 4) (n : Nat) :
    ((List.range n).flatMap g).length = 4 * n := by
  induction n with
  | zero => rfl
  | succ n ih =>
    rw [List.range_succ, List.flatMap_append, List.length_append, ih, List.flatMap_singleton, hg]
    omega

theorem flatMap_range_getElem (g : Nat → List Nat) (hg : ∀ i, (g i).length = 4) (n i k : Nat)
    (hi : i < n) (hk : k < 4) :
    ((List.range n).flatMap g)[4 * i + k]? = (g i)[k]? := by
  induction n with
  | zero => omega
  | succ n ih =>
    rw [List.range_succ, List.flatMap_append, List.flatMap_singleton]
    rcases Nat.lt_succ_iff_lt_or_eq.1 hi with h | h
    · rw [List.getElem?_append_left (by rw [flatMap_range_length g hg]; omega)]
      exact ih h
    · subst h
      rw [List.getElem?_append_right (by rw [flatMap_range_length g hg]; omega),
        flatMap_range_length g hg]
      congr 1
      omega

theorem BGRAData_length (image : GLFWimage) :
    (BGRAData image).length = 4 * (wrapInt32 (image.width * image.height)).toNat := by
  unfold BGRAData
  exact flatMap_range_length
    (fun i => [image.data.getD (4 * i + 2) 0, image.data.getD (4 * i + 1) 0,
      image.data.getD (4 * i) 0, image.data.getD (4 * i + 3) 0])
    (fun _ => rfl) _

/-- The four bytes the loop of `createIcon` writes for pixel `i`. -/
theorem BGRAData_pixel (image : GLFWimage) (i : Nat)
    (hi : i < (wrapInt32 (image.width * image.height)).toNat) :
    (BGRAData image)[4 * i]? = some (image.data.getD (4 * i + 2) 0)
      ∧ (BGRAData image)[4 * i + 1]? = some (image.data.getD (4 * i + 1) 0)
      ∧ (BGRAData image)[4 * i + 2]? = some (image.data.getD (4 * i) 0)
      ∧ (BGRAData image)[4 * i + 3]? = some (image.data.getD (4 * i + 3) 0) := by
  unfold BGRAData
  refine ⟨?_, ?_, ?_, ?_⟩
  · exact flatMap_range_getElem
      (fun i => [image.data.getD (4 * i + 2) 0, image.data.getD (4 * i + 1) 0,
        image.data.getD (4 * i) 0, image.data.getD (4 * i + 3) 0])
      (fun _ => rfl) _ i 0 hi (by omega)
  · exact flatMap_range_getElem
      (fun i => [image.data.getD (4 * i + 2) 0, image.data.getD (4 * i + 1) 0,
        image.data.getD (4 * i) 0, image.data.getD (4 * i + 3) 0])
      (fun _ => rfl) _ i 1 hi (by omega)
  · exact flatMap_range_getElem
      (fun i => [image.data.getD (4 * i + 2) 0, image.data.getD (4 * i + 1) 0,
        image.data.getD (4 * i) 0, image.data.getD (4 * i + 3) 0])
      (fun _ => rfl) _ i 2 hi (by omega)
  · exact flatMap_range_getElem
      (fun i => [image.data.getD (4 * i + 2) 0, image.data.getD (4 * i + 1) 0,
        image.data.getD (4 * i) 0, image.data.getD (4 * i + 3) 0])
      (fun _ => rfl) _ i 3 hi (by omega)

theorem getElem_eq_some_getD (l : List Nat) (j : Nat) (h : j < l.length) :
    l[j]? = some (l.getD j 0) := by
  rw [List.getD_eq_getElem?_getD, List.getElem?_eq_getElem h]
  rfl

theorem getD_of_getElem (l : List Nat) (j x : Nat) (h : l[j]? = some x) : l.getD j 0 = x := by
  rw [List.getD_eq_getElem?_getD, h]
  rfl

/-- Converting the converted buffer again gives back the pixels of the
image. -/
theorem BGRAData_twice (image : GLFWimage)
    (hdata : 4 * (wrapInt32 (image.width * image.height)).toNat ≤ image.data.length) :
    BGRAData { image with data := BGRAData image }
      = image.data.take (4 * (wrapInt32 (image.width * image.height)).toNat) := by
  apply List.ext_getElem?
  intro j
  by_cases hj : j < 4 * (wrapInt32 (image.width * image.height)).toNat
  · obtain ⟨i, k, hk, rfl⟩ : ∃ i k, k < 4 ∧ j = 4 * i + k :=
      ⟨j / 4, j % 4, Nat.mod_lt _ (by omega), by omega⟩
    have hi : i < (wrapInt32 (image.width * image.height)).toNat := by omega
    obtain ⟨a0, a1, a2, a3⟩ := BGRAData_pixel image i hi
    obtain ⟨b0, b1, b2, b3⟩ := BGRAData_pixel { image with data := BGRAData image } i hi
    dsimp only at b0 b1 b2 b3
    rw [getD_of_getElem _ _ _ a2] at b0
    rw [getD_of_getElem _ _ _ a1] at b1
    rw [getD_of_getElem _ _ _ a0] at b2
    rw [getD_of_getElem _ _ _ a3] at b3
    rw [List.getElem?_take_of_lt hj]
    have hk' : k = 0 ∨ k = 1 ∨ k = 2 ∨ k = 3 := by omega
    rcases hk' with rfl | rfl | rfl | rfl
    · rw [Nat.add_zero, b0, getElem_eq_some_getD image.data _ (by omega)]
    · rw [b1, getElem_eq_some_getD image.data _ (by omega)]
    · rw [b2, getElem_eq_some_getD image.data _ (by omega)]
    · rw [b3, getElem_eq_some_getD image.data _ (by omega)]
  · rw [List.getElem?_eq_none (by
        have := BGRAData_length { image with data := BGRAData image }
        dsimp only at this
        omega),
      List.getElem?_eq_none (by rw [List.length_take]; omega)]

/-- C21, as stated, fails. For the image of 32768 rows of 32768 pixels, whose
data holds all its `4 * 32768 * 32768` bytes, the pixel count fits an `int`
but the `int` product `image->width * image->height * 4` wraps to `0`:
`malloc` is asked for a block of no bytes, the loop writes outside it from
pixel 0 on, and the behaviour of `createIcon` is undefined, with a `size_t` of
32 bits and with one of 64 bits; `memcpy`, asked for 0 bytes, would copy
nothing. There are no output bytes 0 to 3 to equal the input bytes. -/
theorem createIcon_swaps_red_blue_counterexample :
    (0 : Int) < hugeImage.width * hugeImage.height
      ∧ hugeImage.width * hugeImage.height < 2147483648
      ∧ (hugeImage.data.length : Int) = 4 * (hugeImage.width * hugeImage.height)
      ∧ toSizeT 4294967295 (wrapInt32 (wrapInt32 (hugeImage.width * hugeImage.height) * 4)) = 0
      ∧ toSizeT 18446744073709551615
          (wrapInt32 (wrapInt32 (hugeImage.width * hugeImage.height) * 4)) = 0
      ∧ createIcon 4294967295 sampleMalloc hugeImage = none
      ∧ createIcon 18446744073709551615 sampleMalloc hugeImage = none := by
  have hd : hugeImage.data = List.replicate 4294967296 7 := rfl
  refine ⟨by decide, by decide, ?_, by decide, by decide, by decide, by decide⟩
  rw [hd, List.length_replicate]
  decide

/-- C21, amended. For an image of a non-negative pixel count `width * height`
whose byte count `width * height * 4` fits an `int`, whose data holds its
pixels, on a platform whose `size_t` holds every non-negative `int`, and when
`malloc` succeeds: the bytes `createIcon` copies into the bitmap are the four
bytes of each pixel, and for every pixel index `i` below `width * height` the
bytes `4i`, `4i+1`, `4i+2`, `4i+3` are the bytes `4i+2`, `4i+1`, `4i`, `4i+3` of
the image: red and blue are exchanged, green and alpha kept, every pixel at
its own index. Converting the converted buffer again gives back the pixels of
the image, which are the whole data when the data holds nothing else. The
image itself is only read. -/
theorem createIcon_swaps_red_blue (SIZE_MAX : Nat) (malloc : Nat → Option (List Nat))
    (block : List Nat) (image : GLFWimage)
    (hfit : 0 ≤ image.width * image.height ∧ image.width * image.height * 4 < 2147483648)
    (hsize : 2147483647 ≤ SIZE_MAX)
    (hmalloc : malloc (4 * (image.width * image.height).toNat) = some block)
    (hdata : 4 * (image.width * image.height).toNat ≤ image.data.length) :
    createIcon SIZE_MAX malloc image = some (some (BGRAData image), [])
      ∧ (BGRAData image).length = 4 * (image.width * image.height).toNat
      ∧ (∀ i : Nat, (i : Int) < image.width * image.height →
          ∃ r g b a,
            (image.data[4 * i]? = some r ∧ image.data[4 * i + 1]? = some g
              ∧ image.data[4 * i + 2]? = some b ∧ image.data[4 * i + 3]? = some a)
            ∧ ((BGRAData image)[4 * i]? = some b ∧ (BGRAData image)[4 * i + 1]? = some g
              ∧ (BGRAData image)[4 * i + 2]? = some r
              ∧ (BGRAData image)[4 * i + 3]? = some a))
      ∧ BGRAData { image with data := BGRAData image }
          = image.data.take (4 * (image.width * image.height).toNat)
      ∧ (image.data.length = 4 * (image.width * image.height).toNat →
          BGRAData { image with data := BGRAData image } = image.data) := by
  have hw : wrapInt32 (image.width * image.height) = image.width * image.height :=
    wrapInt32_eq_self _ (by omega) (by omega)
  have hw4 : wrapInt32 (image.width * image.height * 4) = image.width * image.height * 4 :=
    wrapInt32_eq_self _ (by omega) (by omega)
  have hlen := BGRAData_length image
  have htwice := BGRAData_twice image (by rw [hw]; exact hdata)
  rw [hw] at hlen htwice
  have hs : toSizeT SIZE_MAX (image.width * image.height * 4)
      = 4 * (image.width * image.height).toNat := by
    unfold toSizeT
    rw [Int.emod_eq_of_lt (by omega) (by omega)]
    omega
  refine ⟨?_, hlen, ?_, htwice, ?_⟩
  · unfold createIcon
    dsimp only
    rw [hw, hw4, hs, hmalloc]
    dsimp only
    rw [if_neg (by omega), List.take_left' hlen]
  · intro i hi
    have hi' : i < (image.width * image.height).toNat := by omega
    obtain ⟨a0, a1, a2, a3⟩ := BGRAData_pixel image i (by rw [hw]; exact hi')
    exact ⟨_, _, _, _,
      ⟨getElem_eq_some_getD _ _ (by omega), getElem_eq_some_getD _ _ (by omega),
        getElem_eq_some_getD _ _ (by omega), getElem_eq_some_getD _ _ (by omega)⟩,
      ⟨a0, a1, a2, a3⟩⟩
  · intro h
    rw [htwice, ← h, List.take_length]

/-- Witness of C21, amended: the image of two rows of two pixels with bytes 1
to 16, with a `size_t` of 32 bits; pixel 1 has the bytes 5, 6, 7, 8 and is
converted to 7, 6, 5, 8, and two conversions give back the data. -/
theorem createIcon_swaps_red_blue_witness :
    createIcon 4294967295 sampleMalloc sampleImage = some (some (BGRAData sampleImage), [])
      ∧ (BGRAData sampleImage).length = 16
      ∧ (∃ r g b a,
          (sampleImage.data[4]? = some r ∧ sampleImage.data[5]? = some g
            ∧ sampleImage.data[6]? = some b ∧ sampleImage.data[7]? = some a)
          ∧ ((BGRAData sampleImage)[4]? = some b ∧ (BGRAData sampleImage)[5]? = some g
            ∧ (BGRAData sampleImage)[6]? = some r ∧ (BGRAData sampleImage)[7]? = some a))
      ∧ BGRAData { sampleImage with data := BGRAData sampleImage } = sampleImage.data
      ∧ BGRAData sampleImage = [3, 2, 1, 4, 7, 6, 5, 8, 11, 10, 9, 12, 15, 14, 13, 16] :=
  have h := createIcon_swaps_red_blue 4294967295 sampleMalloc (List.replicate 16 0)
    sampleImage (by decide) (by decide) rfl (by decide)
  ⟨h.1, h.2.1, h.2.2.1 1 (by decide), h.2.2.2.2 rfl, by decide⟩

end Glfw
